import Mathlib

/-!
# Verification of the Platformer-Game simulation core

A shallow embedding of the deterministic simulation core found in
`src/components/ProfilerOverlay.tsx` (the fixed-timestep platformer engine),
together with its configuration from `src/unnamed/part_000` (constants) and
the data model from `src/types.ts`.

Modelling conventions:
* JavaScript `number` is modelled as `ℚ` (exact arithmetic; none of the
  verified properties depend on IEEE-754 rounding).
* Calls to `Math.random()`, `Math.sqrt/sin/cos/atan2` and `Date.now()` are
  modelled through an uninterpreted environment record `Ext` supplied to each
  tick; every call site reads a dedicated component (indexed by the loop
  iteration where the source draws inside a loop).  No theorem below depends
  on the distribution of these values.
* Counters that the source only ever sets to small non-negative integers
  (`comboStep`, `comboCount`, `dashCount`, animation frames, sub-step counts)
  are modelled as `ℕ`; frame timers, positions, velocities and all profile
  values stay `ℚ` exactly as the source treats them.
* In-place mutation is modelled by explicit state passing; `forEach` loops
  become folds in iteration order, and backwards-iterating `splice` removal
  loops become order-preserving filters.
* String-valued sprite-path fields of the animation manifest are dropped
  (the simulation only reads `count`, `frameDelay`, `loop`).
-/

namespace Game

/-- 2-D vector (`Vector2` in `src/types.ts`). -/
structure Vec2 where
  x : ℚ
  y : ℚ

/-- Axis-aligned rectangle (`Rect` in `src/types.ts`). -/
structure Rect where
  x : ℚ
  y : ℚ
  width : ℚ
  height : ℚ

/-- The six input commands, sampled once per tick (`InputState`). -/
structure InputState where
  left : Bool
  right : Bool
  jump : Bool
  down : Bool
  dash : Bool
  attack : Bool

/-- `PhysicsProfile` from `src/types.ts`: the flat tunable-constant record. -/
structure PhysicsProfile where
  gravity : ℚ
  terminalVelocity : ℚ
  runSpeed : ℚ
  groundAccel : ℚ
  groundDecel : ℚ
  airAccel : ℚ
  airDecel : ℚ
  jumpForce : ℚ
  doubleJumpForce : ℚ
  jumpCutMultiplier : ℚ
  jumpBufferFrames : ℚ
  coyoteFrames : ℚ
  wallSlideSpeed : ℚ
  wallJumpForceX : ℚ
  wallJumpForceY : ℚ
  dashSpeed : ℚ
  dashDurationFrames : ℚ
  dashCooldownFrames : ℚ
  maxDashes : ℚ
  attackDurationFrames : ℚ
  attackCooldownFrames : ℚ
  attackLungeSpeed : ℚ
  airLaunchForce : ℚ
  enemyLaunchForce : ℚ
  comboWindowFrames : ℚ
  comboKeepAliveFrames : ℚ

/-- `DEFAULT_PHYSICS_PROFILE` from `src/unnamed/part_000` (the live version
with `maxDashes`). -/
def DEFAULT_PHYSICS_PROFILE : PhysicsProfile where
  gravity := 0.9
  terminalVelocity := 18.0
  runSpeed := 9.0
  groundAccel := 1.2
  groundDecel := 1.5
  airAccel := 0.8
  airDecel := 0.2
  jumpForce := 18.0
  doubleJumpForce := 16.0
  jumpCutMultiplier := 0.4
  jumpBufferFrames := 5
  coyoteFrames := 6
  wallSlideSpeed := 4.0
  wallJumpForceX := 10
  wallJumpForceY := 16
  dashSpeed := 24.0
  dashDurationFrames := 8
  dashCooldownFrames := 30
  maxDashes := 3
  attackDurationFrames := 12
  attackCooldownFrames := 14
  attackLungeSpeed := 12.0
  airLaunchForce := 14.0
  enemyLaunchForce := 18.0
  comboWindowFrames := 45
  comboKeepAliveFrames := 60

/-- `GAME_CONFIG` numeric fields used by the simulation. -/
def PLAYER_WIDTH : ℚ := 32
def PLAYER_HEIGHT : ℚ := 64
def PLAYER_MAX_HEALTH : ℚ := 100
def PLAYER_I_FRAMES : ℚ := 90
def CANVAS_WIDTH : ℚ := 1280
def CANVAS_HEIGHT : ℚ := 720

/-- `AI_CONFIG` from `src/unnamed/part_000`. -/
def AI_PATROL_SPEED : ℚ := 2.0
def AI_CHASE_SPEED : ℚ := 4.5
def AI_DETECTION_RANGE : ℚ := 300
def AI_ATTACK_RANGE : ℚ := 60
def AI_ATTACK_CHARGE : ℚ := 40
def AI_ATTACK_COOLDOWN : ℚ := 60
def AI_ATTACK_DURATION : ℚ := 20

/-- `AnimationKey` from `src/types.ts`. -/
inductive AnimationKey where
  | IDLE | RUN | JUMP | FALL | DASH
  | ATTACK | ATTACK_B | ATTACK_C | ATTACK_AIR_A | ATTACK_DASH_A
  | WALL_SLIDE | VFX_SLASH | VFX_HIT
  deriving DecidableEq

/-- The fields of an `ANIMATION_MANIFEST` entry read by the simulation. -/
structure AnimConfig where
  count : ℕ
  frameDelay : ℕ
  loop : Bool

/-- `ANIMATION_MANIFEST` from `src/unnamed/part_000` (live version),
restricted to the three gameplay-relevant fields. -/
def ANIMATION_MANIFEST : AnimationKey → AnimConfig
  | .RUN => ⟨8, 4, true⟩
  | .IDLE => ⟨1, 8, true⟩
  | .JUMP => ⟨1, 4, false⟩
  | .FALL => ⟨1, 4, true⟩
  | .DASH => ⟨1, 4, true⟩
  | .ATTACK => ⟨1, 4, false⟩
  | .ATTACK_B => ⟨1, 4, false⟩
  | .ATTACK_C => ⟨1, 4, false⟩
  | .ATTACK_AIR_A => ⟨1, 4, false⟩
  | .ATTACK_DASH_A => ⟨1, 4, false⟩
  | .VFX_SLASH => ⟨12, 1, false⟩
  | .VFX_HIT => ⟨6, 2, false⟩
  | .WALL_SLIDE => ⟨1, 10, true⟩

/-- `EnemyState` from `src/types.ts`. -/
inductive EnemyState where
  | IDLE | PATROL | CHASE | ATTACK | HIT
  deriving DecidableEq

/-- `EnemyType` from `src/types.ts`. -/
inductive EnemyType where
  | WALKER | TURRET | FLYER
  deriving DecidableEq

/-- Turret-specific aim payload (`Enemy.laserData`). -/
structure LaserData where
  targetX : ℚ
  targetY : ℚ
  isFiring : Bool

/-- `Enemy` from `src/types.ts`. -/
structure Enemy where
  id : String
  type : EnemyType
  position : Vec2
  velocity : Vec2
  width : ℚ
  height : ℚ
  health : ℚ
  maxHealth : ℚ
  isDead : Bool
  color : String
  hitTimer : ℚ
  state : EnemyState
  facingRight : Bool
  patrolOriginX : ℚ
  patrolRange : ℚ
  detectionRange : ℚ
  attackRange : ℚ
  attackCooldownTimer : ℚ
  chargeTimer : ℚ
  attackDurationTimer : ℚ
  laserData : Option LaserData

/-- `Partial<Enemy>` (the spawner's `enemyTemplate`): every field optional. -/
structure EnemyTemplate where
  id : Option String := none
  type : Option EnemyType := none
  position : Option Vec2 := none
  velocity : Option Vec2 := none
  width : Option ℚ := none
  height : Option ℚ := none
  health : Option ℚ := none
  maxHealth : Option ℚ := none
  isDead : Option Bool := none
  color : Option String := none
  hitTimer : Option ℚ := none
  state : Option EnemyState := none
  facingRight : Option Bool := none
  patrolOriginX : Option ℚ := none
  patrolRange : Option ℚ := none
  detectionRange : Option ℚ := none
  attackRange : Option ℚ := none
  attackCooldownTimer : Option ℚ := none
  chargeTimer : Option ℚ := none
  attackDurationTimer : Option ℚ := none
  laserData : Option (Option LaserData) := none

/-- JS object-spread `{...base, ...tmpl}`: every field present in the
template overrides the base. -/
def mergeTemplate (base : Enemy) (t : EnemyTemplate) : Enemy where
  id := t.id.getD base.id
  type := t.type.getD base.type
  position := t.position.getD base.position
  velocity := t.velocity.getD base.velocity
  width := t.width.getD base.width
  height := t.height.getD base.height
  health := t.health.getD base.health
  maxHealth := t.maxHealth.getD base.maxHealth
  isDead := t.isDead.getD base.isDead
  color := t.color.getD base.color
  hitTimer := t.hitTimer.getD base.hitTimer
  state := t.state.getD base.state
  facingRight := t.facingRight.getD base.facingRight
  patrolOriginX := t.patrolOriginX.getD base.patrolOriginX
  patrolRange := t.patrolRange.getD base.patrolRange
  detectionRange := t.detectionRange.getD base.detectionRange
  attackRange := t.attackRange.getD base.attackRange
  attackCooldownTimer := t.attackCooldownTimer.getD base.attackCooldownTimer
  chargeTimer := t.chargeTimer.getD base.chargeTimer
  attackDurationTimer := t.attackDurationTimer.getD base.attackDurationTimer
  laserData := t.laserData.getD base.laserData

/-- Platform kind (`'solid' | 'oneway'`). -/
inductive PlatformType where
  | solid | oneway
  deriving DecidableEq

/-- `Platform` from `src/types.ts`. -/
structure Platform where
  id : String
  rect : Rect
  type : PlatformType
  color : String

/-- `Spawner` from `src/types.ts`. -/
structure Spawner where
  id : String
  zone : Rect
  maxEnemies : ℕ
  spawnInterval : ℚ
  spawnTimer : ℚ
  enemyTemplate : EnemyTemplate
  activeEnemyIds : List String

/-- `PointOfInterest` from `src/types.ts`. -/
structure PointOfInterest where
  id : String
  position : Vec2
  range : ℚ
  zoomTarget : ℚ
  message : String
  color : String

/-- `Particle` from `src/types.ts`. -/
structure Particle where
  id : String
  position : Vec2
  velocity : Vec2
  life : ℚ
  decay : ℚ
  color : String
  size : ℚ

/-- `DamageNumber` from `src/types.ts`. -/
structure DamageNumber where
  id : String
  value : ℚ
  position : Vec2
  velocity : Vec2
  life : ℚ
  color : String
  scale : ℚ
  isCrit : Bool

/-- `OneShotAnim` from `src/types.ts` (one-shot visual effects). -/
structure OneShotAnim where
  id : String
  position : Vec2
  anim : AnimationKey
  frame : ℕ
  timer : ℕ
  rotation : ℚ
  facingRight : Bool
  hueRotate : ℚ

/-- `Ghost` from `src/types.ts` (dash afterimages). -/
structure Ghost where
  x : ℚ
  y : ℚ
  facingRight : Bool
  alpha : ℚ
  anim : AnimationKey
  frame : ℕ

/-- Companion mode tag. -/
inductive CompanionMode where
  | PASSIVE | ATTACK
  deriving DecidableEq

/-- `CompanionState` from `src/types.ts`. -/
structure CompanionState where
  position : Vec2
  velocity : Vec2
  rotation : ℚ
  glitchIntensity : ℚ
  trail : List Vec2
  mode : CompanionMode
  targetOffset : Vec2

/-- Camera record of `GameState`. -/
structure CameraState where
  x : ℚ
  y : ℚ
  zoom : ℚ

/-- `PlayerState` from `src/types.ts`. -/
structure PlayerState where
  position : Vec2
  velocity : Vec2
  isGrounded : Bool
  isDashing : Bool
  isWallSliding : Bool
  isJumping : Bool
  canDoubleJump : Bool
  isAttacking : Bool
  facingRight : Bool
  activeAnim : AnimationKey
  animFrame : ℕ
  animTimer : ℕ
  dashTimer : ℚ
  dashCooldownTimer : ℚ
  dashCount : ℕ
  dashChainTimer : ℚ
  attackTimer : ℚ
  attackCooldownTimer : ℚ
  comboStep : ℕ
  comboCount : ℕ
  comboWindowTimer : ℚ
  comboDropTimer : ℚ
  canChain : Bool
  coyoteTimer : ℚ
  jumpBufferTimer : ℚ
  wallDir : ℚ
  color : String
  leanAngle : ℚ
  lastJumpInput : Bool
  lastDashInput : Bool
  lastAttackInput : Bool
  health : ℚ
  maxHealth : ℚ
  isDead : Bool
  invincibilityTimer : ℚ
  respawnPosition : Vec2

/-- `GameState` from `src/types.ts`: the single aggregate. -/
structure GameState where
  player : PlayerState
  companion : CompanionState
  platforms : List Platform
  enemies : List Enemy
  spawners : List Spawner
  pois : List PointOfInterest
  particles : List Particle
  damageNumbers : List DamageNumber
  activeVfx : List OneShotAnim
  ghosts : List Ghost
  camera : CameraState
  screenShake : ℚ
  score : ℚ
  hitStopTimer : ℚ
  timeScale : ℚ
  slowMoTimer : ℚ

/-- Environment record: every `Math.random()`, `Math.sqrt/sin/cos/atan2`
and `Date.now()` result consumed during one tick.  Loop call sites are
indexed by their iteration counter. -/
structure Ext where
  sqrt : ℚ → ℚ
  sin : ℚ → ℚ
  cos : ℚ → ℚ
  atan2 : ℚ → ℚ → ℚ
  now : ℚ
  critRoll : ℕ → ℚ
  walkerRoll : ℕ → ℚ
  glitchTrigger : ℚ
  glitchRoll : ℚ
  spawnId : ℕ → String
  spawnRoll : ℕ → ℚ
  typeRoll : ℕ → ℚ
  facingRoll : ℕ → ℚ
  particleAngle : ℕ → ℚ
  particleRoll : ℕ → ℚ
  particleDecay : ℕ → ℚ
  particleSize : ℕ → ℚ
  particleId : ℕ → String
  dmgRollX : ℕ → ℚ
  dmgRollY : ℕ → ℚ
  dmgId : ℕ → String
  vfxId : ℕ → String
  vfxRot : ℕ → ℚ

/-- A trivial environment (all draws zero) used to instantiate witnesses. -/
def extZero : Ext where
  sqrt := fun _ => 0
  sin := fun _ => 0
  cos := fun _ => 0
  atan2 := fun _ _ => 0
  now := 0
  critRoll := fun _ => 0
  walkerRoll := fun _ => 0
  glitchTrigger := 0
  glitchRoll := 0
  spawnId := fun _ => "spawn"
  spawnRoll := fun _ => 0
  typeRoll := fun _ => 0
  facingRoll := fun _ => 0
  particleAngle := fun _ => 0
  particleRoll := fun _ => 0
  particleDecay := fun _ => 0
  particleSize := fun _ => 0
  particleId := fun _ => "p"
  dmgRollX := fun _ => 0
  dmgRollY := fun _ => 0
  dmgId := fun _ => "d"
  vfxId := fun _ => "v"
  vfxRot := fun _ => 0

/-! ## Math helpers (ProfilerOverlay.tsx, section "1. Math Helpers") -/

/-- `approach(val, target, maxMove)`: move `val` toward `target` by at most
`maxMove`. -/
def approach (val target maxMove : ℚ) : ℚ :=
  if target < val then max (val - maxMove) target else min (val + maxMove) target

/-- `dist(v1, v2)`: Euclidean distance, `Math.sqrt` through the environment. -/
def dist (o : Ext) (v1 v2 : Vec2) : ℚ :=
  o.sqrt ((v2.x - v1.x) ^ 2 + (v2.y - v1.y) ^ 2)

/-- `distToSegment(p, v, w)`: point-to-segment distance. -/
def distToSegment (o : Ext) (p v w : Vec2) : ℚ :=
  let l2 := dist o v w ^ 2
  if l2 = 0 then dist o p v
  else
    let t := ((p.x - v.x) * (w.x - v.x) + (p.y - v.y) * (w.y - v.y)) / l2
    let t := max 0 (min 1 t)
    dist o p { x := v.x + t * (w.x - v.x), y := v.y + t * (w.y - v.y) }

/-! ## Collision primitives -/

/-- `checkAABB(player, plat)`: player hitbox vs platform rectangle. -/
def checkAABB (pos : Vec2) (plat : Platform) : Bool :=
  pos.x < plat.rect.x + plat.rect.width &&
  pos.x + PLAYER_WIDTH > plat.rect.x &&
  pos.y < plat.rect.y + plat.rect.height &&
  pos.y + PLAYER_HEIGHT > plat.rect.y

/-- `checkEntityAABB(entity, plat, 0, 0)` specialised to the zero offsets the
source always passes. -/
def checkEntityAABB (e : Enemy) (plat : Platform) : Bool :=
  e.position.x < plat.rect.x + plat.rect.width &&
  e.position.x + e.width > plat.rect.x &&
  e.position.y < plat.rect.y + plat.rect.height &&
  e.position.y + e.height > plat.rect.y

/-- `checkRectOverlap(p1, s1, p2, s2)`. -/
def checkRectOverlap (p1 : Vec2) (w1 h1 : ℚ) (p2 : Vec2) (w2 h2 : ℚ) : Bool :=
  p1.x < p2.x + w2 && p1.x + w1 > p2.x && p1.y < p2.y + h2 && p1.y + h1 > p2.y

/-- `checkWallOverlap(player, platforms, dir)`: 2-px probe flush against the
hitbox's left or right edge, inset 4 px top / 8 px total. -/
def checkWallOverlap (pos : Vec2) (platforms : List Platform) (dir : ℚ) : Bool :=
  let checkDist : ℚ := 2
  let tx := if dir > 0 then pos.x + PLAYER_WIDTH else pos.x - checkDist
  let ty := pos.y + 4
  let tw := checkDist
  let th := PLAYER_HEIGHT - 8
  platforms.any fun plat =>
    tx < plat.rect.x + plat.rect.width && tx + tw > plat.rect.x &&
    ty < plat.rect.y + plat.rect.height && ty + th > plat.rect.y

/-! ## Cosmetic spawn helpers (particles, vfx, damage numbers) -/

/-- `spawnParticles(pos, count, color, speed)`: append `count` particles;
angle/magnitude/decay/size draws come from the environment. -/
def spawnParticles (o : Ext) (pos : Vec2) (count : ℕ) (color : String)
    (speed : ℚ) (ps : List Particle) : List Particle :=
  ps ++ (List.range count).map fun i =>
    { id := o.particleId i
      position := pos
      velocity := { x := o.cos (o.particleAngle i) * o.particleRoll i * speed
                    y := o.sin (o.particleAngle i) * o.particleRoll i * speed }
      life := 1.0
      decay := 0.05 + o.particleDecay i * 0.05
      color := color
      size := 2 + o.particleSize i * 2 }

/-- `spawnVfx(pos, anim, facingRight, hueRotate)`. -/
def spawnVfx (o : Ext) (i : ℕ) (pos : Vec2) (anim : AnimationKey)
    (facingRight : Bool) (hueRotate : ℚ) (vs : List OneShotAnim) :
    List OneShotAnim :=
  vs ++ [{ id := o.vfxId i
           position := pos
           anim := anim
           frame := 0
           timer := 0
           facingRight := facingRight
           rotation := o.vfxRot i * 0.5 - 0.25
           hueRotate := hueRotate }]

/-- `spawnDamageNumber(pos, value, color, isCrit)`. -/
def spawnDamageNumber (o : Ext) (i : ℕ) (pos : Vec2) (value : ℚ)
    (color : String) (isCrit : Bool) (ds : List DamageNumber) :
    List DamageNumber :=
  ds ++ [{ id := o.dmgId i
           value := (⌊value⌋ : ℤ)
           position := pos
           velocity := { x := (o.dmgRollX i - 0.5) * 2
                         y := -4 - o.dmgRollY i * 2 }
           life := 1.0
           color := color
           scale := if isCrit then 1.5 else 1.0
           isCrit := isCrit }]

/-- `updateParticles`: advance and age every particle, removing expired ones
(`splice` on `life ≤ 0`). -/
def updateParticles (ps : List Particle) : List Particle :=
  ps.filterMap fun p =>
    let p := { p with position := { x := p.position.x + p.velocity.x
                                    y := p.position.y + p.velocity.y }
                      life := p.life - p.decay }
    if p.life ≤ 0 then none else some p

/-- `updateVfx`: advance one-shot animation frames; finished ones are
removed.  (The manifest lookup is total, so the `!config` guard of the
source can never fire.) -/
def updateVfx (vs : List OneShotAnim) : List OneShotAnim :=
  vs.filterMap fun vfx =>
    let config := ANIMATION_MANIFEST vfx.anim
    let vfx := { vfx with timer := vfx.timer + 1 }
    if vfx.timer ≥ config.frameDelay then
      let vfx := { vfx with timer := 0, frame := vfx.frame + 1 }
      if vfx.frame ≥ config.count then none else some vfx
    else some vfx

/-- `updateDamageNumbers`: move, accelerate downward, age, drop expired. -/
def updateDamageNumbers (ds : List DamageNumber) : List DamageNumber :=
  ds.filterMap fun d =>
    let d := { d with position := { x := d.position.x + d.velocity.x
                                    y := d.position.y + d.velocity.y }
                      velocity := { x := d.velocity.x, y := d.velocity.y + 0.1 }
                      life := d.life - 0.02 }
    if d.life ≤ 0 then none else some d

/-! ## Swept player movement (`movePlayer`) -/

/-- One sub-step of `movePlayer`: apply the X delta then the Y delta, each
resolved against every platform.  The state is (position, velocity,
grounded). -/
def movePlayerStep (platforms : List Platform) (stepVel : Vec2)
    (st : Vec2 × Vec2 × Bool) : Vec2 × Vec2 × Bool :=
  let pos : Vec2 := { st.1 with x := st.1.x + stepVel.x }
  let xr := platforms.foldl
    (fun (pv : Vec2 × Vec2) plat =>
      if checkAABB pv.1 plat then
        if stepVel.x > 0 then
          (({ pv.1 with x := plat.rect.x - PLAYER_WIDTH } : Vec2),
           ({ pv.2 with x := 0 } : Vec2))
        else if stepVel.x < 0 then
          (({ pv.1 with x := plat.rect.x + plat.rect.width } : Vec2),
           ({ pv.2 with x := 0 } : Vec2))
        else pv
      else pv) (pos, st.2.1)
  let pos : Vec2 := { xr.1 with y := xr.1.y + stepVel.y }
  platforms.foldl
    (fun (pvg : Vec2 × Vec2 × Bool) plat =>
      if checkAABB pvg.1 plat then
        if stepVel.y > 0 then
          (({ pvg.1 with y := plat.rect.y - PLAYER_HEIGHT } : Vec2),
           ({ pvg.2.1 with y := 0 } : Vec2), true)
        else if stepVel.y < 0 then
          (({ pvg.1 with y := plat.rect.y + plat.rect.height } : Vec2),
           ({ pvg.2.1 with y := 0 } : Vec2), pvg.2.2)
        else pvg
      else pvg) (pos, xr.2, st.2.2)

/-- `movePlayer(player, platforms, isDashing)`: sub-stepped swept movement.
`steps = Math.ceil(totalDist / 10)`; the per-step velocity is the division
`velocity / steps` (at zero velocity the source divides `0 / 0`, but the
loop then runs zero times).  The `isDashing` argument is unused by the
source body and is kept for signature fidelity. -/
def movePlayer (o : Ext) (platforms : List Platform) (_isDashing : Bool)
    (player : PlayerState) : PlayerState :=
  let stepSize : ℚ := 10
  let totalDist := o.sqrt (player.velocity.x ^ 2 + player.velocity.y ^ 2)
  let steps : ℕ := (⌈totalDist / stepSize⌉ : ℤ).toNat
  let stepVel : Vec2 := { x := player.velocity.x / (steps : ℚ)
                          y := player.velocity.y / (steps : ℚ) }
  let st : Vec2 × Vec2 × Bool := (player.position, player.velocity, false)
  let r := (List.range steps).foldl (fun st _ => movePlayerStep platforms stepVel st) st
  { player with position := r.1, velocity := r.2.1, isGrounded := r.2.2 }

/-! ## Entity-vs-entity separation -/

/-- A positional body: the only data `solveOverlap` reads or writes. -/
structure Body where
  position : Vec2
  velocity : Vec2

/-- `solveOverlap(e1, w1, h1, e2, w2, h2, weight)`: push two overlapping
AABBs apart along the axis of least penetration. -/
def solveOverlap (b1 : Body) (w1 h1 : ℚ) (b2 : Body) (w2 h2 : ℚ)
    (weight : ℚ) : Body × Body :=
  let c1 : Vec2 := { x := b1.position.x + w1 / 2, y := b1.position.y + h1 / 2 }
  let c2 : Vec2 := { x := b2.position.x + w2 / 2, y := b2.position.y + h2 / 2 }
  let dx := c1.x - c2.x
  let dy := c1.y - c2.y
  let minDistX := (w1 + w2) / 2
  let minDistY := (h1 + h2) / 2
  if |dx| < minDistX ∧ |dy| < minDistY then
    let overlapX := minDistX - |dx|
    let overlapY := minDistY - |dy|
    if overlapX < overlapY then
      let separation := overlapX
      let dir : ℚ := if dx > 0 then 1 else -1
      ({ position := { b1.position with x := b1.position.x + separation * weight * dir }
         velocity := { b1.velocity with x := b1.velocity.x * 0.5 } },
       { position := { b2.position with x := b2.position.x - separation * (1 - weight) * dir }
         velocity := { b2.velocity with x := b2.velocity.x * 0.5 } })
    else
      let separation := overlapY
      let dir : ℚ := if dy > 0 then 1 else -1
      ({ position := { b1.position with y := b1.position.y + separation * weight * dir }
         velocity := { b1.velocity with y := 0 } },
       { position := { b2.position with y := b2.position.y - separation * (1 - weight) * dir }
         velocity := { b2.velocity with y := 0 } })
  else (b1, b2)

/-- The ordered index pairs `(i, j)` with `i` before `j`, matching the
source's `for i; for j = i+1` double loop. -/
def orderedPairs : List ℕ → List (ℕ × ℕ)
  | [] => []
  | x :: xs => xs.map (fun y => (x, y)) ++ orderedPairs xs

/-- Read an enemy's body view. -/
def Enemy.body (e : Enemy) : Body := ⟨e.position, e.velocity⟩

/-- Write a body view back into an enemy. -/
def Enemy.withBody (e : Enemy) (b : Body) : Enemy :=
  { e with position := b.position, velocity := b.velocity }

/-- `resolveEntityCollisions(state)`: pairwise separation of all live
enemies, then the player against each live enemy (weight 0.5 each).  The
source's `entities` list of aliased references becomes the list of live
indices into the enemies list. -/
def resolveEntityCollisions (s : GameState) : GameState :=
  let idxs := (s.enemies.enum.filterMap fun ie =>
    if ie.2.isDead then none else some ie.1)
  -- 1. Enemy vs Enemy
  let enemies := (orderedPairs idxs).foldl (fun es ij =>
    match es.get? ij.1, es.get? ij.2 with
    | some e1, some e2 =>
      let r := solveOverlap e1.body e1.width e1.height e2.body
        e2.width e2.height 0.5
      (es.set ij.1 (e1.withBody r.1)).set ij.2 (e2.withBody r.2)
    | _, _ => es) s.enemies
  -- 2. Player vs Enemies
  let pBody : Body := ⟨s.player.position, s.player.velocity⟩
  let r := idxs.foldl
    (fun (acc : Body × List Enemy) i =>
      match acc.2.get? i with
      | some e =>
        let q := solveOverlap acc.1 PLAYER_WIDTH PLAYER_HEIGHT e.body
          e.width e.height 0.5
        (q.1, acc.2.set i (e.withBody q.2))
      | none => acc) (pBody, enemies)
  { s with
    player := { s.player with position := r.1.position, velocity := r.1.velocity }
    enemies := r.2 }

/-! ## Player damage intake -/

/-- The pieces of `GameState` that enemy AI reads and writes besides the
enemy list itself. -/
structure AiCtx where
  player : PlayerState
  screenShake : ℚ
  particles : List Particle
  damageNumbers : List DamageNumber
  activeVfx : List OneShotAnim

/-- `damagePlayer(player, amount, sourceX)`: subtract health (no clamp),
grant i-frames, reset the combo counter, knock back, and emit effects.
`i` indexes the enemy whose attack landed (for the environment draws). -/
def damagePlayer (o : Ext) (i : ℕ) (ctx : AiCtx) (amount sourceX : ℚ) : AiCtx :=
  let player := ctx.player
  let player := { player with
    health := player.health - amount
    invincibilityTimer := PLAYER_I_FRAMES
    comboCount := 0 }
  let damageNumbers := spawnDamageNumber o i
    { x := player.position.x + 16, y := player.position.y } amount "#ef4444"
    true ctx.damageNumbers
  let player := { player with
    velocity := { x := if player.position.x > sourceX then 10 else -10
                  y := -5 } }
  { ctx with
    player := player
    screenShake := 10
    damageNumbers := damageNumbers
    particles := spawnParticles o player.position 15 "#ef4444" 5 ctx.particles }

/-! ## Companion follower (`updateCompanion`) -/

/-- `updateCompanion(state, player)`: spring-damper follower with
wall-clock bob and stochastic glitch, both through the environment. -/
def updateCompanion (o : Ext) (comp : CompanionState) (player : PlayerState) :
    CompanionState :=
  let time := o.now / 200
  let comp := if o.glitchTrigger < 0.02 then
    { comp with glitchIntensity := o.glitchRoll * 0.8 } else comp
  let comp := { comp with glitchIntensity := comp.glitchIntensity * 0.85 }
  let comp := if comp.glitchIntensity < 0.01 then
    { comp with glitchIntensity := 0 } else comp
  let ct : CompanionState × Vec2 :=
    if player.isAttacking then
      let offset : ℚ := if player.facingRight then 40 else -10
      ({ comp with mode := .ATTACK, glitchIntensity := 1.0 },
       ({ x := player.position.x + offset + 16
          y := player.position.y + 20 } : Vec2))
    else
      let lagOffset : ℚ := if player.facingRight then -40 else 40
      let bobY := o.sin time * 5
      ({ comp with mode := .PASSIVE },
       ({ x := player.position.x + lagOffset
          y := player.position.y - 20 + bobY } : Vec2))
  let comp := ct.1
  let targetPos := ct.2
  let stiffness : ℚ := if comp.mode = .ATTACK then 0.6 else 0.02
  let damping : ℚ := if comp.mode = .ATTACK then 0.5 else 0.90
  let ax := (targetPos.x - comp.position.x) * stiffness
  let ay := (targetPos.y - comp.position.y) * stiffness
  let vel : Vec2 := { x := (comp.velocity.x + ax) * damping
                      y := (comp.velocity.y + ay) * damping }
  let comp : CompanionState := { comp with
    velocity := vel
    position := { x := comp.position.x + vel.x, y := comp.position.y + vel.y }
    rotation := comp.rotation +
      ((if comp.mode = .ATTACK then 0.5 else 0.02) + comp.glitchIntensity * 0.5) }
  if |comp.velocity.x| > 1 ∨ |comp.velocity.y| > 1 then
    let trail := comp.trail ++ [comp.position]
    { comp with trail := if trail.length > 5 then trail.drop 1 else trail }
  else if comp.trail.length > 0 then
    { comp with trail := comp.trail.drop 1 }
  else comp

/-! ## Spawner (`updateSpawners`) -/

/-- Mark the first enemy with the given id dead with zero health (the
source kills through the reference returned by `find`). -/
def killById : List Enemy → String → List Enemy
  | [], _ => []
  | e :: es, id =>
    if e.id = id then { e with isDead := true, health := 0 } :: es
    else e :: killById es id

/-- The zone-boundary test of `updateSpawners`: horizontal bounds and the
bottom bound only (the top check is commented out in the source to allow
high flying). -/
def spawnerInBounds (zone : Rect) (cx cy : ℚ) : Bool :=
  cx ≥ zone.x && cx ≤ zone.x + zone.width && cy ≤ zone.y + zone.height

/-- One id of the cleanup & boundary-check loop at the top of
`updateSpawners`: drop a missing or dead id, keep an in-bounds live enemy's
id, and kill (plus burst particles, id dropped) one that left the zone. -/
def spawnerCleanupStep (o : Ext) (zone : Rect)
    (acc : List Enemy × List Particle × List String) (id : String) :
    List Enemy × List Particle × List String :=
  match acc.1.find? (fun e => e.id = id) with
  | none => acc
  | some enemy =>
    if enemy.isDead then acc
    else
      let cx := enemy.position.x + enemy.width / 2
      let cy := enemy.position.y + enemy.height / 2
      if spawnerInBounds zone cx cy then (acc.1, acc.2.1, id :: acc.2.2)
      else
        (killById acc.1 id,
         spawnParticles o { x := cx, y := cy } 10 "#ef4444" 5 acc.2.1,
         acc.2.2)

/-- One spawner's full per-tick update (`updateSpawners` loop body).
`si` is the spawner's index, used for the environment draws. -/
def updateOneSpawner (o : Ext) (si : ℕ) (st : List Enemy × List Particle)
    (sp : Spawner) : (List Enemy × List Particle) × Spawner :=
  let enemies := st.1
  let particles := st.2
  -- 1. Cleanup & Boundary Check
  let cl :=
    sp.activeEnemyIds.foldl (spawnerCleanupStep o sp.zone)
      (enemies, particles, ([] : List String))
  let enemies := cl.1
  let particles := cl.2.1
  let ids := cl.2.2.reverse
  let sp := { sp with activeEnemyIds := ids }
  -- 2. Spawn Logic
  if ids.length < sp.maxEnemies then
    let spawnTimer : ℚ := sp.spawnTimer - 1
    if spawnTimer ≤ 0 then
      let newId := o.spawnId si
      let spawnX := sp.zone.x + o.spawnRoll si * (sp.zone.width - 40)
      let spawnY := sp.zone.y + 50
      let rand := o.typeRoll si
      let (type, color, maxHealth, attackRange, width, height) :
          EnemyType × String × ℚ × ℚ × ℚ × ℚ :=
        if rand > 0.7 then (.FLYER, "#a855f7", 40, 400, 40, 40)
        else if rand > 0.4 then (.TURRET, "#f97316", 80, 500, 50, 50)
        else (.WALKER, "#dc2626", 60, 60, 40, 60)
      let newEnemy : Enemy := mergeTemplate
        { id := newId
          type := type
          position := { x := spawnX, y := spawnY }
          velocity := { x := 0, y := 0 }
          width := width
          height := height
          health := maxHealth
          maxHealth := maxHealth
          isDead := false
          color := color
          hitTimer := 0
          state := .CHASE
          facingRight := o.facingRoll si > 0.5
          patrolOriginX := spawnX
          patrolRange := 0
          detectionRange := 600
          attackRange := attackRange
          attackCooldownTimer := 0
          attackDurationTimer := 0
          chargeTimer := 0
          laserData := none }
        sp.enemyTemplate
      ((enemies ++ [newEnemy],
        spawnParticles o newEnemy.position 15 "#ffffff" 3 particles),
       { sp with
          activeEnemyIds := ids ++ [newId]
          spawnTimer := sp.spawnInterval })
    else ((enemies, particles), { sp with spawnTimer := spawnTimer })
  else ((enemies, particles), sp)

/-- `updateSpawners(state)`: run every spawner in order. -/
def updateSpawners (o : Ext) (s : GameState) : GameState :=
  let r :=
    s.spawners.enum.foldl
      (fun (acc : (List Enemy × List Particle) × List Spawner) isp =>
        let q := updateOneSpawner o isp.1 acc.1 isp.2
        (q.1, q.2 :: acc.2))
      ((s.enemies, s.particles), ([] : List Spawner))
  { s with enemies := r.1.1, particles := r.1.2,
           spawners := r.2.reverse }

/-! ## Enemy AI (`updateEnemies`) -/

/-- FLYER state switch (`switch(enemy.state)` of the flyer branch). -/
def flyerSwitch (o : Ext) (idx : ℕ) (d : ℚ) (ctx : AiCtx) (enemy : Enemy) :
    AiCtx × Enemy :=
  let player := ctx.player
  match enemy.state with
  | .CHASE =>
    let targetX := player.position.x + o.sin (o.now / 500) * 100
    let targetY := player.position.y - 150 + o.cos (o.now / 300) * 50
    let dx := targetX - enemy.position.x
    let dy := targetY - enemy.position.y
    let enemy := { enemy with velocity :=
      { x := (enemy.velocity.x + dx * 0.005) * 0.95
        y := (enemy.velocity.y + dy * 0.005) * 0.95 } }
    if enemy.attackCooldownTimer ≤ 0 ∧ d < enemy.attackRange then
      (ctx, { enemy with state := .ATTACK, chargeTimer := 60,
                         velocity := { x := 0, y := 0 } })
    else (ctx, enemy)
  | .ATTACK =>
    if enemy.chargeTimer > 0 then
      let pdx := player.position.x - enemy.position.x
      let pdy := player.position.y - enemy.position.y
      let angle := o.atan2 pdy pdx
      let enemy := { enemy with
        velocity := { x := o.cos angle * 15, y := o.sin angle * 15 }
        chargeTimer := enemy.chargeTimer - 1 }
      if enemy.chargeTimer = 0 then
        (ctx, { enemy with attackDurationTimer := 30 })
      else (ctx, enemy)
    else if enemy.attackDurationTimer > 0 then
      -- DIVE PHASE: hit detection, then possible recovery
      let r : AiCtx × Enemy :=
        if ctx.player.invincibilityTimer = 0 ∧ ¬ctx.player.isDead then
          if checkRectOverlap ctx.player.position PLAYER_WIDTH PLAYER_HEIGHT
              enemy.position enemy.width enemy.height then
            (damagePlayer o idx ctx 20 enemy.position.x,
             { enemy with attackDurationTimer := 0 })
          else (ctx, enemy)
        else (ctx, enemy)
      if r.2.attackDurationTimer = 1 then
        (r.1, { r.2 with state := .CHASE, attackCooldownTimer := 120 })
      else r
    else (ctx, enemy)
  | .HIT =>
    let enemy := { enemy with velocity :=
      { x := enemy.velocity.x * 0.9, y := enemy.velocity.y * 0.9 } }
    if enemy.hitTimer ≤ 0 then (ctx, { enemy with state := .CHASE })
    else (ctx, enemy)
  | _ => (ctx, enemy)

/-- FLYER movement with axis-separated solid-platform collision and crash
recovery.  The crash branches write only the screen shake and the particle
list, so the folds thread exactly those. -/
def flyerMove (o : Ext) (platforms : List Platform) (ctx : AiCtx)
    (enemy : Enemy) : AiCtx × Enemy :=
  -- X axis
  let enemy := { enemy with position :=
    { enemy.position with x := enemy.position.x + enemy.velocity.x } }
  let r1 := platforms.foldl
    (fun (acc : (ℚ × List Particle) × Enemy) plat =>
      let e := acc.2
      if plat.type = .solid ∧ checkEntityAABB e plat then
        let e := if e.velocity.x > 0 then
            { e with position := { e.position with x := plat.rect.x - e.width } }
          else if e.velocity.x < 0 then
            { e with position := { e.position with x := plat.rect.x + plat.rect.width } }
          else e
        let e := { e with velocity := { e.velocity with x := 0 } }
        if e.state = .ATTACK ∧ e.attackDurationTimer > 0 then
          (((3 : ℚ), spawnParticles o e.position 8 "#ffffff" 4 acc.1.2),
           { e with state := .CHASE, attackDurationTimer := 0,
                    attackCooldownTimer := 60 })
        else (acc.1, e)
      else (acc.1, e)) ((ctx.screenShake, ctx.particles), enemy)
  -- Y axis
  let enemy := { r1.2 with position :=
    { r1.2.position with y := r1.2.position.y + r1.2.velocity.y } }
  let r2 := platforms.foldl
    (fun (acc : (ℚ × List Particle) × Enemy) plat =>
      let e := acc.2
      if plat.type = .solid ∧ checkEntityAABB e plat then
        let e := if e.velocity.y > 0 then
            { e with position := { e.position with y := plat.rect.y - e.height } }
          else if e.velocity.y < 0 then
            { e with position := { e.position with y := plat.rect.y + plat.rect.height } }
          else e
        let e := { e with velocity := { e.velocity with y := 0 } }
        if e.state = .ATTACK ∧ e.attackDurationTimer > 0 then
          (((3 : ℚ), spawnParticles o e.position 8 "#ffffff" 4 acc.1.2),
           { e with state := .CHASE, attackDurationTimer := 0,
                    attackCooldownTimer := 60 })
        else (acc.1, e)
      else (acc.1, e)) (r1.1, enemy)
  ({ ctx with screenShake := r2.1.1, particles := r2.1.2 }, r2.2)

/-- FLYER behaviour: hover toward an orbit point, telegraphed straight-line
dive, crash on solid platforms.  `d` is the pre-computed distance to the
player; `idx` the enemy's index for environment draws. -/
def flyerAI (o : Ext) (platforms : List Platform) (idx : ℕ) (d : ℚ)
    (ctx : AiCtx) (enemy : Enemy) : AiCtx × Enemy :=
  let r := flyerSwitch o idx d ctx enemy
  flyerMove o platforms r.1 r.2

/-- TURRET state switch (`switch(enemy.state)` of the turret branch,
after gravity has been applied to the velocity). -/
def turretSwitch (o : Ext) (idx : ℕ) (d : ℚ) (ctx : AiCtx) (enemy : Enemy) :
    AiCtx × Enemy :=
  let player := ctx.player
  match enemy.state with
  | .CHASE =>
    if d < enemy.attackRange ∧ |enemy.position.y - player.position.y| < 100 then
      let enemy := { enemy with velocity := { enemy.velocity with x := 0 } }
      if enemy.attackCooldownTimer ≤ 0 then
        (ctx, { enemy with
          state := .ATTACK
          chargeTimer := 90
          laserData := some
            { targetX := player.position.x + PLAYER_WIDTH / 2
              targetY := player.position.y + PLAYER_HEIGHT / 2
              isFiring := false } })
      else (ctx, enemy)
    else
      let dir : ℚ := if player.position.x > enemy.position.x then 1 else -1
      (ctx, { enemy with
        velocity := { enemy.velocity with x := dir * AI_PATROL_SPEED * 0.5 }
        facingRight := dir > 0 })
  | .ATTACK =>
    let enemy := { enemy with velocity := { enemy.velocity with x := 0 } }
    if enemy.chargeTimer > 0 then
      let enemy := { enemy with chargeTimer := enemy.chargeTimer - 1 }
      let enemy :=
        if enemy.chargeTimer > 30 then
          match enemy.laserData with
          | some ld =>
            let targetX := player.position.x + PLAYER_WIDTH / 2
            let targetY := player.position.y + PLAYER_HEIGHT / 2
            { enemy with laserData := some { ld with
                targetX := ld.targetX + (targetX - ld.targetX) * 0.1
                targetY := ld.targetY + (targetY - ld.targetY) * 0.1 } }
          | none => enemy
        else enemy
      if enemy.chargeTimer = 0 then
        let enemy := { enemy with attackDurationTimer := 10 }
        let enemy := match enemy.laserData with
          | some ld => { enemy with laserData := some { ld with isFiring := true } }
          | none => enemy
        ({ ctx with screenShake := 5 }, enemy)
      else (ctx, enemy)
    else if enemy.attackDurationTimer > 0 then
      -- FIRING LASER
      let ctx :=
        if ctx.player.invincibilityTimer = 0 ∧ ¬ctx.player.isDead then
          match enemy.laserData with
          | some ld =>
            let origin : Vec2 := { x := enemy.position.x + enemy.width / 2
                                   y := enemy.position.y + 10 }
            let target : Vec2 := { x := ld.targetX, y := ld.targetY }
            let angle := o.atan2 (target.y - origin.y) (target.x - origin.x)
            let beamEnd : Vec2 := { x := origin.x + o.cos angle * 1000
                                    y := origin.y + o.sin angle * 1000 }
            let pCenter : Vec2 :=
              { x := ctx.player.position.x + PLAYER_WIDTH / 2
                y := ctx.player.position.y + PLAYER_HEIGHT / 2 }
            let beamDist := distToSegment o pCenter origin beamEnd
            if beamDist < 30 then damagePlayer o idx ctx 25 enemy.position.x
            else ctx
          | none => ctx
        else ctx
      if enemy.attackDurationTimer = 1 then
        (ctx, { enemy with state := .CHASE, attackCooldownTimer := 180,
                           laserData := none })
      else (ctx, enemy)
    else (ctx, enemy)
  | .HIT =>
    if enemy.hitTimer ≤ 0 then (ctx, { enemy with state := .CHASE })
    else (ctx, enemy)
  | _ => (ctx, enemy)

/-- TURRET behaviour: approach only until in range and vertically aligned,
charge an aimed beam, fire a point-to-segment hit-scan, ground physics. -/
def turretAI (profile : PhysicsProfile) (o : Ext) (platforms : List Platform)
    (idx : ℕ) (d : ℚ) (ctx : AiCtx) (enemy : Enemy) : AiCtx × Enemy :=
  -- Apply gravity first
  let enemy := { enemy with velocity :=
    { enemy.velocity with y := enemy.velocity.y + profile.gravity } }
  let r := turretSwitch o idx d ctx enemy
  -- Physics Application (Ground only)
  let enemy := { r.2 with position :=
    { r.2.position with y := r.2.position.y + r.2.velocity.y } }
  let enemy := platforms.foldl
    (fun e plat =>
      if checkEntityAABB e plat then
        if e.velocity.y > 0 then
          { e with position := { e.position with y := plat.rect.y - e.height }
                   velocity := { e.velocity with y := 0 } }
        else e
      else e) enemy
  let enemy := { enemy with position :=
    { enemy.position with x := enemy.position.x + enemy.velocity.x } }
  (r.1, enemy)

/-- Shared ground-enemy Y resolution: apply position.y += velocity.y and
snap onto any platform when falling (used by WALKER, TURRET and the
training dummy; no platform-type filter in the source). -/
def enemyYCollide (platforms : List Platform) (enemy : Enemy) : Enemy :=
  let enemy := { enemy with position :=
    { enemy.position with y := enemy.position.y + enemy.velocity.y } }
  platforms.foldl
    (fun e plat =>
      if checkEntityAABB e plat then
        if e.velocity.y > 0 then
          { e with position := { e.position with y := plat.rect.y - e.height }
                   velocity := { e.velocity with y := 0 } }
        else e
      else e) enemy

/-- WALKER state switch (`switch(enemy.state)` of the walker branch). -/
def walkerSwitch (o : Ext) (idx : ℕ) (d : ℚ) (ctx : AiCtx) (enemy : Enemy) :
    AiCtx × Enemy :=
  match enemy.state with
  | .PATROL =>
    let enemy := { enemy with color := "#ef4444" }
    if enemy.detectionRange > 0 ∧ d < enemy.detectionRange then
      (ctx, { enemy with state := .CHASE })
    else (ctx, enemy)
  | .CHASE =>
    let enemy := { enemy with color := "#dc2626" }
    if d > enemy.detectionRange * 1.5 then
      (ctx, { enemy with state := .PATROL })
    else if enemy.attackRange > 0 ∧ d < enemy.attackRange ∧
        enemy.attackCooldownTimer ≤ 0 then
      (ctx, { enemy with
        state := .ATTACK
        velocity := { enemy.velocity with x := 0 }
        chargeTimer := AI_ATTACK_CHARGE
        attackDurationTimer := 0 })
    else (ctx, enemy)
  | .ATTACK =>
    let enemy := { enemy with color := "#991b1b" }
    if enemy.chargeTimer > 0 then
      let enemy := { enemy with chargeTimer := enemy.chargeTimer - 1 }
      if enemy.chargeTimer = 0 then
        -- CHARGE COMPLETE -> SWING
        let cx := enemy.position.x + enemy.width / 2 +
          (if enemy.facingRight then (20 : ℚ) else -20)
        let cy := enemy.position.y + enemy.height / 2
        let slashPos : Vec2 := { x := cx, y := cy }
        let vfx := spawnVfx o idx slashPos AnimationKey.VFX_SLASH
          enemy.facingRight 130 ctx.activeVfx
        ({ ctx with activeVfx := vfx },
         { enemy with attackDurationTimer := AI_ATTACK_DURATION })
      else (ctx, enemy)
    else if enemy.attackDurationTimer ≤ 0 then
      (ctx, { enemy with
        state := .CHASE
        attackCooldownTimer := ((⌊(60 : ℚ) + o.walkerRoll idx * 120⌋ : ℤ) : ℚ) })
    else (ctx, enemy)
  | .HIT =>
    if enemy.hitTimer ≤ 0 then (ctx, { enemy with state := .CHASE })
    else (ctx, enemy)
  | .IDLE => (ctx, enemy)

/-- WALKER post-switch horizontal-velocity rules. -/
def walkerVelocity (player : PlayerState) (enemy : Enemy) : Enemy :=
  if enemy.state = .PATROL ∧ enemy.patrolRange > 0 then
    if enemy.facingRight then
      let enemy := { enemy with velocity := { enemy.velocity with x := AI_PATROL_SPEED } }
      if enemy.position.x > enemy.patrolOriginX + enemy.patrolRange then
        { enemy with facingRight := false }
      else enemy
    else
      let enemy := { enemy with velocity := { enemy.velocity with x := -AI_PATROL_SPEED } }
      if enemy.position.x < enemy.patrolOriginX - enemy.patrolRange then
        { enemy with facingRight := true }
      else enemy
  else if enemy.state = .CHASE then
    let dir : ℚ := if player.position.x > enemy.position.x then 1 else -1
    { enemy with velocity := { enemy.velocity with x := dir * AI_CHASE_SPEED }
                 facingRight := dir > 0 }
  else if enemy.state = .ATTACK ∨ (enemy.state = .IDLE ∧ enemy.patrolRange = 0) then
    { enemy with velocity := { enemy.velocity with x := 0 } }
  else if enemy.state = .HIT then
    { enemy with velocity := { enemy.velocity with x := enemy.velocity.x * 0.9 } }
  else enemy

/-- WALKER melee damage window: active only for the mid-slice of the swing,
gated by the player's invincibility timer and death flag. -/
def walkerMelee (o : Ext) (idx : ℕ) (ctx : AiCtx) (enemy : Enemy) : AiCtx :=
  if ctx.player.invincibilityTimer = 0 ∧ ¬ctx.player.isDead then
    let attackActive := enemy.state = .ATTACK ∧ enemy.chargeTimer = 0 ∧
      enemy.attackDurationTimer < 18 ∧ enemy.attackDurationTimer > 5
    if attackActive then
      let reach : ℚ := 50
      let boxX := if enemy.facingRight then enemy.position.x + enemy.width
        else enemy.position.x - reach
      let box : Vec2 := { x := boxX, y := enemy.position.y }
      if checkRectOverlap ctx.player.position PLAYER_WIDTH PLAYER_HEIGHT
          box reach enemy.height then
        damagePlayer o idx ctx 15 enemy.position.x
      else ctx
    else ctx
  else ctx

/-- WALKER behaviour: patrol/chase, telegraphed melee swing with an active
damage window. -/
def walkerAI (profile : PhysicsProfile) (o : Ext) (platforms : List Platform)
    (idx : ℕ) (d : ℚ) (ctx : AiCtx) (enemy : Enemy) : AiCtx × Enemy :=
  let r := walkerSwitch o idx d ctx enemy
  let ctx := r.1
  let enemy := walkerVelocity ctx.player r.2
  -- Gravity & Collision
  let enemy := { enemy with velocity :=
    { enemy.velocity with y := enemy.velocity.y + profile.gravity } }
  let enemy := enemyYCollide platforms enemy
  let enemy := { enemy with position :=
    { enemy.position with x := enemy.position.x + enemy.velocity.x } }
  (walkerMelee o idx ctx enemy, enemy)

/-- Per-enemy timer decrements at the top of the `updateEnemies` loop. -/
def enemyTickTimers (enemy : Enemy) : Enemy :=
  let enemy := if enemy.hitTimer > 0 then
    { enemy with hitTimer := enemy.hitTimer - 1 } else enemy
  let enemy := if enemy.attackCooldownTimer > 0 then
    { enemy with attackCooldownTimer := enemy.attackCooldownTimer - 1 } else enemy
  if enemy.attackDurationTimer > 0 then
    { enemy with attackDurationTimer := enemy.attackDurationTimer - 1 } else enemy

/-- "Training Dummy Physics" (enemies with `maxHealth > 5000`): horizontal
friction, gravity, landing on any platform. -/
def dummyPhysics (profile : PhysicsProfile) (platforms : List Platform)
    (enemy : Enemy) : Enemy :=
  let vx := enemy.velocity.x * 0.85
  let vx := if |vx| < 0.1 then 0 else vx
  let enemy := { enemy with velocity :=
    { x := vx, y := enemy.velocity.y + profile.gravity } }
  let enemy := enemyYCollide platforms enemy
  { enemy with position :=
    { enemy.position with x := enemy.position.x + enemy.velocity.x } }

/-- One enemy's per-tick update (`updateEnemies` loop body): timer
decrements, the training-dummy special case, then type dispatch. -/
def updateOneEnemy (profile : PhysicsProfile) (o : Ext)
    (platforms : List Platform) (idx : ℕ) (ctx : AiCtx) (enemy : Enemy) :
    AiCtx × Enemy :=
  if enemy.isDead then (ctx, enemy)
  else
    let enemy := enemyTickTimers enemy
    if enemy.maxHealth > 5000 then (ctx, dummyPhysics profile platforms enemy)
    else
      let d := dist o enemy.position ctx.player.position
      match enemy.type with
      | .FLYER => flyerAI o platforms idx d ctx enemy
      | .TURRET => turretAI profile o platforms idx d ctx enemy
      | .WALKER => walkerAI profile o platforms idx d ctx enemy

/-- `updateEnemies(state, profile)`: run every live enemy in order,
threading the player, screen shake and effect lists through. -/
def updateEnemies (profile : PhysicsProfile) (o : Ext) (s : GameState) :
    GameState :=
  let ctx : AiCtx :=
    ⟨s.player, s.screenShake, s.particles, s.damageNumbers, s.activeVfx⟩
  let r := s.enemies.enum.foldl
    (fun (acc : AiCtx × List Enemy) ie =>
      let q := updateOneEnemy profile o s.platforms ie.1 acc.1 ie.2
      (q.1, q.2 :: acc.2))
    (ctx, ([] : List Enemy))
  { s with
    player := r.1.player
    screenShake := r.1.screenShake
    particles := r.1.particles
    damageNumbers := r.1.damageNumbers
    activeVfx := r.1.activeVfx
    enemies := r.2.reverse }

/-! ## Player tick phases (`updatePhysics` sections) -/

/-- JavaScript `%` on numbers: remainder with truncated division. -/
def jsMod (a b : ℚ) : ℚ :=
  a - b * ((if a / b ≥ 0 then ⌊a / b⌋ else ⌈a / b⌉ : ℤ) : ℚ)

/-- The derived `moveInput` value: `(RIGHT ? 1 : 0) - (LEFT ? 1 : 0)`. -/
def moveInputOf (input : InputState) : ℚ :=
  (if input.right then 1 else 0) - (if input.left then 1 else 0)

/-- Section 0.5, death branch: enter `dead` exactly once with a shake pulse
and a particle burst.  (The wall-clock respawn callback is `respawnPlayer`
below, modelled as a separate event.) -/
def deathCheck (o : Ext) (s : GameState) : GameState :=
  if ¬s.player.isDead then
    { s with
      player := { s.player with isDead := true }
      screenShake := 10
      particles := spawnParticles o s.player.position 20 "#ef4444" 8 s.particles }
  else s

/-- The `setTimeout` respawn callback scheduled on death entry: restore
health, reset velocity, teleport to the respawn anchor, grant a 60-frame
grace window, snap the companion. -/
def respawnPlayer (s : GameState) : GameState :=
  let player := { s.player with
    isDead := false
    health := s.player.maxHealth
    position := s.player.respawnPosition
    velocity := ({ x := 0, y := 0 } : Vec2)
    invincibilityTimer := 60 }
  { s with
    player := player
    companion := { s.companion with position :=
      { x := player.position.x, y := player.position.y - 50 } } }

/-- Section 1, "State Management & Timers": decrement every frame timer at
most once, run the recharge/chain/keep-alive resets, buffer a fresh jump
press, and record the jump edge-detect sample. -/
def tickTimers (profile : PhysicsProfile) (input : InputState)
    (player : PlayerState) : PlayerState :=
  let player := if player.dashTimer > 0 then
    { player with dashTimer := player.dashTimer - 1 } else player
  let player := if player.dashCooldownTimer > 0 then
      let player : PlayerState := { player with dashCooldownTimer := player.dashCooldownTimer - 1 }
      -- RECHARGE LOGIC: long cooldown finishing at full count resets the count
      if player.dashCooldownTimer = 0 ∧ (player.dashCount : ℚ) ≥ profile.maxDashes then
        { player with dashCount := 0 }
      else player
    else player
  let player := if player.attackTimer > 0 then
    { player with attackTimer := player.attackTimer - 1 } else player
  let player := if player.attackCooldownTimer > 0 then
    { player with attackCooldownTimer := player.attackCooldownTimer - 1 } else player
  let player := if player.dashChainTimer > 0 then
      let player : PlayerState := { player with dashChainTimer := player.dashChainTimer - 1 }
      if player.dashChainTimer = 0 ∧ (player.dashCount : ℚ) < profile.maxDashes then
        { player with dashCount := 0 }
      else player
    else player
  let player := if player.comboWindowTimer > 0 then
    { player with comboWindowTimer := player.comboWindowTimer - 1 } else player
  let player := if player.comboDropTimer > 0 then
      let player : PlayerState := { player with comboDropTimer := player.comboDropTimer - 1 }
      if player.comboDropTimer = 0 then { player with comboCount := 0 } else player
    else player
  let player := if player.coyoteTimer > 0 then
    { player with coyoteTimer := player.coyoteTimer - 1 } else player
  let player := if player.jumpBufferTimer > 0 then
    { player with jumpBufferTimer := player.jumpBufferTimer - 1 } else player
  let player := if player.invincibilityTimer > 0 then
    { player with invincibilityTimer := player.invincibilityTimer - 1 } else player
  let player := if input.jump ∧ ¬player.lastJumpInput then
    { player with jumpBufferTimer := profile.jumpBufferFrames } else player
  { player with lastJumpInput := input.jump }

/-- Combat CHECK 1: dash attack — cancel the dash, keep high forward
velocity, no combo-step bookkeeping. -/
def dashAttackStart (profile : PhysicsProfile) (o : Ext) (s : GameState) :
    GameState :=
  let player := { s.player with
    isDashing := false
    isAttacking := true
    attackTimer := profile.attackDurationFrames
    attackCooldownTimer := profile.attackCooldownFrames
    activeAnim := AnimationKey.ATTACK_DASH_A
    animFrame := 0
    animTimer := 0 }
  let dashDir : ℚ := if player.facingRight then 1 else -1
  let player := { player with velocity :=
    { player.velocity with x := dashDir * profile.dashSpeed * 0.8 } }
  { s with
    player := player
    particles := spawnParticles o player.position 10 "#0ea5e9" 12 s.particles }

/-- Combat air launcher (jump held): self-impulse upward, 1.5× cooldown,
clears the jump buffer, no combo-step bookkeeping. -/
def airLauncherStart (profile : PhysicsProfile) (player : PlayerState) :
    PlayerState :=
  let player := { player with
    jumpBufferTimer := 0
    isAttacking := true
    attackTimer := profile.attackDurationFrames
    attackCooldownTimer := profile.attackCooldownFrames * 1.5
    activeAnim := AnimationKey.ATTACK_AIR_A
    animFrame := 0
    animTimer := 0 }
  { player with
    velocity := { player.velocity with y := -profile.airLaunchForce }
    isGrounded := false
    canDoubleJump := true }

/-- Combat standard combo: advance the step modulo 3 while the combo window
is open, otherwise reset it to 0; lunge forward and open a new window. -/
def standardComboStart (profile : PhysicsProfile) (player : PlayerState) :
    PlayerState :=
  let comboStep := if player.comboWindowTimer > 0 then (player.comboStep + 1) % 3
    else 0
  let player := { player with
    comboStep := comboStep
    isAttacking := true
    attackTimer := profile.attackDurationFrames
    attackCooldownTimer := profile.attackCooldownFrames
    activeAnim :=
      if comboStep = 0 then AnimationKey.ATTACK
      else if comboStep = 1 then AnimationKey.ATTACK_B
      else AnimationKey.ATTACK_C
    animFrame := 0
    animTimer := 0 }
  let startDir : ℚ := if player.facingRight then 1 else -1
  { player with
    velocity := { player.velocity with x := startDir * profile.attackLungeSpeed * 0.4 }
    comboWindowTimer := profile.attackCooldownFrames + profile.comboWindowFrames }

/-- Accumulator of the per-enemy hit loop. -/
structure HitAcc where
  enemies : List Enemy
  hitLanded : Bool
  knockbackForceApplied : ℚ
  particles : List Particle
  damageNumbers : List DamageNumber
  activeVfx : List OneShotAnim

/-- One enemy of the hit-detection `forEach`. -/
def attackHitOneEnemy (profile : PhysicsProfile) (o : Ext)
    (isLauncher isDashAttack : Bool) (baseDamage : ℚ) (hb : Rect)
    (comboStep comboCount : ℕ) (facingRight : Bool) (acc : HitAcc)
    (ie : ℕ × Enemy) : HitAcc :=
  let idx := ie.1
  let enemy := ie.2
  if enemy.isDead then { acc with enemies := acc.enemies ++ [enemy] }
  else if checkRectOverlap { x := hb.x, y := hb.y } hb.width hb.height
      enemy.position enemy.width enemy.height then
    -- CRITICAL HIT LOGIC
    let isCrit := (comboStep = 2 ∧ o.critRoll idx < 0.25) ∨ isLauncher ∨ isDashAttack
    let finalDamage := if isCrit then ((⌊baseDamage * 1.5⌋ : ℤ) : ℚ) else baseDamage
    let enemy : Enemy := { enemy with health := enemy.health - finalDamage, hitTimer := 15 }
    let enemy := if enemy.health > 5000 then { enemy with health := enemy.maxHealth }
      else enemy
    let centerX := enemy.position.x + enemy.width / 2
    let topY := enemy.position.y
    let damageNumbers := spawnDamageNumber o idx { x := centerX, y := topY }
      finalDamage (if isCrit then "#fbbf24" else "#ffffff") isCrit acc.damageNumbers
    -- KNOCKBACK & LAUNCH LOGIC
    let knockbackDir : ℚ := if facingRight then 1 else -1
    let kb : Enemy × ℚ × List Particle :=
      if isLauncher then
        ({ enemy with velocity := { x := knockbackDir * 2, y := -profile.enemyLaunchForce } },
         acc.knockbackForceApplied,
         spawnParticles o { x := centerX, y := topY + 20 } 15 "#3b82f6" 8 acc.particles)
      else if isDashAttack then
        ({ enemy with velocity := { x := knockbackDir * 20, y := -2 } },
         acc.knockbackForceApplied, acc.particles)
      else
        let baseKB : ℚ := 12 + (comboCount : ℚ) * 0.5
        ({ enemy with velocity := { x := knockbackDir * baseKB, y := -4 } },
         max acc.knockbackForceApplied baseKB, acc.particles)
    let enemy := kb.1
    let knockbackForceApplied := kb.2.1
    let particles := kb.2.2
    let enemy := if enemy.maxHealth < 5000 then { enemy with state := .HIT } else enemy
    let hitPos : Vec2 := { x := centerX, y := topY + 30 }
    let activeVfx := spawnVfx o idx hitPos AnimationKey.VFX_HIT facingRight 0
      acc.activeVfx
    let particles := spawnParticles o hitPos 10 "#ffffff" 5 particles
    let dk : Enemy × List Particle :=
      if enemy.health ≤ 0 then
        ({ enemy with isDead := true },
         spawnParticles o hitPos 30 enemy.color 8 particles)
      else (enemy, particles)
    { enemies := acc.enemies ++ [dk.1]
      hitLanded := true
      knockbackForceApplied := knockbackForceApplied
      particles := dk.2
      damageNumbers := damageNumbers
      activeVfx := activeVfx }
  else { acc with enemies := acc.enemies ++ [enemy] }

/-- Combat hit detection (runs for all attack types while `isAttacking`):
facing-oriented hitbox, per-enemy damage/knockback, then the hit-confirm
block (combo counter, shake, chase lunge, hit-stop, dash-attack slow-mo). -/
def attackHitDetection (profile : PhysicsProfile) (o : Ext) (s : GameState) :
    GameState :=
  if s.player.isAttacking then
    let player := s.player
    let isLauncher := player.activeAnim = AnimationKey.ATTACK_AIR_A
    let isDashAttack := player.activeAnim = AnimationKey.ATTACK_DASH_A
    let baseDamage : ℚ := 25 + ((min player.comboCount 10 : ℕ) : ℚ) * 5
    let hbY := player.position.y - 10
    let hbH : ℚ := 64
    let hbW : ℚ := 64 + (player.comboStep : ℚ) * 10
    let hbox : ℚ × ℚ × ℚ :=
      if isLauncher then (player.position.y - 40, (100 : ℚ), hbW)
      else if isDashAttack then (player.position.y, (40 : ℚ), (100 : ℚ))
      else (hbY, hbH, hbW)
    let hbY := hbox.1
    let hbH := hbox.2.1
    let hbW := hbox.2.2
    let attackHitbox : Rect :=
      { x := if player.facingRight then player.position.x + 32
          else player.position.x - hbW
        y := hbY
        width := hbW
        height := hbH }
    let acc : HitAcc := ⟨[], false, 0, s.particles, s.damageNumbers, s.activeVfx⟩
    let acc := s.enemies.enum.foldl
      (attackHitOneEnemy profile o isLauncher isDashAttack baseDamage
        attackHitbox player.comboStep player.comboCount player.facingRight) acc
    let s := { s with
      enemies := acc.enemies
      particles := acc.particles
      damageNumbers := acc.damageNumbers
      activeVfx := acc.activeVfx }
    if acc.hitLanded then
      let player := { player with
        comboCount := player.comboCount + 1
        comboDropTimer := profile.comboKeepAliveFrames }
      let screenShake : ℚ := if isLauncher ∨ isDashAttack then 8
        else 3 + ((min player.comboCount 10 : ℕ) : ℚ) * 0.5
      let player : PlayerState :=
        if ¬isLauncher ∧ ¬isDashAttack then
          -- HIT CONFIRMATION & CHASE LOGIC (Standard only)
          let lungeDir : ℚ := if player.facingRight then 1 else -1
          let chaseSpeed := max (max |player.velocity.x| profile.attackLungeSpeed)
            (acc.knockbackForceApplied * 1.05)
          { player with velocity := { player.velocity with x := lungeDir * chaseSpeed } }
        else player
      let freezeFrames : ℚ := if isLauncher ∨ isDashAttack then 8
        else if player.comboStep = 2 then 10 else 3
      let s := { s with
        player := player
        screenShake := screenShake
        hitStopTimer := freezeFrames }
      if isDashAttack then { s with timeScale := 0.2, slowMoTimer := 1000 }
      else s
    else s
  else s

/-- Section 2, "Combat": on an edge-detected attack press run the dash
attack / air launcher / standard combo branch selection and the hit
detection; always refresh the edge sample and expire `isAttacking`. -/
def combatPhase (profile : PhysicsProfile) (input : InputState) (o : Ext)
    (s : GameState) : GameState :=
  let s :=
    if input.attack ∧ ¬s.player.lastAttackInput then
      let s :=
        if s.player.isDashing then dashAttackStart profile o s
        else if s.player.attackCooldownTimer = 0 then
          if input.jump then { s with player := airLauncherStart profile s.player }
          else { s with player := standardComboStart profile s.player }
        else s
      attackHitDetection profile o s
    else s
  let s := { s with player := { s.player with lastAttackInput := input.attack } }
  if s.player.attackTimer ≤ 0 then
    { s with player := { s.player with isAttacking := false } }
  else s

/-- Section 3, "Dash Mechanic": on an edge-detected dash press with zero
cooldown and spare charges, start a dash; the cooldown is 120 when the
charge that was just consumed reached `maxDashes`, else 15; always refresh
the edge sample. -/
def dashPhase (profile : PhysicsProfile) (input : InputState) (o : Ext)
    (s : GameState) : GameState :=
  let s :=
    if input.dash ∧ ¬s.player.lastDashInput ∧ ¬s.player.isDashing then
      if s.player.dashCooldownTimer = 0 then
        if (s.player.dashCount : ℚ) < profile.maxDashes then
          let player : PlayerState := { s.player with
            isDashing := true
            dashTimer := profile.dashDurationFrames
            invincibilityTimer := profile.dashDurationFrames
            dashCount := s.player.dashCount + 1 }
          let player : PlayerState := { player with
            dashCooldownTimer :=
              if (player.dashCount : ℚ) ≥ profile.maxDashes then 120 else 15
            dashChainTimer := 60 }
          let moveInput := moveInputOf input
          let dashDir : ℚ := if moveInput ≠ 0 then moveInput
            else if player.facingRight then 1 else -1
          let player : PlayerState := { player with
            velocity := { x := dashDir * profile.dashSpeed, y := 0 } }
          { s with
            player := player
            screenShake := 5
            particles := spawnParticles o player.position 10 "#3b82f6" 6 s.particles }
        else s
      else s
    else s
  { s with player := { s.player with lastDashInput := input.dash } }

/-- Section 3 continued: while dashing, either end the dash (keep 60 % of
the speed) and continue the tick, or move, drop a ghost every third frame
and short-circuit the rest of the tick (`Sum.inl` = early return). -/
def dashMovement (o : Ext) (s : GameState) : GameState ⊕ GameState :=
  if s.player.isDashing then
    if s.player.dashTimer ≤ 0 then
      Sum.inr { s with player := { s.player with
        isDashing := false
        velocity := { s.player.velocity with x := s.player.velocity.x * 0.6 } } }
    else
      let player := movePlayer o s.platforms true s.player
      let ghosts :=
        if jsMod player.dashTimer 3 = 0 then
          s.ghosts ++ [{ x := player.position.x
                         y := player.position.y
                         facingRight := player.facingRight
                         alpha := 0.8
                         anim := player.activeAnim
                         frame := player.animFrame }]
        else s.ghosts
      Sum.inl { s with player := player, ghosts := ghosts }
  else Sum.inr s

/-- Section 3.5, "Ghost Management": fade each afterimage by 0.08 and drop
the ones that reach zero alpha. -/
def ghostDecay (ghosts : List Ghost) : List Ghost :=
  ghosts.filterMap fun g =>
    let a := g.alpha - 0.08
    if a ≤ 0 then none else some { g with alpha := a }

/-- Section 4, "Horizontal Movement": approach a target speed with
grounded/airborne accel/decel; attacking on the ground slides at half
decel; facing flips on nonzero input while not dashing. -/
def horizontalMove (profile : PhysicsProfile) (input : InputState)
    (player : PlayerState) : PlayerState :=
  let moveInput := moveInputOf input
  if player.isAttacking ∧ player.isGrounded then
    { player with velocity := { player.velocity with
        x := approach player.velocity.x 0 (profile.groundDecel * 0.5) } }
  else
    let targetSpeed := moveInput * profile.runSpeed
    let vx :=
      if player.isGrounded then
        if moveInput ≠ 0 then approach player.velocity.x targetSpeed profile.groundAccel
        else approach player.velocity.x 0 profile.groundDecel
      else
        if moveInput ≠ 0 then approach player.velocity.x targetSpeed profile.airAccel
        else approach player.velocity.x 0 profile.airDecel
    let player : PlayerState :=
      { player with velocity := { player.velocity with x := vx } }
    if moveInput ≠ 0 ∧ ¬player.isDashing then
      { player with facingRight := moveInput > 0 }
    else player

/-- Section 5 (first half), wall probe and wall slide: recompute `wallDir`
from the two probes, then activate sliding only while falling into or
neutral to the wall, clamping descent toward `wallSlideSpeed`. -/
def wallPhase (profile : PhysicsProfile) (input : InputState)
    (platforms : List Platform) (player : PlayerState) : PlayerState :=
  let moveInput := moveInputOf input
  let wallDir : ℚ := 0
  let wallDir := if checkWallOverlap player.position platforms (-1) then -1 else wallDir
  let wallDir := if checkWallOverlap player.position platforms 1 then 1 else wallDir
  let player : PlayerState := { player with wallDir := wallDir, isWallSliding := false }
  if wallDir ≠ 0 ∧ ¬player.isGrounded ∧ player.velocity.y > 0 then
    if (wallDir = 1 ∧ moveInput ≥ 0) ∨ (wallDir = -1 ∧ moveInput ≤ 0) then
      let player : PlayerState := { player with isWallSliding := true }
      if player.velocity.y > profile.wallSlideSpeed then
        { player with velocity := { player.velocity with
            y := approach player.velocity.y profile.wallSlideSpeed 0.5 } }
      else player
    else player
  else player

/-- Section 5 (second half), gravity: unless wall-sliding, apply gravity
and clamp to terminal velocity; holding DOWN while not rising fast
(`velocity.y > -5`) scales gravity ×2.5 and the terminal velocity ×1.5. -/
def gravityPhase (profile : PhysicsProfile) (input : InputState)
    (player : PlayerState) : PlayerState :=
  if ¬player.isWallSliding then
    let fastFall := input.down ∧ player.velocity.y > -5
    let appliedGravity := if fastFall then profile.gravity * 2.5 else profile.gravity
    let appliedTerminal := if fastFall then profile.terminalVelocity * 1.5
      else profile.terminalVelocity
    let vy := player.velocity.y + appliedGravity
    { player with velocity := { player.velocity with
        y := if vy > appliedTerminal then appliedTerminal else vy } }
  else player

/-- Section 6, "Jumping": wall jump, then ground/coyote jump, then double
jump (mutually exclusive), then the jump-cut on release. -/
def jumpPhase (profile : PhysicsProfile) (input : InputState) (o : Ext)
    (s : GameState) : GameState :=
  let player := s.player
  let jp : PlayerState × List Particle :=
    if player.jumpBufferTimer > 0 ∧ player.isWallSliding then
      let jumpDir := -player.wallDir
      (({ player with
          jumpBufferTimer := 0
          isWallSliding := false
          canDoubleJump := true
          velocity := { x := jumpDir * profile.wallJumpForceX
                        y := -profile.wallJumpForceY }
          facingRight := jumpDir > 0 } : PlayerState),
       spawnParticles o player.position 5 "#ffffff" 3 s.particles)
    else if player.jumpBufferTimer > 0 ∧ (player.isGrounded ∨ player.coyoteTimer > 0) then
      (({ player with
          jumpBufferTimer := 0
          coyoteTimer := 0
          isGrounded := false
          isJumping := true
          canDoubleJump := true
          velocity := { player.velocity with y := -profile.jumpForce } } : PlayerState),
       spawnParticles o { x := player.position.x, y := player.position.y + 64 }
         8 "#ffffff" 2 s.particles)
    else if player.jumpBufferTimer > 0 ∧ player.canDoubleJump ∧
        ¬player.isGrounded ∧ ¬player.isWallSliding then
      (({ player with
          jumpBufferTimer := 0
          canDoubleJump := false
          isJumping := true
          velocity := { player.velocity with y := -profile.doubleJumpForce } } : PlayerState),
       spawnParticles o { x := player.position.x, y := player.position.y + 64 }
         8 "#3b82f6" 4 s.particles)
    else (player, s.particles)
  let player := jp.1
  let particles := jp.2
  let player : PlayerState :=
    if ¬input.jump ∧ player.isJumping ∧ player.velocity.y < 0 then
      { player with
        velocity := { player.velocity with
          y := player.velocity.y * profile.jumpCutMultiplier }
        isJumping := false }
    else player
  { s with player := player, particles := particles }

/-- Section 7, "Movement & Collision": swept movement, then the grounded
bookkeeping (coyote refresh, jump/slide flags, double-jump restore,
respawn-anchor update when nearly stationary). -/
def movementPhase (profile : PhysicsProfile) (o : Ext)
    (platforms : List Platform) (player : PlayerState) : PlayerState :=
  let player := movePlayer o platforms false player
  if player.isGrounded then
    let player : PlayerState := { player with
      coyoteTimer := profile.coyoteFrames
      isJumping := false
      isWallSliding := false
      canDoubleJump := true }
    if |player.velocity.x| < 0.1 then
      { player with respawnPosition := player.position }
    else player
  else player

/-- Section 9, "Animation & Visuals": pick the animation for the new state,
advance its frame clock, ease the lean angle, decay the screen shake. -/
def animationPhase (profile : PhysicsProfile) (s : GameState) : GameState :=
  let player := s.player
  let nextAnim : AnimationKey :=
    if player.isAttacking then
      if player.activeAnim = AnimationKey.ATTACK_AIR_A then .ATTACK_AIR_A
      else if player.activeAnim = AnimationKey.ATTACK_DASH_A then .ATTACK_DASH_A
      else if player.comboStep = 0 then .ATTACK
      else if player.comboStep = 1 then .ATTACK_B
      else .ATTACK_C
    else if player.isDashing then .DASH
    else if player.isWallSliding then .WALL_SLIDE
    else if ¬player.isGrounded then
      (if player.velocity.y < 0 then .JUMP else .FALL)
    else if |player.velocity.x| > 0.5 then .RUN
    else .IDLE
  let player : PlayerState :=
    if nextAnim ≠ player.activeAnim then
      { player with activeAnim := nextAnim, animFrame := 0, animTimer := 0 }
    else
      let config := ANIMATION_MANIFEST player.activeAnim
      let player : PlayerState := { player with animTimer := player.animTimer + 1 }
      if player.animTimer ≥ config.frameDelay then
        let player : PlayerState :=
          { player with animTimer := 0, animFrame := player.animFrame + 1 }
        if player.animFrame ≥ config.count then
          { player with animFrame := if config.loop then 0 else config.count - 1 }
        else player
      else player
  let targetTilt := player.velocity.x / profile.runSpeed * 0.3
  let player : PlayerState := { player with
    leanAngle := player.leanAngle + (targetTilt - player.leanAngle) * 0.2 }
  let shake := if s.screenShake > 0 then s.screenShake * 0.9 else s.screenShake
  let shake := if shake < 0.5 then 0 else shake
  { s with player := player, screenShake := shake }

/-- Camera logic ("DYNAMIC FRAMING"): combat framing fits the bounding box
of the player plus nearby living enemies; exploration framing applies
look-ahead and POI zoom; both smooth exponentially.  (The source seeds its
min/max folds with ±Infinity over a list that always contains the player's
center, which equals folding from that first element.) -/
def cameraPhase (o : Ext) (s : GameState) : GameState :=
  let player := s.player
  let pCenter : Vec2 := { x := player.position.x + PLAYER_WIDTH / 2
                          y := player.position.y + PLAYER_HEIGHT / 2 }
  let extraTargets := s.enemies.filterMap fun enemy =>
    if enemy.isDead then none
    else
      let eCenter : Vec2 := { x := enemy.position.x + enemy.width / 2
                              y := enemy.position.y + enemy.height / 2 }
      let effectiveRange := max (enemy.detectionRange * 1.2) 350
      if dist o player.position enemy.position < effectiveRange then some eCenter
      else none
  let activeTargets := pCenter :: extraTargets
  let inCombat := extraTargets.length > 0
  let cam : ℚ × ℚ × ℚ :=
    if inCombat ∧ activeTargets.length > 1 then
      let minX := activeTargets.foldl (fun a t => min a t.x) pCenter.x
      let maxX := activeTargets.foldl (fun a t => max a t.x) pCenter.x
      let minY := activeTargets.foldl (fun a t => min a t.y) pCenter.y
      let maxY := activeTargets.foldl (fun a t => max a t.y) pCenter.y
      let comboFactor : ℚ := ((min player.comboCount 20 : ℕ) : ℚ)
      let paddingX := 300 - comboFactor * 12
      let paddingY := 200 - comboFactor * 8
      let reqW := (maxX - minX) + paddingX
      let reqH := (maxY - minY) + paddingY
      let zoomX := CANVAS_WIDTH / reqW
      let zoomY := CANVAS_HEIGHT / reqH
      let targetZoom := min zoomX zoomY
      let maxZoomLimit := 1.3 + comboFactor * 0.025
      let targetZoom := max 0.6 (min targetZoom maxZoomLimit)
      let centerX := (minX + maxX) / 2
      let centerY := (minY + maxY) / 2
      (targetZoom, centerX - CANVAS_WIDTH / 2, centerY - CANVAS_HEIGHT / 2)
    else
      let lookAheadX : ℚ := if |player.velocity.x| > 1.0 then player.velocity.x * 20
        else if player.facingRight then 120 else -120
      let lookAheadY : ℚ := if player.velocity.y > 8 then player.velocity.y * 10 else 0
      let lookAheadX := max (-300) (min 300 lookAheadX)
      let lookAheadY := max (-100) (min 200 lookAheadY)
      let camTargetX := (player.position.x + lookAheadX) - CANVAS_WIDTH / 2
      let camTargetY := (player.position.y + lookAheadY - 50) - CANVAS_HEIGHT / 2
      let targetZoom :=
        match s.pois.find? (fun poi => dist o player.position poi.position < poi.range) with
        | some poi => poi.zoomTarget
        | none => 1.0
      (targetZoom, camTargetX, camTargetY)
  let targetZoom := cam.1
  let camTargetX := cam.2.1
  let camTargetY := cam.2.2
  { s with camera :=
      { x := s.camera.x + (camTargetX - s.camera.x) * 0.08
        y := s.camera.y + (camTargetY - s.camera.y) * 0.08
        zoom := s.camera.zoom + (targetZoom - s.camera.zoom) * 0.05 } }

/-- Sections 3.5 through 9 of `updatePhysics`: the part of a tick that runs
only when neither hit-stop, death nor an active dash short-circuits it. -/
def afterDash (profile : PhysicsProfile) (input : InputState) (o : Ext)
    (s : GameState) : GameState :=
  let s := { s with ghosts := ghostDecay s.ghosts }
  let s := { s with player := horizontalMove profile input s.player }
  let s := { s with player := wallPhase profile input s.platforms s.player }
  let s := { s with player := gravityPhase profile input s.player }
  let s := jumpPhase profile input o s
  let s := { s with player := movementPhase profile o s.platforms s.player }
  let s := { s with companion := updateCompanion o s.companion s.player }
  let s := updateSpawners o s
  let s := updateEnemies profile o s
  let s := resolveEntityCollisions s
  let s := { s with activeVfx := updateVfx s.activeVfx
                    damageNumbers := updateDamageNumbers s.damageNumbers }
  let s := animationPhase profile s
  let s := cameraPhase o s
  { s with particles := updateParticles s.particles }

/-- `updatePhysics(profile)`: one fixed 60 Hz tick.  Early returns of the
source (hit-stop freeze, death, active dash movement) short-circuit the
remaining sections exactly as in the source. -/
def updatePhysics (killPlaneY : ℚ) (profile : PhysicsProfile)
    (input : InputState) (o : Ext) (s : GameState) : GameState :=
  -- 0. HIT STOP / IMPACT FREEZE
  if s.hitStopTimer > 0 then { s with hitStopTimer := s.hitStopTimer - 1 }
  -- 0.5 DEATH CHECK
  else if s.player.health ≤ 0 ∨ s.player.position.y > killPlaneY then
    deathCheck o s
  else
    let s := { s with player := tickTimers profile input s.player }
    let s := combatPhase profile input o s
    let s := dashPhase profile input o s
    match dashMovement o s with
    | Sum.inl sEarly => sEarly
    | Sum.inr s => afterDash profile input o s

/-! ## Level data and the initial `GameState` -/

/-- `LevelData` from `src/types.ts`. -/
structure LevelData where
  id : String
  name : String
  playerStart : Vec2
  platforms : List Platform
  enemies : List Enemy
  spawners : List Spawner
  pois : List PointOfInterest
  killPlaneY : ℚ

/-- The `gameState` initialiser of `GameCanvas` (deep copy of the level
into a fresh aggregate). -/
def initialState (level : LevelData) : GameState where
  player :=
    { position := level.playerStart
      velocity := { x := 0, y := 0 }
      isGrounded := false
      isDashing := false
      isWallSliding := false
      isJumping := false
      canDoubleJump := true
      isAttacking := false
      facingRight := true
      activeAnim := .IDLE
      animFrame := 0
      animTimer := 0
      dashTimer := 0
      dashCooldownTimer := 0
      dashCount := 0
      dashChainTimer := 0
      attackTimer := 0
      attackCooldownTimer := 0
      comboStep := 0
      comboCount := 0
      comboWindowTimer := 0
      comboDropTimer := 0
      canChain := false
      coyoteTimer := 0
      jumpBufferTimer := 0
      wallDir := 0
      color := "#1e293b"
      leanAngle := 0
      lastJumpInput := false
      lastDashInput := false
      lastAttackInput := false
      health := PLAYER_MAX_HEALTH
      maxHealth := PLAYER_MAX_HEALTH
      isDead := false
      invincibilityTimer := 0
      respawnPosition := level.playerStart }
  companion :=
    { position := { x := level.playerStart.x - 40, y := level.playerStart.y - 40 }
      velocity := { x := 0, y := 0 }
      rotation := 0
      glitchIntensity := 0
      trail := []
      mode := .PASSIVE
      targetOffset := { x := 0, y := 0 } }
  platforms := level.platforms
  enemies := level.enemies
  spawners := level.spawners
  pois := level.pois
  particles := []
  damageNumbers := []
  activeVfx := []
  ghosts := []
  camera := { x := 0, y := 0, zoom := 1.0 }
  screenShake := 0
  score := 0
  hitStopTimer := 0
  timeScale := 1.0
  slowMoTimer := 0

/-! ## Fixed-timestep scheduler (`loop`) -/

/-- `FIXED_TIMESTEP = 1000 / 60` milliseconds. -/
def FIXED_TIMESTEP : ℚ := 1000 / 60

/-- The `while (accumulator >= FIXED_TIMESTEP)` loop: run one tick and
subtract the tick length for as long as the accumulator covers a tick. -/
def runTicks (kp : ℚ) (profile : PhysicsProfile) (input : InputState)
    (o : Ext) (acc : ℚ) (gs : GameState) : ℚ × GameState :=
  if FIXED_TIMESTEP ≤ acc then
    runTicks kp profile input o (acc - FIXED_TIMESTEP)
      (updatePhysics kp profile input o gs)
  else (acc, gs)
termination_by (⌈acc / FIXED_TIMESTEP⌉).toNat
decreasing_by
  have hT : (0 : ℚ) < FIXED_TIMESTEP := by norm_num [FIXED_TIMESTEP]
  have h1 : (1 : ℚ) ≤ acc / FIXED_TIMESTEP := by
    rw [le_div_iff₀ hT]; simpa using ‹FIXED_TIMESTEP ≤ acc›
  have hsub : (acc - FIXED_TIMESTEP) / FIXED_TIMESTEP = acc / FIXED_TIMESTEP - 1 := by
    field_simp
  have hceil : ⌈(acc - FIXED_TIMESTEP) / FIXED_TIMESTEP⌉ = ⌈acc / FIXED_TIMESTEP⌉ - 1 := by
    rw [hsub]
    exact_mod_cast Int.ceil_sub_int (acc / FIXED_TIMESTEP) 1
  have hone : (1 : ℤ) ≤ ⌈acc / FIXED_TIMESTEP⌉ := by
    exact_mod_cast Int.le_ceil_iff.mpr (by push_cast; linarith)
  omega

/-- One animation-frame update of the physics side of `loop(timestamp)`:
decay `slowMoTimer` by the unscaled real `deltaTime` (resetting `timeScale`
at zero), feed `min(deltaTime, 200) * timeScale` into the accumulator, and
drain it tick by tick. -/
def advance (kp : ℚ) (profile : PhysicsProfile) (input : InputState)
    (o : Ext) (deltaTime acc : ℚ) (gs : GameState) : ℚ × GameState :=
  let gs :=
    if gs.slowMoTimer > 0 then
      let t := gs.slowMoTimer - deltaTime
      { gs with slowMoTimer := t
                timeScale := if t ≤ 0 then 1.0 else gs.timeScale }
    else gs
  runTicks kp profile input o (acc + min deltaTime 200 * gs.timeScale) gs

/-! ## Transition system -/

/-- One observable step of a play session: a fixed tick with some sampled
input and environment, or the wall-clock respawn callback (only ever
scheduled while dead). -/
inductive Step (kp : ℚ) (profile : PhysicsProfile) : GameState → GameState → Prop
  | tick (input : InputState) (o : Ext) (s : GameState) :
      Step kp profile s (updatePhysics kp profile input o s)
  | respawn (s : GameState) (h : s.player.isDead = true) :
      Step kp profile s (respawnPlayer s)

/-- Reachability from the freshly loaded level under a fixed profile. -/
def Reachable (kp : ℚ) (profile : PhysicsProfile) (level : LevelData)
    (s : GameState) : Prop :=
  Relation.ReflTransGen (Step kp profile) (initialState level) s

/-! ## Concrete fixtures used by witnesses and counterexamples -/

/-- No input held. -/
def inputNone : InputState :=
  { left := false, right := false, jump := false, down := false,
    dash := false, attack := false }

/-- A minimal level: empty world, kill plane at 1000. -/
def demoLevel : LevelData :=
  { id := "demo", name := "DEMO", playerStart := { x := 100, y := 500 },
    platforms := [], enemies := [], spawners := [], pois := [],
    killPlaneY := 1000 }

/-- The fresh state of the demo level. -/
def demoState : GameState := initialState demoLevel

/-! ## Projection-through-`ite` simp lemmas

These push structure projections inside conditionals so that phase
functions normalise field-wise. -/

@[simp] lemma ite_GameState_player (c : Prop) [Decidable c] (a b : GameState) :
    (ite c a b).player = ite c a.player b.player := apply_ite _ c a b

@[simp] lemma ite_GameState_companion (c : Prop) [Decidable c] (a b : GameState) :
    (ite c a b).companion = ite c a.companion b.companion := apply_ite _ c a b

@[simp] lemma ite_GameState_platforms (c : Prop) [Decidable c] (a b : GameState) :
    (ite c a b).platforms = ite c a.platforms b.platforms := apply_ite _ c a b

@[simp] lemma ite_GameState_enemies (c : Prop) [Decidable c] (a b : GameState) :
    (ite c a b).enemies = ite c a.enemies b.enemies := apply_ite _ c a b

@[simp] lemma ite_GameState_spawners (c : Prop) [Decidable c] (a b : GameState) :
    (ite c a b).spawners = ite c a.spawners b.spawners := apply_ite _ c a b

@[simp] lemma ite_GameState_pois (c : Prop) [Decidable c] (a b : GameState) :
    (ite c a b).pois = ite c a.pois b.pois := apply_ite _ c a b

@[simp] lemma ite_GameState_particles (c : Prop) [Decidable c] (a b : GameState) :
    (ite c a b).particles = ite c a.particles b.particles := apply_ite _ c a b

@[simp] lemma ite_GameState_damageNumbers (c : Prop) [Decidable c] (a b : GameState) :
    (ite c a b).damageNumbers = ite c a.damageNumbers b.damageNumbers := apply_ite _ c a b

@[simp] lemma ite_GameState_activeVfx (c : Prop) [Decidable c] (a b : GameState) :
    (ite c a b).activeVfx = ite c a.activeVfx b.activeVfx := apply_ite _ c a b

@[simp] lemma ite_GameState_ghosts (c : Prop) [Decidable c] (a b : GameState) :
    (ite c a b).ghosts = ite c a.ghosts b.ghosts := apply_ite _ c a b

@[simp] lemma ite_GameState_camera (c : Prop) [Decidable c] (a b : GameState) :
    (ite c a b).camera = ite c a.camera b.camera := apply_ite _ c a b

@[simp] lemma ite_GameState_screenShake (c : Prop) [Decidable c] (a b : GameState) :
    (ite c a b).screenShake = ite c a.screenShake b.screenShake := apply_ite _ c a b

@[simp] lemma ite_GameState_score (c : Prop) [Decidable c] (a b : GameState) :
    (ite c a b).score = ite c a.score b.score := apply_ite _ c a b

@[simp] lemma ite_GameState_hitStopTimer (c : Prop) [Decidable c] (a b : GameState) :
    (ite c a b).hitStopTimer = ite c a.hitStopTimer b.hitStopTimer := apply_ite _ c a b

@[simp] lemma ite_GameState_timeScale (c : Prop) [Decidable c] (a b : GameState) :
    (ite c a b).timeScale = ite c a.timeScale b.timeScale := apply_ite _ c a b

@[simp] lemma ite_GameState_slowMoTimer (c : Prop) [Decidable c] (a b : GameState) :
    (ite c a b).slowMoTimer = ite c a.slowMoTimer b.slowMoTimer := apply_ite _ c a b

@[simp] lemma ite_PlayerState_position (c : Prop) [Decidable c] (a b : PlayerState) :
    (ite c a b).position = ite c a.position b.position := apply_ite _ c a b

@[simp] lemma ite_PlayerState_velocity (c : Prop) [Decidable c] (a b : PlayerState) :
    (ite c a b).velocity = ite c a.velocity b.velocity := apply_ite _ c a b

@[simp] lemma ite_PlayerState_isGrounded (c : Prop) [Decidable c] (a b : PlayerState) :
    (ite c a b).isGrounded = ite c a.isGrounded b.isGrounded := apply_ite _ c a b

@[simp] lemma ite_PlayerState_isDashing (c : Prop) [Decidable c] (a b : PlayerState) :
    (ite c a b).isDashing = ite c a.isDashing b.isDashing := apply_ite _ c a b

@[simp] lemma ite_PlayerState_isWallSliding (c : Prop) [Decidable c] (a b : PlayerState) :
    (ite c a b).isWallSliding = ite c a.isWallSliding b.isWallSliding := apply_ite _ c a b

@[simp] lemma ite_PlayerState_isJumping (c : Prop) [Decidable c] (a b : PlayerState) :
    (ite c a b).isJumping = ite c a.isJumping b.isJumping := apply_ite _ c a b

@[simp] lemma ite_PlayerState_canDoubleJump (c : Prop) [Decidable c] (a b : PlayerState) :
    (ite c a b).canDoubleJump = ite c a.canDoubleJump b.canDoubleJump := apply_ite _ c a b

@[simp] lemma ite_PlayerState_isAttacking (c : Prop) [Decidable c] (a b : PlayerState) :
    (ite c a b).isAttacking = ite c a.isAttacking b.isAttacking := apply_ite _ c a b

@[simp] lemma ite_PlayerState_facingRight (c : Prop) [Decidable c] (a b : PlayerState) :
    (ite c a b).facingRight = ite c a.facingRight b.facingRight := apply_ite _ c a b

@[simp] lemma ite_PlayerState_activeAnim (c : Prop) [Decidable c] (a b : PlayerState) :
    (ite c a b).activeAnim = ite c a.activeAnim b.activeAnim := apply_ite _ c a b

@[simp] lemma ite_PlayerState_animFrame (c : Prop) [Decidable c] (a b : PlayerState) :
    (ite c a b).animFrame = ite c a.animFrame b.animFrame := apply_ite _ c a b

@[simp] lemma ite_PlayerState_animTimer (c : Prop) [Decidable c] (a b : PlayerState) :
    (ite c a b).animTimer = ite c a.animTimer b.animTimer := apply_ite _ c a b

@[simp] lemma ite_PlayerState_dashTimer (c : Prop) [Decidable c] (a b : PlayerState) :
    (ite c a b).dashTimer = ite c a.dashTimer b.dashTimer := apply_ite _ c a b

@[simp] lemma ite_PlayerState_dashCooldownTimer (c : Prop) [Decidable c] (a b : PlayerState) :
    (ite c a b).dashCooldownTimer = ite c a.dashCooldownTimer b.dashCooldownTimer := apply_ite _ c a b

@[simp] lemma ite_PlayerState_dashCount (c : Prop) [Decidable c] (a b : PlayerState) :
    (ite c a b).dashCount = ite c a.dashCount b.dashCount := apply_ite _ c a b

@[simp] lemma ite_PlayerState_dashChainTimer (c : Prop) [Decidable c] (a b : PlayerState) :
    (ite c a b).dashChainTimer = ite c a.dashChainTimer b.dashChainTimer := apply_ite _ c a b

@[simp] lemma ite_PlayerState_attackTimer (c : Prop) [Decidable c] (a b : PlayerState) :
    (ite c a b).attackTimer = ite c a.attackTimer b.attackTimer := apply_ite _ c a b

@[simp] lemma ite_PlayerState_attackCooldownTimer (c : Prop) [Decidable c] (a b : PlayerState) :
    (ite c a b).attackCooldownTimer = ite c a.attackCooldownTimer b.attackCooldownTimer := apply_ite _ c a b

@[simp] lemma ite_PlayerState_comboStep (c : Prop) [Decidable c] (a b : PlayerState) :
    (ite c a b).comboStep = ite c a.comboStep b.comboStep := apply_ite _ c a b

@[simp] lemma ite_PlayerState_comboCount (c : Prop) [Decidable c] (a b : PlayerState) :
    (ite c a b).comboCount = ite c a.comboCount b.comboCount := apply_ite _ c a b

@[simp] lemma ite_PlayerState_comboWindowTimer (c : Prop) [Decidable c] (a b : PlayerState) :
    (ite c a b).comboWindowTimer = ite c a.comboWindowTimer b.comboWindowTimer := apply_ite _ c a b

@[simp] lemma ite_PlayerState_comboDropTimer (c : Prop) [Decidable c] (a b : PlayerState) :
    (ite c a b).comboDropTimer = ite c a.comboDropTimer b.comboDropTimer := apply_ite _ c a b

@[simp] lemma ite_PlayerState_canChain (c : Prop) [Decidable c] (a b : PlayerState) :
    (ite c a b).canChain = ite c a.canChain b.canChain := apply_ite _ c a b

@[simp] lemma ite_PlayerState_coyoteTimer (c : Prop) [Decidable c] (a b : PlayerState) :
    (ite c a b).coyoteTimer = ite c a.coyoteTimer b.coyoteTimer := apply_ite _ c a b

@[simp] lemma ite_PlayerState_jumpBufferTimer (c : Prop) [Decidable c] (a b : PlayerState) :
    (ite c a b).jumpBufferTimer = ite c a.jumpBufferTimer b.jumpBufferTimer := apply_ite _ c a b

@[simp] lemma ite_PlayerState_wallDir (c : Prop) [Decidable c] (a b : PlayerState) :
    (ite c a b).wallDir = ite c a.wallDir b.wallDir := apply_ite _ c a b

@[simp] lemma ite_PlayerState_color (c : Prop) [Decidable c] (a b : PlayerState) :
    (ite c a b).color = ite c a.color b.color := apply_ite _ c a b

@[simp] lemma ite_PlayerState_leanAngle (c : Prop) [Decidable c] (a b : PlayerState) :
    (ite c a b).leanAngle = ite c a.leanAngle b.leanAngle := apply_ite _ c a b

@[simp] lemma ite_PlayerState_lastJumpInput (c : Prop) [Decidable c] (a b : PlayerState) :
    (ite c a b).lastJumpInput = ite c a.lastJumpInput b.lastJumpInput := apply_ite _ c a b

@[simp] lemma ite_PlayerState_lastDashInput (c : Prop) [Decidable c] (a b : PlayerState) :
    (ite c a b).lastDashInput = ite c a.lastDashInput b.lastDashInput := apply_ite _ c a b

@[simp] lemma ite_PlayerState_lastAttackInput (c : Prop) [Decidable c] (a b : PlayerState) :
    (ite c a b).lastAttackInput = ite c a.lastAttackInput b.lastAttackInput := apply_ite _ c a b

@[simp] lemma ite_PlayerState_health (c : Prop) [Decidable c] (a b : PlayerState) :
    (ite c a b).health = ite c a.health b.health := apply_ite _ c a b

@[simp] lemma ite_PlayerState_maxHealth (c : Prop) [Decidable c] (a b : PlayerState) :
    (ite c a b).maxHealth = ite c a.maxHealth b.maxHealth := apply_ite _ c a b

@[simp] lemma ite_PlayerState_isDead (c : Prop) [Decidable c] (a b : PlayerState) :
    (ite c a b).isDead = ite c a.isDead b.isDead := apply_ite _ c a b

@[simp] lemma ite_PlayerState_invincibilityTimer (c : Prop) [Decidable c] (a b : PlayerState) :
    (ite c a b).invincibilityTimer = ite c a.invincibilityTimer b.invincibilityTimer := apply_ite _ c a b

@[simp] lemma ite_PlayerState_respawnPosition (c : Prop) [Decidable c] (a b : PlayerState) :
    (ite c a b).respawnPosition = ite c a.respawnPosition b.respawnPosition := apply_ite _ c a b

@[simp] lemma ite_Enemy_id (c : Prop) [Decidable c] (a b : Enemy) :
    (ite c a b).id = ite c a.id b.id := apply_ite _ c a b

@[simp] lemma ite_Enemy_type (c : Prop) [Decidable c] (a b : Enemy) :
    (ite c a b).type = ite c a.type b.type := apply_ite _ c a b

@[simp] lemma ite_Enemy_position (c : Prop) [Decidable c] (a b : Enemy) :
    (ite c a b).position = ite c a.position b.position := apply_ite _ c a b

@[simp] lemma ite_Enemy_velocity (c : Prop) [Decidable c] (a b : Enemy) :
    (ite c a b).velocity = ite c a.velocity b.velocity := apply_ite _ c a b

@[simp] lemma ite_Enemy_width (c : Prop) [Decidable c] (a b : Enemy) :
    (ite c a b).width = ite c a.width b.width := apply_ite _ c a b

@[simp] lemma ite_Enemy_height (c : Prop) [Decidable c] (a b : Enemy) :
    (ite c a b).height = ite c a.height b.height := apply_ite _ c a b

@[simp] lemma ite_Enemy_health (c : Prop) [Decidable c] (a b : Enemy) :
    (ite c a b).health = ite c a.health b.health := apply_ite _ c a b

@[simp] lemma ite_Enemy_maxHealth (c : Prop) [Decidable c] (a b : Enemy) :
    (ite c a b).maxHealth = ite c a.maxHealth b.maxHealth := apply_ite _ c a b

@[simp] lemma ite_Enemy_isDead (c : Prop) [Decidable c] (a b : Enemy) :
    (ite c a b).isDead = ite c a.isDead b.isDead := apply_ite _ c a b

@[simp] lemma ite_Enemy_color (c : Prop) [Decidable c] (a b : Enemy) :
    (ite c a b).color = ite c a.color b.color := apply_ite _ c a b

@[simp] lemma ite_Enemy_hitTimer (c : Prop) [Decidable c] (a b : Enemy) :
    (ite c a b).hitTimer = ite c a.hitTimer b.hitTimer := apply_ite _ c a b

@[simp] lemma ite_Enemy_state (c : Prop) [Decidable c] (a b : Enemy) :
    (ite c a b).state = ite c a.state b.state := apply_ite _ c a b

@[simp] lemma ite_Enemy_facingRight (c : Prop) [Decidable c] (a b : Enemy) :
    (ite c a b).facingRight = ite c a.facingRight b.facingRight := apply_ite _ c a b

@[simp] lemma ite_Enemy_patrolOriginX (c : Prop) [Decidable c] (a b : Enemy) :
    (ite c a b).patrolOriginX = ite c a.patrolOriginX b.patrolOriginX := apply_ite _ c a b

@[simp] lemma ite_Enemy_patrolRange (c : Prop) [Decidable c] (a b : Enemy) :
    (ite c a b).patrolRange = ite c a.patrolRange b.patrolRange := apply_ite _ c a b

@[simp] lemma ite_Enemy_detectionRange (c : Prop) [Decidable c] (a b : Enemy) :
    (ite c a b).detectionRange = ite c a.detectionRange b.detectionRange := apply_ite _ c a b

@[simp] lemma ite_Enemy_attackRange (c : Prop) [Decidable c] (a b : Enemy) :
    (ite c a b).attackRange = ite c a.attackRange b.attackRange := apply_ite _ c a b

@[simp] lemma ite_Enemy_attackCooldownTimer (c : Prop) [Decidable c] (a b : Enemy) :
    (ite c a b).attackCooldownTimer = ite c a.attackCooldownTimer b.attackCooldownTimer := apply_ite _ c a b

@[simp] lemma ite_Enemy_chargeTimer (c : Prop) [Decidable c] (a b : Enemy) :
    (ite c a b).chargeTimer = ite c a.chargeTimer b.chargeTimer := apply_ite _ c a b

@[simp] lemma ite_Enemy_attackDurationTimer (c : Prop) [Decidable c] (a b : Enemy) :
    (ite c a b).attackDurationTimer = ite c a.attackDurationTimer b.attackDurationTimer := apply_ite _ c a b

@[simp] lemma ite_Enemy_laserData (c : Prop) [Decidable c] (a b : Enemy) :
    (ite c a b).laserData = ite c a.laserData b.laserData := apply_ite _ c a b

@[simp] lemma ite_AiCtx_player (c : Prop) [Decidable c] (a b : AiCtx) :
    (ite c a b).player = ite c a.player b.player := apply_ite _ c a b

@[simp] lemma ite_AiCtx_screenShake (c : Prop) [Decidable c] (a b : AiCtx) :
    (ite c a b).screenShake = ite c a.screenShake b.screenShake := apply_ite _ c a b

@[simp] lemma ite_AiCtx_particles (c : Prop) [Decidable c] (a b : AiCtx) :
    (ite c a b).particles = ite c a.particles b.particles := apply_ite _ c a b

@[simp] lemma ite_AiCtx_damageNumbers (c : Prop) [Decidable c] (a b : AiCtx) :
    (ite c a b).damageNumbers = ite c a.damageNumbers b.damageNumbers := apply_ite _ c a b

@[simp] lemma ite_AiCtx_activeVfx (c : Prop) [Decidable c] (a b : AiCtx) :
    (ite c a b).activeVfx = ite c a.activeVfx b.activeVfx := apply_ite _ c a b

@[simp] lemma ite_Vec2_x (c : Prop) [Decidable c] (a b : Vec2) :
    (ite c a b).x = ite c a.x b.x := apply_ite _ c a b

@[simp] lemma ite_Vec2_y (c : Prop) [Decidable c] (a b : Vec2) :
    (ite c a b).y = ite c a.y b.y := apply_ite _ c a b

@[simp] lemma ite_Prod_fst {α β : Type} (c : Prop) [Decidable c] (a b : α × β) :
    (ite c a b).1 = ite c a.1 b.1 := apply_ite _ c a b

@[simp] lemma ite_Prod_snd {α β : Type} (c : Prop) [Decidable c] (a b : α × β) :
    (ite c a b).2 = ite c a.2 b.2 := apply_ite _ c a b

/-! ## Phase preservation lemmas

Each lemma records that a tick phase leaves a player field unchanged;
together they let tick-level properties reduce to the single phase that
writes the field. -/

@[simp] lemma tickTimers_comboStep (p : PhysicsProfile) (i : InputState) (pl : PlayerState) :
    (tickTimers p i pl).comboStep = pl.comboStep := by simp [tickTimers]

@[simp] lemma tickTimers_isDashing (p : PhysicsProfile) (i : InputState) (pl : PlayerState) :
    (tickTimers p i pl).isDashing = pl.isDashing := by simp [tickTimers]

@[simp] lemma tickTimers_isAttacking (p : PhysicsProfile) (i : InputState) (pl : PlayerState) :
    (tickTimers p i pl).isAttacking = pl.isAttacking := by simp [tickTimers]

@[simp] lemma tickTimers_health (p : PhysicsProfile) (i : InputState) (pl : PlayerState) :
    (tickTimers p i pl).health = pl.health := by simp [tickTimers]

@[simp] lemma tickTimers_maxHealth (p : PhysicsProfile) (i : InputState) (pl : PlayerState) :
    (tickTimers p i pl).maxHealth = pl.maxHealth := by simp [tickTimers]

@[simp] lemma tickTimers_isDead (p : PhysicsProfile) (i : InputState) (pl : PlayerState) :
    (tickTimers p i pl).isDead = pl.isDead := by simp [tickTimers]

@[simp] lemma tickTimers_lastAttackInput (p : PhysicsProfile) (i : InputState) (pl : PlayerState) :
    (tickTimers p i pl).lastAttackInput = pl.lastAttackInput := by simp [tickTimers]

@[simp] lemma tickTimers_lastDashInput (p : PhysicsProfile) (i : InputState) (pl : PlayerState) :
    (tickTimers p i pl).lastDashInput = pl.lastDashInput := by simp [tickTimers]

@[simp] lemma tickTimers_position (p : PhysicsProfile) (i : InputState) (pl : PlayerState) :
    (tickTimers p i pl).position = pl.position := by simp [tickTimers]

@[simp] lemma tickTimers_velocity (p : PhysicsProfile) (i : InputState) (pl : PlayerState) :
    (tickTimers p i pl).velocity = pl.velocity := by simp [tickTimers]

@[simp] lemma tickTimers_facingRight (p : PhysicsProfile) (i : InputState) (pl : PlayerState) :
    (tickTimers p i pl).facingRight = pl.facingRight := by simp [tickTimers]

@[simp] lemma horizontalMove_comboStep (p : PhysicsProfile) (i : InputState) (pl : PlayerState) :
    (horizontalMove p i pl).comboStep = pl.comboStep := by simp [horizontalMove]

@[simp] lemma horizontalMove_dashCount (p : PhysicsProfile) (i : InputState) (pl : PlayerState) :
    (horizontalMove p i pl).dashCount = pl.dashCount := by simp [horizontalMove]

@[simp] lemma horizontalMove_dashCooldownTimer (p : PhysicsProfile) (i : InputState) (pl : PlayerState) :
    (horizontalMove p i pl).dashCooldownTimer = pl.dashCooldownTimer := by simp [horizontalMove]

@[simp] lemma horizontalMove_dashChainTimer (p : PhysicsProfile) (i : InputState) (pl : PlayerState) :
    (horizontalMove p i pl).dashChainTimer = pl.dashChainTimer := by simp [horizontalMove]

@[simp] lemma horizontalMove_dashTimer (p : PhysicsProfile) (i : InputState) (pl : PlayerState) :
    (horizontalMove p i pl).dashTimer = pl.dashTimer := by simp [horizontalMove]

@[simp] lemma horizontalMove_invincibilityTimer (p : PhysicsProfile) (i : InputState) (pl : PlayerState) :
    (horizontalMove p i pl).invincibilityTimer = pl.invincibilityTimer := by simp [horizontalMove]

@[simp] lemma horizontalMove_isDashing (p : PhysicsProfile) (i : InputState) (pl : PlayerState) :
    (horizontalMove p i pl).isDashing = pl.isDashing := by simp [horizontalMove]

@[simp] lemma horizontalMove_health (p : PhysicsProfile) (i : InputState) (pl : PlayerState) :
    (horizontalMove p i pl).health = pl.health := by simp [horizontalMove]

@[simp] lemma horizontalMove_maxHealth (p : PhysicsProfile) (i : InputState) (pl : PlayerState) :
    (horizontalMove p i pl).maxHealth = pl.maxHealth := by simp [horizontalMove]

@[simp] lemma horizontalMove_isDead (p : PhysicsProfile) (i : InputState) (pl : PlayerState) :
    (horizontalMove p i pl).isDead = pl.isDead := by simp [horizontalMove]

@[simp] lemma wallPhase_comboStep (p : PhysicsProfile) (i : InputState) (plats : List Platform) (pl : PlayerState) :
    (wallPhase p i plats pl).comboStep = pl.comboStep := by simp [wallPhase]

@[simp] lemma wallPhase_dashCount (p : PhysicsProfile) (i : InputState) (plats : List Platform) (pl : PlayerState) :
    (wallPhase p i plats pl).dashCount = pl.dashCount := by simp [wallPhase]

@[simp] lemma wallPhase_dashCooldownTimer (p : PhysicsProfile) (i : InputState) (plats : List Platform) (pl : PlayerState) :
    (wallPhase p i plats pl).dashCooldownTimer = pl.dashCooldownTimer := by simp [wallPhase]

@[simp] lemma wallPhase_dashChainTimer (p : PhysicsProfile) (i : InputState) (plats : List Platform) (pl : PlayerState) :
    (wallPhase p i plats pl).dashChainTimer = pl.dashChainTimer := by simp [wallPhase]

@[simp] lemma wallPhase_dashTimer (p : PhysicsProfile) (i : InputState) (plats : List Platform) (pl : PlayerState) :
    (wallPhase p i plats pl).dashTimer = pl.dashTimer := by simp [wallPhase]

@[simp] lemma wallPhase_invincibilityTimer (p : PhysicsProfile) (i : InputState) (plats : List Platform) (pl : PlayerState) :
    (wallPhase p i plats pl).invincibilityTimer = pl.invincibilityTimer := by simp [wallPhase]

@[simp] lemma wallPhase_isDashing (p : PhysicsProfile) (i : InputState) (plats : List Platform) (pl : PlayerState) :
    (wallPhase p i plats pl).isDashing = pl.isDashing := by simp [wallPhase]

@[simp] lemma wallPhase_health (p : PhysicsProfile) (i : InputState) (plats : List Platform) (pl : PlayerState) :
    (wallPhase p i plats pl).health = pl.health := by simp [wallPhase]

@[simp] lemma wallPhase_maxHealth (p : PhysicsProfile) (i : InputState) (plats : List Platform) (pl : PlayerState) :
    (wallPhase p i plats pl).maxHealth = pl.maxHealth := by simp [wallPhase]

@[simp] lemma wallPhase_isDead (p : PhysicsProfile) (i : InputState) (plats : List Platform) (pl : PlayerState) :
    (wallPhase p i plats pl).isDead = pl.isDead := by simp [wallPhase]

@[simp] lemma gravityPhase_comboStep (p : PhysicsProfile) (i : InputState) (pl : PlayerState) :
    (gravityPhase p i pl).comboStep = pl.comboStep := by simp [gravityPhase]

@[simp] lemma gravityPhase_dashCount (p : PhysicsProfile) (i : InputState) (pl : PlayerState) :
    (gravityPhase p i pl).dashCount = pl.dashCount := by simp [gravityPhase]

@[simp] lemma gravityPhase_dashCooldownTimer (p : PhysicsProfile) (i : InputState) (pl : PlayerState) :
    (gravityPhase p i pl).dashCooldownTimer = pl.dashCooldownTimer := by simp [gravityPhase]

@[simp] lemma gravityPhase_dashChainTimer (p : PhysicsProfile) (i : InputState) (pl : PlayerState) :
    (gravityPhase p i pl).dashChainTimer = pl.dashChainTimer := by simp [gravityPhase]

@[simp] lemma gravityPhase_dashTimer (p : PhysicsProfile) (i : InputState) (pl : PlayerState) :
    (gravityPhase p i pl).dashTimer = pl.dashTimer := by simp [gravityPhase]

@[simp] lemma gravityPhase_invincibilityTimer (p : PhysicsProfile) (i : InputState) (pl : PlayerState) :
    (gravityPhase p i pl).invincibilityTimer = pl.invincibilityTimer := by simp [gravityPhase]

@[simp] lemma gravityPhase_isDashing (p : PhysicsProfile) (i : InputState) (pl : PlayerState) :
    (gravityPhase p i pl).isDashing = pl.isDashing := by simp [gravityPhase]

@[simp] lemma gravityPhase_health (p : PhysicsProfile) (i : InputState) (pl : PlayerState) :
    (gravityPhase p i pl).health = pl.health := by simp [gravityPhase]

@[simp] lemma gravityPhase_maxHealth (p : PhysicsProfile) (i : InputState) (pl : PlayerState) :
    (gravityPhase p i pl).maxHealth = pl.maxHealth := by simp [gravityPhase]

@[simp] lemma gravityPhase_isDead (p : PhysicsProfile) (i : InputState) (pl : PlayerState) :
    (gravityPhase p i pl).isDead = pl.isDead := by simp [gravityPhase]

@[simp] lemma movePlayer_comboStep (o : Ext) (plats : List Platform) (b : Bool) (pl : PlayerState) :
    (movePlayer o plats b pl).comboStep = pl.comboStep := by simp [movePlayer]

@[simp] lemma movePlayer_dashCount (o : Ext) (plats : List Platform) (b : Bool) (pl : PlayerState) :
    (movePlayer o plats b pl).dashCount = pl.dashCount := by simp [movePlayer]

@[simp] lemma movePlayer_dashCooldownTimer (o : Ext) (plats : List Platform) (b : Bool) (pl : PlayerState) :
    (movePlayer o plats b pl).dashCooldownTimer = pl.dashCooldownTimer := by simp [movePlayer]

@[simp] lemma movePlayer_dashChainTimer (o : Ext) (plats : List Platform) (b : Bool) (pl : PlayerState) :
    (movePlayer o plats b pl).dashChainTimer = pl.dashChainTimer := by simp [movePlayer]

@[simp] lemma movePlayer_dashTimer (o : Ext) (plats : List Platform) (b : Bool) (pl : PlayerState) :
    (movePlayer o plats b pl).dashTimer = pl.dashTimer := by simp [movePlayer]

@[simp] lemma movePlayer_invincibilityTimer (o : Ext) (plats : List Platform) (b : Bool) (pl : PlayerState) :
    (movePlayer o plats b pl).invincibilityTimer = pl.invincibilityTimer := by simp [movePlayer]

@[simp] lemma movePlayer_isDashing (o : Ext) (plats : List Platform) (b : Bool) (pl : PlayerState) :
    (movePlayer o plats b pl).isDashing = pl.isDashing := by simp [movePlayer]

@[simp] lemma movePlayer_health (o : Ext) (plats : List Platform) (b : Bool) (pl : PlayerState) :
    (movePlayer o plats b pl).health = pl.health := by simp [movePlayer]

@[simp] lemma movePlayer_maxHealth (o : Ext) (plats : List Platform) (b : Bool) (pl : PlayerState) :
    (movePlayer o plats b pl).maxHealth = pl.maxHealth := by simp [movePlayer]

@[simp] lemma movePlayer_isDead (o : Ext) (plats : List Platform) (b : Bool) (pl : PlayerState) :
    (movePlayer o plats b pl).isDead = pl.isDead := by simp [movePlayer]

@[simp] lemma movementPhase_comboStep (p : PhysicsProfile) (o : Ext) (plats : List Platform) (pl : PlayerState) :
    (movementPhase p o plats pl).comboStep = pl.comboStep := by simp [movementPhase]

@[simp] lemma movementPhase_dashCount (p : PhysicsProfile) (o : Ext) (plats : List Platform) (pl : PlayerState) :
    (movementPhase p o plats pl).dashCount = pl.dashCount := by simp [movementPhase]

@[simp] lemma movementPhase_dashCooldownTimer (p : PhysicsProfile) (o : Ext) (plats : List Platform) (pl : PlayerState) :
    (movementPhase p o plats pl).dashCooldownTimer = pl.dashCooldownTimer := by simp [movementPhase]

@[simp] lemma movementPhase_dashChainTimer (p : PhysicsProfile) (o : Ext) (plats : List Platform) (pl : PlayerState) :
    (movementPhase p o plats pl).dashChainTimer = pl.dashChainTimer := by simp [movementPhase]

@[simp] lemma movementPhase_dashTimer (p : PhysicsProfile) (o : Ext) (plats : List Platform) (pl : PlayerState) :
    (movementPhase p o plats pl).dashTimer = pl.dashTimer := by simp [movementPhase]

@[simp] lemma movementPhase_invincibilityTimer (p : PhysicsProfile) (o : Ext) (plats : List Platform) (pl : PlayerState) :
    (movementPhase p o plats pl).invincibilityTimer = pl.invincibilityTimer := by simp [movementPhase]

@[simp] lemma movementPhase_isDashing (p : PhysicsProfile) (o : Ext) (plats : List Platform) (pl : PlayerState) :
    (movementPhase p o plats pl).isDashing = pl.isDashing := by simp [movementPhase]

@[simp] lemma movementPhase_health (p : PhysicsProfile) (o : Ext) (plats : List Platform) (pl : PlayerState) :
    (movementPhase p o plats pl).health = pl.health := by simp [movementPhase]

@[simp] lemma movementPhase_maxHealth (p : PhysicsProfile) (o : Ext) (plats : List Platform) (pl : PlayerState) :
    (movementPhase p o plats pl).maxHealth = pl.maxHealth := by simp [movementPhase]

@[simp] lemma movementPhase_isDead (p : PhysicsProfile) (o : Ext) (plats : List Platform) (pl : PlayerState) :
    (movementPhase p o plats pl).isDead = pl.isDead := by simp [movementPhase]

@[simp] lemma jumpPhase_comboStep (p : PhysicsProfile) (i : InputState) (o : Ext) (s : GameState) :
    (jumpPhase p i o s).player.comboStep = s.player.comboStep := by simp [jumpPhase]

@[simp] lemma jumpPhase_dashCount (p : PhysicsProfile) (i : InputState) (o : Ext) (s : GameState) :
    (jumpPhase p i o s).player.dashCount = s.player.dashCount := by simp [jumpPhase]

@[simp] lemma jumpPhase_dashCooldownTimer (p : PhysicsProfile) (i : InputState) (o : Ext) (s : GameState) :
    (jumpPhase p i o s).player.dashCooldownTimer = s.player.dashCooldownTimer := by simp [jumpPhase]

@[simp] lemma jumpPhase_dashChainTimer (p : PhysicsProfile) (i : InputState) (o : Ext) (s : GameState) :
    (jumpPhase p i o s).player.dashChainTimer = s.player.dashChainTimer := by simp [jumpPhase]

@[simp] lemma jumpPhase_dashTimer (p : PhysicsProfile) (i : InputState) (o : Ext) (s : GameState) :
    (jumpPhase p i o s).player.dashTimer = s.player.dashTimer := by simp [jumpPhase]

@[simp] lemma jumpPhase_invincibilityTimer (p : PhysicsProfile) (i : InputState) (o : Ext) (s : GameState) :
    (jumpPhase p i o s).player.invincibilityTimer = s.player.invincibilityTimer := by simp [jumpPhase]

@[simp] lemma jumpPhase_isDashing (p : PhysicsProfile) (i : InputState) (o : Ext) (s : GameState) :
    (jumpPhase p i o s).player.isDashing = s.player.isDashing := by simp [jumpPhase]

@[simp] lemma jumpPhase_health (p : PhysicsProfile) (i : InputState) (o : Ext) (s : GameState) :
    (jumpPhase p i o s).player.health = s.player.health := by simp [jumpPhase]

@[simp] lemma jumpPhase_maxHealth (p : PhysicsProfile) (i : InputState) (o : Ext) (s : GameState) :
    (jumpPhase p i o s).player.maxHealth = s.player.maxHealth := by simp [jumpPhase]

@[simp] lemma jumpPhase_isDead (p : PhysicsProfile) (i : InputState) (o : Ext) (s : GameState) :
    (jumpPhase p i o s).player.isDead = s.player.isDead := by simp [jumpPhase]

@[simp] lemma animationPhase_comboStep (p : PhysicsProfile) (s : GameState) :
    (animationPhase p s).player.comboStep = s.player.comboStep := by simp [animationPhase]

@[simp] lemma animationPhase_dashCount (p : PhysicsProfile) (s : GameState) :
    (animationPhase p s).player.dashCount = s.player.dashCount := by simp [animationPhase]

@[simp] lemma animationPhase_dashCooldownTimer (p : PhysicsProfile) (s : GameState) :
    (animationPhase p s).player.dashCooldownTimer = s.player.dashCooldownTimer := by simp [animationPhase]

@[simp] lemma animationPhase_dashChainTimer (p : PhysicsProfile) (s : GameState) :
    (animationPhase p s).player.dashChainTimer = s.player.dashChainTimer := by simp [animationPhase]

@[simp] lemma animationPhase_dashTimer (p : PhysicsProfile) (s : GameState) :
    (animationPhase p s).player.dashTimer = s.player.dashTimer := by simp [animationPhase]

@[simp] lemma animationPhase_invincibilityTimer (p : PhysicsProfile) (s : GameState) :
    (animationPhase p s).player.invincibilityTimer = s.player.invincibilityTimer := by simp [animationPhase]

@[simp] lemma animationPhase_isDashing (p : PhysicsProfile) (s : GameState) :
    (animationPhase p s).player.isDashing = s.player.isDashing := by simp [animationPhase]

@[simp] lemma animationPhase_health (p : PhysicsProfile) (s : GameState) :
    (animationPhase p s).player.health = s.player.health := by simp [animationPhase]

@[simp] lemma animationPhase_maxHealth (p : PhysicsProfile) (s : GameState) :
    (animationPhase p s).player.maxHealth = s.player.maxHealth := by simp [animationPhase]

@[simp] lemma animationPhase_isDead (p : PhysicsProfile) (s : GameState) :
    (animationPhase p s).player.isDead = s.player.isDead := by simp [animationPhase]

@[simp] lemma combatPhase_dashCount (p : PhysicsProfile) (i : InputState) (o : Ext) (s : GameState) :
    (combatPhase p i o s).player.dashCount = s.player.dashCount := by
  simp [combatPhase, dashAttackStart, airLauncherStart, standardComboStart,
    attackHitDetection]

@[simp] lemma combatPhase_dashCooldownTimer (p : PhysicsProfile) (i : InputState) (o : Ext) (s : GameState) :
    (combatPhase p i o s).player.dashCooldownTimer = s.player.dashCooldownTimer := by
  simp [combatPhase, dashAttackStart, airLauncherStart, standardComboStart,
    attackHitDetection]

@[simp] lemma combatPhase_dashChainTimer (p : PhysicsProfile) (i : InputState) (o : Ext) (s : GameState) :
    (combatPhase p i o s).player.dashChainTimer = s.player.dashChainTimer := by
  simp [combatPhase, dashAttackStart, airLauncherStart, standardComboStart,
    attackHitDetection]

@[simp] lemma combatPhase_dashTimer (p : PhysicsProfile) (i : InputState) (o : Ext) (s : GameState) :
    (combatPhase p i o s).player.dashTimer = s.player.dashTimer := by
  simp [combatPhase, dashAttackStart, airLauncherStart, standardComboStart,
    attackHitDetection]

@[simp] lemma combatPhase_invincibilityTimer (p : PhysicsProfile) (i : InputState) (o : Ext) (s : GameState) :
    (combatPhase p i o s).player.invincibilityTimer = s.player.invincibilityTimer := by
  simp [combatPhase, dashAttackStart, airLauncherStart, standardComboStart,
    attackHitDetection]

@[simp] lemma combatPhase_health (p : PhysicsProfile) (i : InputState) (o : Ext) (s : GameState) :
    (combatPhase p i o s).player.health = s.player.health := by
  simp [combatPhase, dashAttackStart, airLauncherStart, standardComboStart,
    attackHitDetection]

@[simp] lemma combatPhase_maxHealth (p : PhysicsProfile) (i : InputState) (o : Ext) (s : GameState) :
    (combatPhase p i o s).player.maxHealth = s.player.maxHealth := by
  simp [combatPhase, dashAttackStart, airLauncherStart, standardComboStart,
    attackHitDetection]

@[simp] lemma combatPhase_isDead (p : PhysicsProfile) (i : InputState) (o : Ext) (s : GameState) :
    (combatPhase p i o s).player.isDead = s.player.isDead := by
  simp [combatPhase, dashAttackStart, airLauncherStart, standardComboStart,
    attackHitDetection]

@[simp] lemma combatPhase_position (p : PhysicsProfile) (i : InputState) (o : Ext) (s : GameState) :
    (combatPhase p i o s).player.position = s.player.position := by
  simp [combatPhase, dashAttackStart, airLauncherStart, standardComboStart,
    attackHitDetection]

@[simp] lemma combatPhase_lastDashInput (p : PhysicsProfile) (i : InputState) (o : Ext) (s : GameState) :
    (combatPhase p i o s).player.lastDashInput = s.player.lastDashInput := by
  simp [combatPhase, dashAttackStart, airLauncherStart, standardComboStart,
    attackHitDetection]

@[simp] lemma combatPhase_facingRight (p : PhysicsProfile) (i : InputState) (o : Ext) (s : GameState) :
    (combatPhase p i o s).player.facingRight = s.player.facingRight := by
  simp [combatPhase, dashAttackStart, airLauncherStart, standardComboStart,
    attackHitDetection]

@[simp] lemma dashPhase_comboStep (p : PhysicsProfile) (i : InputState) (o : Ext) (s : GameState) :
    (dashPhase p i o s).player.comboStep = s.player.comboStep := by simp [dashPhase]

@[simp] lemma dashPhase_health (p : PhysicsProfile) (i : InputState) (o : Ext) (s : GameState) :
    (dashPhase p i o s).player.health = s.player.health := by simp [dashPhase]

@[simp] lemma dashPhase_maxHealth (p : PhysicsProfile) (i : InputState) (o : Ext) (s : GameState) :
    (dashPhase p i o s).player.maxHealth = s.player.maxHealth := by simp [dashPhase]

@[simp] lemma dashPhase_isDead (p : PhysicsProfile) (i : InputState) (o : Ext) (s : GameState) :
    (dashPhase p i o s).player.isDead = s.player.isDead := by simp [dashPhase]

@[simp] lemma dashPhase_isAttacking (p : PhysicsProfile) (i : InputState) (o : Ext) (s : GameState) :
    (dashPhase p i o s).player.isAttacking = s.player.isAttacking := by simp [dashPhase]

@[simp] lemma dashPhase_lastAttackInput (p : PhysicsProfile) (i : InputState) (o : Ext) (s : GameState) :
    (dashPhase p i o s).player.lastAttackInput = s.player.lastAttackInput := by simp [dashPhase]

@[simp] lemma dashPhase_attackTimer (p : PhysicsProfile) (i : InputState) (o : Ext) (s : GameState) :
    (dashPhase p i o s).player.attackTimer = s.player.attackTimer := by simp [dashPhase]

@[simp] lemma dashPhase_attackCooldownTimer (p : PhysicsProfile) (i : InputState) (o : Ext) (s : GameState) :
    (dashPhase p i o s).player.attackCooldownTimer = s.player.attackCooldownTimer := by simp [dashPhase]

@[simp] lemma dashPhase_comboWindowTimer (p : PhysicsProfile) (i : InputState) (o : Ext) (s : GameState) :
    (dashPhase p i o s).player.comboWindowTimer = s.player.comboWindowTimer := by simp [dashPhase]

@[simp] lemma updateSpawners_player (o : Ext) (s : GameState) :
    (updateSpawners o s).player = s.player := rfl

@[simp] lemma cameraPhase_player (o : Ext) (s : GameState) :
    (cameraPhase o s).player = s.player := rfl

@[simp] lemma resolveEntityCollisions_comboStep (s : GameState) :
    (resolveEntityCollisions s).player.comboStep = s.player.comboStep := rfl

@[simp] lemma resolveEntityCollisions_dashCount (s : GameState) :
    (resolveEntityCollisions s).player.dashCount = s.player.dashCount := rfl

@[simp] lemma resolveEntityCollisions_dashCooldownTimer (s : GameState) :
    (resolveEntityCollisions s).player.dashCooldownTimer = s.player.dashCooldownTimer := rfl

@[simp] lemma resolveEntityCollisions_dashChainTimer (s : GameState) :
    (resolveEntityCollisions s).player.dashChainTimer = s.player.dashChainTimer := rfl

@[simp] lemma resolveEntityCollisions_dashTimer (s : GameState) :
    (resolveEntityCollisions s).player.dashTimer = s.player.dashTimer := rfl

@[simp] lemma resolveEntityCollisions_invincibilityTimer (s : GameState) :
    (resolveEntityCollisions s).player.invincibilityTimer = s.player.invincibilityTimer := rfl

@[simp] lemma resolveEntityCollisions_isDashing (s : GameState) :
    (resolveEntityCollisions s).player.isDashing = s.player.isDashing := rfl

@[simp] lemma resolveEntityCollisions_health (s : GameState) :
    (resolveEntityCollisions s).player.health = s.player.health := rfl

@[simp] lemma resolveEntityCollisions_maxHealth (s : GameState) :
    (resolveEntityCollisions s).player.maxHealth = s.player.maxHealth := rfl

@[simp] lemma resolveEntityCollisions_isDead (s : GameState) :
    (resolveEntityCollisions s).player.isDead = s.player.isDead := rfl

/-! ## Frame lemmas: which player fields enemy AI can write

Enemy AI touches the player only through `damagePlayer`, which writes
health (downward), the invincibility timer, the combo counter and the
velocity. -/

/-- The player after an enemy-AI step is the player before it with at most
health (never increased), invincibility timer, combo counter and velocity
rewritten. -/
def AiPlayerFrame (p q : PlayerState) : Prop :=
  q.health ≤ p.health ∧
  ∃ h i c v, q = { p with health := h, invincibilityTimer := i,
                          comboCount := c, velocity := v }

lemma AiPlayerFrame.refl (p : PlayerState) : AiPlayerFrame p p :=
  ⟨le_rfl, p.health, p.invincibilityTimer, p.comboCount, p.velocity, rfl⟩

lemma AiPlayerFrame.trans {p q r : PlayerState}
    (h1 : AiPlayerFrame p q) (h2 : AiPlayerFrame q r) : AiPlayerFrame p r := by
  obtain ⟨hle1, h1, i1, c1, v1, rfl⟩ := h1
  obtain ⟨hle2, h2, i2, c2, v2, rfl⟩ := h2
  exact ⟨hle2.trans hle1, h2, i2, c2, v2, rfl⟩

lemma damagePlayer_frame (o : Ext) (i : ℕ) (ctx : AiCtx) (amount sx : ℚ)
    (ha : 0 ≤ amount) :
    AiPlayerFrame ctx.player (damagePlayer o i ctx amount sx).player := by
  refine ⟨?_, _, _, _, _, rfl⟩
  show ctx.player.health - amount ≤ ctx.player.health
  linarith

lemma walkerMelee_frame (o : Ext) (idx : ℕ) (ctx : AiCtx) (enemy : Enemy) :
    AiPlayerFrame ctx.player (walkerMelee o idx ctx enemy).player := by
  simp only [walkerMelee]
  repeat' split
  all_goals first
    | exact AiPlayerFrame.refl _
    | exact damagePlayer_frame _ _ _ _ _ (by norm_num)

lemma walkerSwitch_player (o : Ext) (idx : ℕ) (d : ℚ) (ctx : AiCtx)
    (enemy : Enemy) : (walkerSwitch o idx d ctx enemy).1.player = ctx.player := by
  simp only [walkerSwitch]
  repeat' split
  all_goals rfl

lemma walkerAI_frame (profile : PhysicsProfile) (o : Ext)
    (platforms : List Platform) (idx : ℕ) (d : ℚ) (ctx : AiCtx)
    (enemy : Enemy) :
    AiPlayerFrame ctx.player (walkerAI profile o platforms idx d ctx enemy).1.player := by
  have h := walkerSwitch_player o idx d ctx enemy
  exact h ▸ walkerMelee_frame o idx _ _

lemma turretSwitch_frame (o : Ext) (idx : ℕ) (d : ℚ) (ctx : AiCtx)
    (enemy : Enemy) :
    AiPlayerFrame ctx.player (turretSwitch o idx d ctx enemy).1.player := by
  simp only [turretSwitch]
  repeat' split
  all_goals first
    | exact AiPlayerFrame.refl _
    | exact damagePlayer_frame _ _ _ _ _ (by norm_num)

lemma turretAI_frame (profile : PhysicsProfile) (o : Ext)
    (platforms : List Platform) (idx : ℕ) (d : ℚ) (ctx : AiCtx)
    (enemy : Enemy) :
    AiPlayerFrame ctx.player (turretAI profile o platforms idx d ctx enemy).1.player :=
  turretSwitch_frame o idx d ctx _

lemma flyerSwitch_frame (o : Ext) (idx : ℕ) (d : ℚ) (ctx : AiCtx)
    (enemy : Enemy) :
    AiPlayerFrame ctx.player (flyerSwitch o idx d ctx enemy).1.player := by
  simp only [flyerSwitch]
  repeat' split
  all_goals first
    | exact AiPlayerFrame.refl _
    | exact damagePlayer_frame _ _ _ _ _ (by norm_num)

lemma flyerMove_player (o : Ext) (platforms : List Platform) (ctx : AiCtx)
    (enemy : Enemy) : (flyerMove o platforms ctx enemy).1.player = ctx.player := rfl

lemma flyerAI_frame (o : Ext) (platforms : List Platform) (idx : ℕ) (d : ℚ)
    (ctx : AiCtx) (enemy : Enemy) :
    AiPlayerFrame ctx.player (flyerAI o platforms idx d ctx enemy).1.player := by
  have h := flyerMove_player o platforms (flyerSwitch o idx d ctx enemy).1
    (flyerSwitch o idx d ctx enemy).2
  show AiPlayerFrame ctx.player (flyerMove o platforms
    (flyerSwitch o idx d ctx enemy).1 (flyerSwitch o idx d ctx enemy).2).1.player
  rw [h]
  exact flyerSwitch_frame o idx d ctx enemy

lemma updateOneEnemy_frame (profile : PhysicsProfile) (o : Ext)
    (platforms : List Platform) (idx : ℕ) (ctx : AiCtx) (enemy : Enemy) :
    AiPlayerFrame ctx.player
      (updateOneEnemy profile o platforms idx ctx enemy).1.player := by
  simp only [updateOneEnemy]
  split
  · exact AiPlayerFrame.refl _
  · split
    · exact AiPlayerFrame.refl _
    · split
      · exact flyerAI_frame _ _ _ _ _ _
      · exact turretAI_frame _ _ _ _ _ _ _
      · exact walkerAI_frame _ _ _ _ _ _ _

lemma updateEnemies_fold_frame (profile : PhysicsProfile) (o : Ext)
    (platforms : List Platform) :
    ∀ (l : List (ℕ × Enemy)) (ctx : AiCtx) (acc : List Enemy),
      AiPlayerFrame ctx.player
        ((l.foldl (fun (acc : AiCtx × List Enemy) ie =>
          let q := updateOneEnemy profile o platforms ie.1 acc.1 ie.2
          (q.1, q.2 :: acc.2)) (ctx, acc)).1.player) := by
  intro l
  induction l with
  | nil => intro ctx acc; exact AiPlayerFrame.refl _
  | cons ie tl ih =>
    intro ctx acc
    exact AiPlayerFrame.trans
      (updateOneEnemy_frame profile o platforms ie.1 ctx ie.2) (ih _ _)

lemma updateEnemies_frame (profile : PhysicsProfile) (o : Ext)
    (s : GameState) :
    AiPlayerFrame s.player (updateEnemies profile o s).player :=
  updateEnemies_fold_frame profile o s.platforms s.enemies.enum
    ⟨s.player, s.screenShake, s.particles, s.damageNumbers, s.activeVfx⟩ []


/-! ## Derived preservation lemmas -/

@[simp] lemma updateEnemies_comboStep (p : PhysicsProfile) (o : Ext) (s : GameState) :
    (updateEnemies p o s).player.comboStep = s.player.comboStep := by
  obtain ⟨-, h, i, c, v, heq⟩ := updateEnemies_frame p o s
  rw [heq]

@[simp] lemma updateEnemies_dashCount (p : PhysicsProfile) (o : Ext) (s : GameState) :
    (updateEnemies p o s).player.dashCount = s.player.dashCount := by
  obtain ⟨-, h, i, c, v, heq⟩ := updateEnemies_frame p o s
  rw [heq]

@[simp] lemma updateEnemies_dashCooldownTimer (p : PhysicsProfile) (o : Ext) (s : GameState) :
    (updateEnemies p o s).player.dashCooldownTimer = s.player.dashCooldownTimer := by
  obtain ⟨-, h, i, c, v, heq⟩ := updateEnemies_frame p o s
  rw [heq]

@[simp] lemma updateEnemies_dashChainTimer (p : PhysicsProfile) (o : Ext) (s : GameState) :
    (updateEnemies p o s).player.dashChainTimer = s.player.dashChainTimer := by
  obtain ⟨-, h, i, c, v, heq⟩ := updateEnemies_frame p o s
  rw [heq]

@[simp] lemma updateEnemies_dashTimer (p : PhysicsProfile) (o : Ext) (s : GameState) :
    (updateEnemies p o s).player.dashTimer = s.player.dashTimer := by
  obtain ⟨-, h, i, c, v, heq⟩ := updateEnemies_frame p o s
  rw [heq]

@[simp] lemma updateEnemies_isDashing (p : PhysicsProfile) (o : Ext) (s : GameState) :
    (updateEnemies p o s).player.isDashing = s.player.isDashing := by
  obtain ⟨-, h, i, c, v, heq⟩ := updateEnemies_frame p o s
  rw [heq]

@[simp] lemma updateEnemies_maxHealth (p : PhysicsProfile) (o : Ext) (s : GameState) :
    (updateEnemies p o s).player.maxHealth = s.player.maxHealth := by
  obtain ⟨-, h, i, c, v, heq⟩ := updateEnemies_frame p o s
  rw [heq]

@[simp] lemma updateEnemies_isDead (p : PhysicsProfile) (o : Ext) (s : GameState) :
    (updateEnemies p o s).player.isDead = s.player.isDead := by
  obtain ⟨-, h, i, c, v, heq⟩ := updateEnemies_frame p o s
  rw [heq]

lemma updateEnemies_health_le (p : PhysicsProfile) (o : Ext) (s : GameState) :
    (updateEnemies p o s).player.health ≤ s.player.health :=
  (updateEnemies_frame p o s).1

@[simp] lemma attackHitDetection_comboStep (p : PhysicsProfile) (o : Ext) (s : GameState) :
    (attackHitDetection p o s).player.comboStep = s.player.comboStep := by
  simp [attackHitDetection]

@[simp] lemma standardComboStart_comboStep (p : PhysicsProfile) (pl : PlayerState) :
    (standardComboStart p pl).comboStep =
      if pl.comboWindowTimer > 0 then (pl.comboStep + 1) % 3 else 0 := by
  simp [standardComboStart]

/-- Early-return shape of an active dash tick: only position, velocity,
grounded flag and the ghost list can differ from the input state. -/
lemma dashMovement_inl_frame (o : Ext) (s t : GameState)
    (h : dashMovement o s = Sum.inl t) :
    ∃ pos vel g gh, t = { s with
      player := { s.player with position := pos, velocity := vel, isGrounded := g }
      ghosts := gh } := by
  unfold dashMovement at h
  split at h
  · split at h
    · exact absurd h (by simp)
    · exact ⟨_, _, _, _, (Sum.inl.injEq _ _).mp h |>.symm⟩
  · exact absurd h (by simp)

/-- Continue shape of the dash phase: only the dashing flag and the
velocity can differ. -/
lemma dashMovement_inr_frame (o : Ext) (s t : GameState)
    (h : dashMovement o s = Sum.inr t) :
    ∃ dsh vel, t = { s with
      player := { s.player with isDashing := dsh, velocity := vel } } := by
  unfold dashMovement at h
  split at h
  · split at h
    · exact ⟨_, _, ((Sum.inr.injEq _ _).mp h).symm⟩
    · exact absurd h (by simp)
  · refine ⟨s.player.isDashing, s.player.velocity, ?_⟩
    rw [← (Sum.inr.injEq _ _).mp h]

/-- The combo-step outcome of the combat phase on a standard attack press:
advance modulo 3 while the (already decremented) combo window is open,
reset to 0 otherwise. -/
lemma combatPhase_standard_comboStep (p : PhysicsProfile) (i : InputState)
    (o : Ext) (s : GameState)
    (hatk : i.attack = true) (hlast : s.player.lastAttackInput = false)
    (hdash : s.player.isDashing = false)
    (hcool : s.player.attackCooldownTimer = 0)
    (hjump : i.jump = false) :
    (combatPhase p i o s).player.comboStep =
      if s.player.comboWindowTimer > 0 then (s.player.comboStep + 1) % 3 else 0 := by
  simp [combatPhase, hatk, hlast, hdash, hcool, hjump]

@[simp] lemma afterDash_comboStep (p : PhysicsProfile) (i : InputState)
    (o : Ext) (s : GameState) :
    (afterDash p i o s).player.comboStep = s.player.comboStep := by
  simp [afterDash]

@[simp] lemma afterDash_dashCount (p : PhysicsProfile) (i : InputState)
    (o : Ext) (s : GameState) :
    (afterDash p i o s).player.dashCount = s.player.dashCount := by
  simp [afterDash]

@[simp] lemma afterDash_dashCooldownTimer (p : PhysicsProfile) (i : InputState)
    (o : Ext) (s : GameState) :
    (afterDash p i o s).player.dashCooldownTimer = s.player.dashCooldownTimer := by
  simp [afterDash]

@[simp] lemma afterDash_dashChainTimer (p : PhysicsProfile) (i : InputState)
    (o : Ext) (s : GameState) :
    (afterDash p i o s).player.dashChainTimer = s.player.dashChainTimer := by
  simp [afterDash]

@[simp] lemma afterDash_dashTimer (p : PhysicsProfile) (i : InputState)
    (o : Ext) (s : GameState) :
    (afterDash p i o s).player.dashTimer = s.player.dashTimer := by
  simp [afterDash]

@[simp] lemma afterDash_isDashing (p : PhysicsProfile) (i : InputState)
    (o : Ext) (s : GameState) :
    (afterDash p i o s).player.isDashing = s.player.isDashing := by
  simp [afterDash]

@[simp] lemma afterDash_maxHealth (p : PhysicsProfile) (i : InputState)
    (o : Ext) (s : GameState) :
    (afterDash p i o s).player.maxHealth = s.player.maxHealth := by
  simp [afterDash]

@[simp] lemma afterDash_isDead (p : PhysicsProfile) (i : InputState)
    (o : Ext) (s : GameState) :
    (afterDash p i o s).player.isDead = s.player.isDead := by
  simp [afterDash]

lemma afterDash_health_le (p : PhysicsProfile) (i : InputState)
    (o : Ext) (s : GameState) :
    (afterDash p i o s).player.health ≤ s.player.health := by
  simp only [afterDash]
  simp
  exact le_trans (updateEnemies_health_le p o _) (le_of_eq (by simp))

/-- The normal (no freeze, no death) tick path, written as the explicit
phase pipeline. -/
lemma updatePhysics_normal (kp : ℚ) (profile : PhysicsProfile)
    (input : InputState) (o : Ext) (s : GameState)
    (hstop : ¬s.hitStopTimer > 0)
    (halive : ¬(s.player.health ≤ 0 ∨ s.player.position.y > kp)) :
    updatePhysics kp profile input o s =
      match dashMovement o (dashPhase profile input o (combatPhase profile input o
          { s with player := tickTimers profile input s.player })) with
      | Sum.inl t => t
      | Sum.inr t => afterDash profile input o t := by
  unfold updatePhysics
  rw [if_neg hstop, if_neg halive]

/-! ## C1 — combo-step on attack press -/

/-- The combo step as sampled by the standard-attack branch, computed on
the pre-combat (timers already decremented) state. -/
lemma preDash_comboStep (profile : PhysicsProfile) (input : InputState)
    (o : Ext) (s : GameState)
    (hatk : input.attack = true) (hlast : s.player.lastAttackInput = false)
    (hdash : s.player.isDashing = false) (hjump : input.jump = false)
    (hcool : (tickTimers profile input s.player).attackCooldownTimer = 0) :
    (dashPhase profile input o (combatPhase profile input o
        { s with player := tickTimers profile input s.player })).player.comboStep =
      if (tickTimers profile input s.player).comboWindowTimer > 0
      then (s.player.comboStep + 1) % 3 else 0 := by
  rw [dashPhase_comboStep]
  rw [combatPhase_standard_comboStep profile input o _ hatk (by simp [hlast])
    (by simp [hdash]) (by simpa using hcool) hjump]
  simp

/-- C1 (amended): on an edge-detected **standard** attack press (not
dashing, jump not held, attack cooldown elapsed), the combo step after the
tick advances modulo 3 when the combo window is open at the press and
resets to 0 when it is zero.  (The claim's quantification over the
air-launcher and dash-attack paths fails on the code; see the
counterexample.) -/
theorem standardAttack_comboStep (kp : ℚ) (profile : PhysicsProfile)
    (input : InputState) (o : Ext) (s : GameState)
    (hstop : ¬s.hitStopTimer > 0)
    (halive : ¬(s.player.health ≤ 0 ∨ s.player.position.y > kp))
    (hatk : input.attack = true) (hlast : s.player.lastAttackInput = false)
    (hdash : s.player.isDashing = false) (hjump : input.jump = false)
    (hcool : (tickTimers profile input s.player).attackCooldownTimer = 0) :
    (updatePhysics kp profile input o s).player.comboStep =
      if (tickTimers profile input s.player).comboWindowTimer > 0
      then (s.player.comboStep + 1) % 3 else 0 := by
  rw [updatePhysics_normal kp profile input o s hstop halive]
  cases hdm : dashMovement o (dashPhase profile input o (combatPhase profile input o
      { s with player := tickTimers profile input s.player })) with
  | inl t =>
    obtain ⟨pos, vel, g, gh, rfl⟩ := dashMovement_inl_frame o _ t hdm
    show (dashPhase profile input o (combatPhase profile input o
      { s with player := tickTimers profile input s.player })).player.comboStep = _
    exact preDash_comboStep profile input o s hatk hlast hdash hjump hcool
  | inr t =>
    obtain ⟨dsh, vel, rfl⟩ := dashMovement_inr_frame o _ t hdm
    show (afterDash profile input o _).player.comboStep = _
    rw [afterDash_comboStep]
    show (dashPhase profile input o (combatPhase profile input o
      { s with player := tickTimers profile input s.player })).player.comboStep = _
    exact preDash_comboStep profile input o s hatk hlast hdash hjump hcool

/-- Attack-only input. -/
def inputAtk : InputState := { inputNone with attack := true }

/-- The C1 counterexample state: mid-dash with `comboStep = 1` and a closed
combo window. -/
def cexC1 : GameState :=
  { demoState with player := { demoState.player with
      isDashing := true, dashTimer := 5, comboStep := 1,
      activeAnim := .DASH } }

/-- The combat phase on a dash-attack press leaves `comboStep` untouched. -/
lemma combatPhase_dashAttack_comboStep (p : PhysicsProfile) (i : InputState)
    (o : Ext) (s : GameState) (hatk : i.attack = true)
    (hlast : s.player.lastAttackInput = false)
    (hdash : s.player.isDashing = true) :
    (combatPhase p i o s).player.comboStep = s.player.comboStep := by
  simp [combatPhase, dashAttackStart, hatk, hlast, hdash]

/-- A tick taking the dash-attack input path leaves `comboStep` untouched,
whatever the combo window holds. -/
lemma dashAttack_pressed_comboStep (kp : ℚ) (profile : PhysicsProfile)
    (input : InputState) (o : Ext) (s : GameState)
    (hstop : ¬s.hitStopTimer > 0)
    (halive : ¬(s.player.health ≤ 0 ∨ s.player.position.y > kp))
    (hatk : input.attack = true) (hlast : s.player.lastAttackInput = false)
    (hdash : s.player.isDashing = true) :
    (updatePhysics kp profile input o s).player.comboStep = s.player.comboStep := by
  have hpre : (dashPhase profile input o (combatPhase profile input o
      { s with player := tickTimers profile input s.player })).player.comboStep =
      s.player.comboStep := by
    rw [dashPhase_comboStep]
    rw [combatPhase_dashAttack_comboStep profile input o _ hatk (by simp [hlast])
      (by simp [hdash])]
    simp
  rw [updatePhysics_normal kp profile input o s hstop halive]
  cases hdm : dashMovement o (dashPhase profile input o (combatPhase profile input o
      { s with player := tickTimers profile input s.player })) with
  | inl t =>
    obtain ⟨pos, vel, g, gh, rfl⟩ := dashMovement_inl_frame o _ t hdm
    exact hpre
  | inr t =>
    obtain ⟨dsh, vel, rfl⟩ := dashMovement_inr_frame o _ t hdm
    show (afterDash profile input o _).player.comboStep = _
    rw [afterDash_comboStep]
    exact hpre

/-- C1 counterexample: a fresh attack press while `comboWindowTimer = 0`
taken on the dash-attack input path leaves `comboStep = 1`, not 0 as the
claim (quantified over every attack press) requires. -/
theorem comboStep_dashAttack_cex :
    inputAtk.attack = true ∧ cexC1.player.lastAttackInput = false ∧
    cexC1.player.comboWindowTimer = 0 ∧ cexC1.player.isDashing = true ∧
    (updatePhysics 1000 DEFAULT_PHYSICS_PROFILE inputAtk extZero cexC1).player.comboStep = 1 := by
  refine ⟨rfl, rfl, rfl, rfl, ?_⟩
  rw [dashAttack_pressed_comboStep 1000 DEFAULT_PHYSICS_PROFILE inputAtk extZero cexC1
    (by decide) (by decide) rfl rfl rfl]
  rfl

/-- Witness for C1 (amended) at a fresh demo state. -/
theorem standardAttack_comboStep_witness :
    ¬demoState.hitStopTimer > 0 ∧
    (updatePhysics 1000 DEFAULT_PHYSICS_PROFILE inputAtk extZero demoState).player.comboStep =
      (if (tickTimers DEFAULT_PHYSICS_PROFILE inputAtk demoState.player).comboWindowTimer > 0
       then (demoState.player.comboStep + 1) % 3 else 0) :=
  ⟨by decide,
   standardAttack_comboStep 1000 DEFAULT_PHYSICS_PROFILE inputAtk extZero demoState
     (by decide) (by decide) rfl rfl rfl rfl (by decide)⟩


/-! ## C7 — fast-fall gravity -/

/-- Down-only input. -/
def inputDown : InputState := { inputNone with down := true }

/-- A rising player (velocity.y = −10), airborne, not wall-sliding. -/
def cexC7 : PlayerState :=
  { demoState.player with velocity := { x := 0, y := -10 } }

/-- C7 counterexample: airborne, not wall-sliding, DOWN held, but rising at
−10: the code applies the *unscaled* gravity (0.9), not ×2.5, because the
fast-fall branch also requires `velocity.y > -5`. -/
theorem fastFall_rising_cex :
    inputDown.down = true ∧ cexC7.isWallSliding = false ∧
    cexC7.isGrounded = false ∧ cexC7.velocity.y = -10 ∧
    (gravityPhase DEFAULT_PHYSICS_PROFILE inputDown cexC7).velocity.y = -91/10 ∧
    (-91/10 : ℚ) ≠ cexC7.velocity.y + DEFAULT_PHYSICS_PROFILE.gravity * 2.5 := by
  refine ⟨rfl, rfl, rfl, rfl, ?_, by norm_num [cexC7, demoState, initialState, DEFAULT_PHYSICS_PROFILE]⟩
  norm_num [gravityPhase, cexC7, demoState, initialState, inputDown, inputNone,
    DEFAULT_PHYSICS_PROFILE]

/-- C7 (amended): when the player is not wall-sliding, DOWN is held and the
vertical velocity is greater than −5 (the extra guard the claim omits),
gravity is applied ×2.5 and the terminal-velocity clamp ×1.5. -/
theorem fastFall_gravity (p : PhysicsProfile) (input : InputState)
    (pl : PlayerState) (hslide : pl.isWallSliding = false)
    (hdown : input.down = true) (hvy : pl.velocity.y > -5) :
    (gravityPhase p input pl).velocity.y =
      min (pl.velocity.y + p.gravity * 2.5) (p.terminalVelocity * 1.5) := by
  rcases le_or_lt (pl.velocity.y + p.gravity * 2.5) (p.terminalVelocity * 1.5) with h | h
  · simp [gravityPhase, hslide, hdown, hvy, not_lt.mpr h, min_eq_left h]
  · simp [gravityPhase, hslide, hdown, hvy, h, min_eq_right h.le]

/-- Witness for C7 (amended): falling at 2 with DOWN held. -/
theorem fastFall_gravity_witness :
    ({ demoState.player with velocity := { x := 0, y := 2 } } : PlayerState).isWallSliding = false ∧
    (gravityPhase DEFAULT_PHYSICS_PROFILE inputDown
        { demoState.player with velocity := { x := 0, y := 2 } }).velocity.y =
      min ((2 : ℚ) + DEFAULT_PHYSICS_PROFILE.gravity * 2.5)
        (DEFAULT_PHYSICS_PROFILE.terminalVelocity * 1.5) :=
  ⟨rfl, fastFall_gravity DEFAULT_PHYSICS_PROFILE inputDown _ rfl rfl (by norm_num)⟩

/-! ## C6 — enemy damage gated by invincibility and death flag -/

lemma walkerMelee_guard (o : Ext) (idx : ℕ) (ctx : AiCtx) (enemy : Enemy)
    (h : ¬ctx.player.invincibilityTimer = 0 ∨ ctx.player.isDead = true) :
    walkerMelee o idx ctx enemy = ctx := by
  simp only [walkerMelee]
  rw [if_neg]
  rintro ⟨h1, h2⟩
  rcases h with h | h
  · exact h h1
  · exact h2 (by simp [h])

lemma walkerAI_guard (profile : PhysicsProfile) (o : Ext)
    (platforms : List Platform) (idx : ℕ) (d : ℚ) (ctx : AiCtx)
    (enemy : Enemy)
    (h : ¬ctx.player.invincibilityTimer = 0 ∨ ctx.player.isDead = true) :
    (walkerAI profile o platforms idx d ctx enemy).1.player = ctx.player := by
  have hp := walkerSwitch_player o idx d ctx enemy
  show (walkerMelee o idx (walkerSwitch o idx d ctx enemy).1 _).player = ctx.player
  rw [walkerMelee_guard o idx _ _ (by rw [hp]; exact h), hp]

lemma turretSwitch_guard (o : Ext) (idx : ℕ) (d : ℚ) (ctx : AiCtx)
    (enemy : Enemy)
    (h : ¬ctx.player.invincibilityTimer = 0 ∨ ctx.player.isDead = true) :
    (turretSwitch o idx d ctx enemy).1.player = ctx.player := by
  simp only [turretSwitch]
  repeat' split
  all_goals first
    | rfl
    | (exfalso
       rcases ‹ctx.player.invincibilityTimer = 0 ∧ ¬ctx.player.isDead = true› with ⟨h1, h2⟩
       rcases h with h | h
       · exact h h1
       · exact h2 h)

lemma flyerSwitch_guard (o : Ext) (idx : ℕ) (d : ℚ) (ctx : AiCtx)
    (enemy : Enemy)
    (h : ¬ctx.player.invincibilityTimer = 0 ∨ ctx.player.isDead = true) :
    (flyerSwitch o idx d ctx enemy).1.player = ctx.player := by
  simp only [flyerSwitch]
  repeat' split
  all_goals first
    | rfl
    | (exfalso
       rcases ‹ctx.player.invincibilityTimer = 0 ∧ ¬ctx.player.isDead = true› with ⟨h1, h2⟩
       rcases h with h | h
       · exact h h1
       · exact h2 h)

lemma flyerAI_guard (o : Ext) (platforms : List Platform) (idx : ℕ) (d : ℚ)
    (ctx : AiCtx) (enemy : Enemy)
    (h : ¬ctx.player.invincibilityTimer = 0 ∨ ctx.player.isDead = true) :
    (flyerAI o platforms idx d ctx enemy).1.player = ctx.player := by
  show (flyerMove o platforms (flyerSwitch o idx d ctx enemy).1
    (flyerSwitch o idx d ctx enemy).2).1.player = ctx.player
  rw [flyerMove_player, flyerSwitch_guard o idx d ctx enemy h]

lemma updateOneEnemy_guard (profile : PhysicsProfile) (o : Ext)
    (platforms : List Platform) (idx : ℕ) (ctx : AiCtx) (enemy : Enemy)
    (h : ¬ctx.player.invincibilityTimer = 0 ∨ ctx.player.isDead = true) :
    (updateOneEnemy profile o platforms idx ctx enemy).1.player = ctx.player := by
  simp only [updateOneEnemy]
  split
  · rfl
  · split
    · rfl
    · split
      · exact flyerAI_guard _ _ _ _ _ _ h
      · exact turretSwitch_guard _ _ _ _ _ h
      · exact walkerAI_guard _ _ _ _ _ _ _ h

lemma updateEnemies_fold_guard (profile : PhysicsProfile) (o : Ext)
    (platforms : List Platform) :
    ∀ (l : List (ℕ × Enemy)) (ctx : AiCtx) (acc : List Enemy),
      (¬ctx.player.invincibilityTimer = 0 ∨ ctx.player.isDead = true) →
      ((l.foldl (fun (acc : AiCtx × List Enemy) ie =>
        let q := updateOneEnemy profile o platforms ie.1 acc.1 ie.2
        (q.1, q.2 :: acc.2)) (ctx, acc)).1.player) = ctx.player := by
  intro l
  induction l with
  | nil => intro ctx acc _; rfl
  | cons ie tl ih =>
    intro ctx acc h
    have h1 := updateOneEnemy_guard profile o platforms ie.1 ctx ie.2 h
    have := ih (updateOneEnemy profile o platforms ie.1 ctx ie.2).1
      ((updateOneEnemy profile o platforms ie.1 ctx ie.2).2 :: acc)
      (by rw [h1]; exact h)
    rw [h1] at this
    exact this

/-- C6: every enemy-AI call path into `damagePlayer` (Walker melee swing,
Turret beam hit-scan, Flyer dive contact) is guarded by the player's
invincibility timer and death flag: while `invincibilityTimer > 0` or
`isDead`, a full `updateEnemies` pass leaves the player record — health in
particular — completely unchanged. -/
theorem enemyDamage_gated (profile : PhysicsProfile) (o : Ext) (s : GameState)
    (h : 0 < s.player.invincibilityTimer ∨ s.player.isDead = true) :
    (updateEnemies profile o s).player = s.player :=
  updateEnemies_fold_guard profile o s.platforms s.enemies.enum
    ⟨s.player, s.screenShake, s.particles, s.damageNumbers, s.activeVfx⟩ []
    (by rcases h with h | h
        · exact Or.inl (ne_of_gt h)
        · exact Or.inr h)

/-- A concrete mid-swing walker used by the C6 witness. -/
def witnessWalker : Enemy :=
  { id := "w1", type := .WALKER
    position := { x := 110, y := 500 }, velocity := { x := 0, y := 0 }
    width := 40, height := 60, health := 60, maxHealth := 60, isDead := false
    color := "#dc2626", hitTimer := 0, state := .ATTACK, facingRight := false
    patrolOriginX := 110, patrolRange := 0, detectionRange := 600
    attackRange := 60, attackCooldownTimer := 0, chargeTimer := 0
    attackDurationTimer := 10, laserData := none }

/-- Witness for C6: an invincible player standing inside a walker's active
swing takes no damage. -/
theorem enemyDamage_gated_witness :
    (0 : ℚ) < 1 ∧
    (updateEnemies DEFAULT_PHYSICS_PROFILE extZero
        { demoState with
          player := { demoState.player with invincibilityTimer := 1 }
          enemies := [witnessWalker] }).player =
      ({ demoState.player with invincibilityTimer := 1 } : PlayerState) :=
  ⟨by norm_num,
   enemyDamage_gated DEFAULT_PHYSICS_PROFILE extZero
     { demoState with
       player := { demoState.player with invincibilityTimer := 1 }
       enemies := [witnessWalker] }
     (Or.inl (by norm_num))⟩


/-! ## C9 — fixed-timestep accumulator -/

/-- The slow-motion bookkeeping at the top of `loop`: while `slowMoTimer > 0`
it decays by the *unscaled* elapsed time, and on the update where it reaches
≤ 0 the `timeScale` is reset to 1.0. -/
def slowMoUpdate (deltaTime : ℚ) (gs : GameState) : GameState :=
  if gs.slowMoTimer > 0 then
    { gs with slowMoTimer := gs.slowMoTimer - deltaTime
              timeScale := if gs.slowMoTimer - deltaTime ≤ 0 then 1.0 else gs.timeScale }
  else gs

lemma advance_eq_runTicks (kp : ℚ) (profile : PhysicsProfile)
    (input : InputState) (o : Ext) (deltaTime acc : ℚ) (gs : GameState) :
    advance kp profile input o deltaTime acc gs =
      runTicks kp profile input o
        (acc + min deltaTime 200 * (slowMoUpdate deltaTime gs).timeScale)
        (slowMoUpdate deltaTime gs) := rfl

lemma runTicks_spec (kp : ℚ) (profile : PhysicsProfile) (input : InputState)
    (o : Ext) :
    ∀ (N : ℕ) (acc : ℚ) (gs : GameState),
      (⌈acc / FIXED_TIMESTEP⌉).toNat ≤ N →
      ∃ n : ℕ,
        runTicks kp profile input o acc gs =
          (acc - n * FIXED_TIMESTEP,
           (fun g => updatePhysics kp profile input o g)^[n] gs) ∧
        acc - n * FIXED_TIMESTEP < FIXED_TIMESTEP ∧
        ∀ k : ℕ, k < n → FIXED_TIMESTEP ≤ acc - k * FIXED_TIMESTEP := by
  have hT : (0 : ℚ) < FIXED_TIMESTEP := by norm_num [FIXED_TIMESTEP]
  intro N
  induction N with
  | zero =>
    intro acc gs hN
    have hacc : ¬FIXED_TIMESTEP ≤ acc := by
      intro hle
      have h1 : (1 : ℚ) ≤ acc / FIXED_TIMESTEP := by
        rw [le_div_iff₀ hT]; simpa using hle
      have h2 : (1 : ℤ) ≤ ⌈acc / FIXED_TIMESTEP⌉ :=
        Int.le_ceil_iff.mpr (by push_cast; linarith)
      omega
    refine ⟨0, ?_, ?_, ?_⟩
    · rw [runTicks]; simp [hacc]
    · push_neg at hacc; simpa using hacc
    · intro k hk; exact absurd hk (Nat.not_lt_zero k)
  | succ N ih =>
    intro acc gs hN
    by_cases hacc : FIXED_TIMESTEP ≤ acc
    · have h1 : (1 : ℚ) ≤ acc / FIXED_TIMESTEP := by
        rw [le_div_iff₀ hT]; simpa using hacc
      have hsub : (acc - FIXED_TIMESTEP) / FIXED_TIMESTEP =
          acc / FIXED_TIMESTEP - 1 := by field_simp
      have hceil : ⌈(acc - FIXED_TIMESTEP) / FIXED_TIMESTEP⌉ =
          ⌈acc / FIXED_TIMESTEP⌉ - 1 := by
        rw [hsub]
        exact_mod_cast Int.ceil_sub_int (acc / FIXED_TIMESTEP) 1
      have hone : (1 : ℤ) ≤ ⌈acc / FIXED_TIMESTEP⌉ :=
        Int.le_ceil_iff.mpr (by push_cast; linarith)
      obtain ⟨n, hrun, hlt, hcov⟩ := ih (acc - FIXED_TIMESTEP)
        (updatePhysics kp profile input o gs) (by omega)
      refine ⟨n + 1, ?_, ?_, ?_⟩
      · rw [runTicks, if_pos hacc, hrun]
        refine Prod.ext ?_ ?_
        · show acc - FIXED_TIMESTEP - n * FIXED_TIMESTEP =
            acc - (n + 1 : ℕ) * FIXED_TIMESTEP
          push_cast; ring
        · exact (Function.iterate_succ_apply
            (fun g => updatePhysics kp profile input o g) n gs).symm
      · push_cast; linarith
      · intro k hk
        match k with
        | 0 => simpa using hacc
        | k + 1 =>
          have := hcov k (by omega)
          push_cast; push_cast at this; linarith
    · refine ⟨0, ?_, ?_, ?_⟩
      · rw [runTicks]; simp [hacc]
      · push_neg at hacc; simpa using hacc
      · intro k hk; exact absurd hk (Nat.not_lt_zero k)

/-- C9: one `loop` update first updates the slow-motion state — while
`slowMoTimer > 0` it decays by the unscaled elapsed time and `timeScale`
resets to 1.0 exactly when it reaches ≤ 0 — then adds
`min deltaTime 200 * timeScale` to the accumulator and runs one fixed tick,
subtracting `FIXED_TIMESTEP = 1000/60`, for as long as the accumulator is
≥ `FIXED_TIMESTEP`: the result is `n` ticks with the accumulator drained
below one tick length, every executed tick having been covered. -/
theorem loop_accumulator (kp : ℚ) (profile : PhysicsProfile)
    (input : InputState) (o : Ext) (deltaTime acc : ℚ) (gs : GameState) :
    ∃ n : ℕ,
      advance kp profile input o deltaTime acc gs =
        (acc + min deltaTime 200 * (slowMoUpdate deltaTime gs).timeScale
           - n * FIXED_TIMESTEP,
         (fun g => updatePhysics kp profile input o g)^[n]
           (slowMoUpdate deltaTime gs)) ∧
      acc + min deltaTime 200 * (slowMoUpdate deltaTime gs).timeScale
        - n * FIXED_TIMESTEP < FIXED_TIMESTEP ∧
      (∀ k : ℕ, k < n →
        FIXED_TIMESTEP ≤
          acc + min deltaTime 200 * (slowMoUpdate deltaTime gs).timeScale
            - k * FIXED_TIMESTEP) ∧
      (gs.slowMoTimer > 0 →
        (slowMoUpdate deltaTime gs).slowMoTimer = gs.slowMoTimer - deltaTime ∧
        (gs.slowMoTimer - deltaTime ≤ 0 →
          (slowMoUpdate deltaTime gs).timeScale = 1.0) ∧
        (¬gs.slowMoTimer - deltaTime ≤ 0 →
          (slowMoUpdate deltaTime gs).timeScale = gs.timeScale)) ∧
      (¬gs.slowMoTimer > 0 → slowMoUpdate deltaTime gs = gs) := by
  obtain ⟨n, hrun, hlt, hcov⟩ := runTicks_spec kp profile input o
    (⌈(acc + min deltaTime 200 * (slowMoUpdate deltaTime gs).timeScale) /
        FIXED_TIMESTEP⌉).toNat
    (acc + min deltaTime 200 * (slowMoUpdate deltaTime gs).timeScale)
    (slowMoUpdate deltaTime gs) le_rfl
  refine ⟨n, ?_, hlt, hcov, ?_, ?_⟩
  · rw [advance_eq_runTicks, hrun]
  · intro h
    refine ⟨?_, ?_, ?_⟩
    · simp [slowMoUpdate, h]
    · intro h2; simp [slowMoUpdate, h, h2]
    · intro h2; simp [slowMoUpdate, h, h2]
  · intro h
    simp [slowMoUpdate, h]


/-! ## C8 — spawner zone boundary -/

lemma killById_find_ne (l : List Enemy) (a b : String) (hab : a ≠ b) :
    (killById l b).find? (fun e => e.id = a) = l.find? (fun e => e.id = a) := by
  induction l with
  | nil => rfl
  | cons e es ih =>
    simp only [killById]
    by_cases hb : e.id = b
    · rw [if_pos hb]
      have ha : ¬e.id = a := fun h => hab (h.symm.trans hb)
      simp [List.find?_cons, ha]
    · rw [if_neg hb]
      by_cases ha : e.id = a
      · simp [List.find?_cons, ha]
      · simp [List.find?_cons, ha, ih]

lemma killById_find_self (l : List Enemy) (a : String) (enemy : Enemy)
    (hf : l.find? (fun e => e.id = a) = some enemy) :
    (killById l a).find? (fun e => e.id = a) =
      some { enemy with isDead := true, health := 0 } := by
  induction l with
  | nil => simp [List.find?] at hf
  | cons e es ih =>
    by_cases ha : e.id = a
    · rw [List.find?_cons_of_pos _ (by simp [ha])] at hf
      cases hf
      simp only [killById, if_pos ha]
      rw [List.find?_cons_of_pos _ (by simp [ha])]
    · rw [List.find?_cons_of_neg _ (by simp [ha])] at hf
      simp only [killById, if_neg ha]
      rw [List.find?_cons_of_neg _ (by simp [ha])]
      exact ih hf

lemma find?_append_some {l l' : List Enemy} {p : Enemy → Bool} {e : Enemy}
    (h : l.find? p = some e) : (l ++ l').find? p = some e := by
  induction l with
  | nil => simp [List.find?] at h
  | cons x xs ih =>
    rw [List.cons_append]
    by_cases hp : p x
    · rw [List.find?_cons_of_pos _ hp] at h
      rw [List.find?_cons_of_pos _ hp]
      exact h
    · rw [List.find?_cons_of_neg _ hp] at h
      rw [List.find?_cons_of_neg _ hp]
      exact ih h

lemma cleanup_fold_skip (o : Ext) (zone : Rect) (a : String) :
    ∀ (l : List String) (acc : List Enemy × List Particle × List String),
      a ∉ l →
      ((l.foldl (spawnerCleanupStep o zone) acc).1.find? (fun e => e.id = a) =
        acc.1.find? (fun e => e.id = a)) ∧
      (a ∈ (l.foldl (spawnerCleanupStep o zone) acc).2.2 ↔ a ∈ acc.2.2) := by
  intro l
  induction l with
  | nil => intro acc _; exact ⟨rfl, Iff.rfl⟩
  | cons b bs ih =>
    intro acc hnot
    have hab : a ≠ b := fun h => hnot (h ▸ List.mem_cons_self b bs)
    have hbs : a ∉ bs := fun h => hnot (List.mem_cons_of_mem b h)
    rw [List.foldl_cons]
    obtain ⟨h1, h2⟩ := ih (spawnerCleanupStep o zone acc b) hbs
    refine ⟨h1.trans ?_, h2.trans ?_⟩
    · simp only [spawnerCleanupStep]
      cases hf : acc.1.find? (fun e => e.id = b) with
      | none => rfl
      | some enemy =>
        by_cases hd : enemy.isDead
        · simp [hd]
        · simp only [hd, if_false, Bool.false_eq_true]
          split
          · rfl
          · exact killById_find_ne acc.1 a b hab
    · simp only [spawnerCleanupStep]
      cases hf : acc.1.find? (fun e => e.id = b) with
      | none => exact Iff.rfl
      | some enemy =>
        by_cases hd : enemy.isDead
        · simp [hd]
        · simp only [hd, if_false, Bool.false_eq_true]
          split
          · simp [hab]
          · exact Iff.rfl

lemma cleanup_step_self (o : Ext) (zone : Rect) (a : String)
    (acc : List Enemy × List Particle × List String) (enemy : Enemy)
    (hf : acc.1.find? (fun e => e.id = a) = some enemy)
    (halive : enemy.isDead = false) :
    spawnerCleanupStep o zone acc a =
      if spawnerInBounds zone (enemy.position.x + enemy.width / 2)
          (enemy.position.y + enemy.height / 2) then
        (acc.1, acc.2.1, a :: acc.2.2)
      else
        (killById acc.1 a,
         spawnParticles o
           { x := enemy.position.x + enemy.width / 2
             y := enemy.position.y + enemy.height / 2 } 10 "#ef4444" 5 acc.2.1,
         acc.2.2) := by
  simp only [spawnerCleanupStep, hf, halive, Bool.false_eq_true, if_false]

lemma updateOneSpawner_parts (o : Ext) (si : ℕ) (enemies : List Enemy)
    (particles : List Particle) (sp : Spawner)
    (E : List Enemy) (P : List Particle) (I : List String)
    (hcl : sp.activeEnemyIds.foldl (spawnerCleanupStep o sp.zone)
      (enemies, particles, ([] : List String)) = (E, P, I)) :
    ((updateOneSpawner o si (enemies, particles) sp).2.activeEnemyIds =
        I.reverse ∨
      (updateOneSpawner o si (enemies, particles) sp).2.activeEnemyIds =
        I.reverse ++ [o.spawnId si]) ∧
    ((updateOneSpawner o si (enemies, particles) sp).1.1 = E ∨
      ∃ ne, (updateOneSpawner o si (enemies, particles) sp).1.1 = E ++ [ne]) := by
  simp only [updateOneSpawner, hcl]
  constructor
  · split
    · split
      · exact Or.inr rfl
      · exact Or.inl rfl
    · exact Or.inl rfl
  · split
    · split
      · exact Or.inr ⟨_, rfl⟩
      · exact Or.inl rfl
    · exact Or.inl rfl

/-- C8: for a spawner-owned live enemy (its id listed once), the cleanup
pass keeps the id and leaves the enemy untouched exactly when its center is
inside the zone's horizontal bounds and at or above the zone's bottom — the
top is not checked, so any height above the zone is kept; when the test
fails, on that same tick the enemy is marked dead with zero health and the
id leaves the owned set (a freshly spawned id, if any, being new). -/
theorem spawner_zone_rule (o : Ext) (si : ℕ) (enemies : List Enemy)
    (particles : List Particle) (sp : Spawner) (a : String) (enemy : Enemy)
    (pre post : List String)
    (hids : sp.activeEnemyIds = pre ++ a :: post)
    (hpre : a ∉ pre) (hpost : a ∉ post)
    (hfind : enemies.find? (fun e => e.id = a) = some enemy)
    (halive : enemy.isDead = false)
    (hfresh : o.spawnId si ≠ a) :
    (spawnerInBounds sp.zone (enemy.position.x + enemy.width / 2)
        (enemy.position.y + enemy.height / 2) = true →
      a ∈ ((updateOneSpawner o si (enemies, particles) sp).2).activeEnemyIds ∧
      ((updateOneSpawner o si (enemies, particles) sp).1.1.find?
        (fun e => e.id = a)) = some enemy) ∧
    (spawnerInBounds sp.zone (enemy.position.x + enemy.width / 2)
        (enemy.position.y + enemy.height / 2) = false →
      a ∉ ((updateOneSpawner o si (enemies, particles) sp).2).activeEnemyIds ∧
      ((updateOneSpawner o si (enemies, particles) sp).1.1.find?
        (fun e => e.id = a)) =
        some { enemy with isDead := true, health := 0 }) := by
  have hpre' := cleanup_fold_skip o sp.zone a pre
    ((enemies, particles, ([] : List String))) hpre
  have hstep := cleanup_step_self o sp.zone a
    (pre.foldl (spawnerCleanupStep o sp.zone)
      (enemies, particles, ([] : List String)))
    enemy (hpre'.1.trans hfind) halive
  constructor
  · intro hin
    have hcl : sp.activeEnemyIds.foldl (spawnerCleanupStep o sp.zone)
        (enemies, particles, ([] : List String)) =
        post.foldl (spawnerCleanupStep o sp.zone)
          ((pre.foldl (spawnerCleanupStep o sp.zone)
              (enemies, particles, ([] : List String))).1,
            (pre.foldl (spawnerCleanupStep o sp.zone)
              (enemies, particles, ([] : List String))).2.1,
            a :: (pre.foldl (spawnerCleanupStep o sp.zone)
              (enemies, particles, ([] : List String))).2.2) := by
      rw [hids, List.foldl_append, List.foldl_cons, hstep, if_pos hin]
    have hpost' := cleanup_fold_skip o sp.zone a post
      ((pre.foldl (spawnerCleanupStep o sp.zone)
          (enemies, particles, ([] : List String))).1,
        (pre.foldl (spawnerCleanupStep o sp.zone)
          (enemies, particles, ([] : List String))).2.1,
        a :: (pre.foldl (spawnerCleanupStep o sp.zone)
          (enemies, particles, ([] : List String))).2.2) hpost
    obtain ⟨hI, hE⟩ := updateOneSpawner_parts o si enemies particles sp _ _ _ hcl
    constructor
    · have hm : a ∈ (post.foldl (spawnerCleanupStep o sp.zone)
          ((pre.foldl (spawnerCleanupStep o sp.zone)
              (enemies, particles, ([] : List String))).1,
            (pre.foldl (spawnerCleanupStep o sp.zone)
              (enemies, particles, ([] : List String))).2.1,
            a :: (pre.foldl (spawnerCleanupStep o sp.zone)
              (enemies, particles, ([] : List String))).2.2)).2.2 :=
        hpost'.2.mpr (List.mem_cons_self _ _)
      rcases hI with hI | hI
      · rw [hI]; exact List.mem_reverse.mpr hm
      · rw [hI]; exact List.mem_append.mpr (Or.inl (List.mem_reverse.mpr hm))
    · have hfd : (post.foldl (spawnerCleanupStep o sp.zone)
          ((pre.foldl (spawnerCleanupStep o sp.zone)
              (enemies, particles, ([] : List String))).1,
            (pre.foldl (spawnerCleanupStep o sp.zone)
              (enemies, particles, ([] : List String))).2.1,
            a :: (pre.foldl (spawnerCleanupStep o sp.zone)
              (enemies, particles, ([] : List String))).2.2)).1.find?
          (fun e => e.id = a) = some enemy :=
        hpost'.1.trans (hpre'.1.trans hfind)
      rcases hE with hE | ⟨ne, hE⟩
      · rw [hE]; exact hfd
      · rw [hE]; exact find?_append_some hfd
  · intro hout
    have hcl : sp.activeEnemyIds.foldl (spawnerCleanupStep o sp.zone)
        (enemies, particles, ([] : List String)) =
        post.foldl (spawnerCleanupStep o sp.zone)
          (killById (pre.foldl (spawnerCleanupStep o sp.zone)
              (enemies, particles, ([] : List String))).1 a,
            spawnParticles o
              { x := enemy.position.x + enemy.width / 2
                y := enemy.position.y + enemy.height / 2 } 10 "#ef4444" 5
              (pre.foldl (spawnerCleanupStep o sp.zone)
                (enemies, particles, ([] : List String))).2.1,
            (pre.foldl (spawnerCleanupStep o sp.zone)
              (enemies, particles, ([] : List String))).2.2) := by
      rw [hids, List.foldl_append, List.foldl_cons, hstep, hout]
      simp only [Bool.false_eq_true, if_false]
    have hpost' := cleanup_fold_skip o sp.zone a post
      (killById (pre.foldl (spawnerCleanupStep o sp.zone)
          (enemies, particles, ([] : List String))).1 a,
        spawnParticles o
          { x := enemy.position.x + enemy.width / 2
            y := enemy.position.y + enemy.height / 2 } 10 "#ef4444" 5
          (pre.foldl (spawnerCleanupStep o sp.zone)
            (enemies, particles, ([] : List String))).2.1,
        (pre.foldl (spawnerCleanupStep o sp.zone)
          (enemies, particles, ([] : List String))).2.2) hpost
    obtain ⟨hI, hE⟩ := updateOneSpawner_parts o si enemies particles sp _ _ _ hcl
    constructor
    · have hm : a ∉ (post.foldl (spawnerCleanupStep o sp.zone)
          (killById (pre.foldl (spawnerCleanupStep o sp.zone)
              (enemies, particles, ([] : List String))).1 a,
            spawnParticles o
              { x := enemy.position.x + enemy.width / 2
                y := enemy.position.y + enemy.height / 2 } 10 "#ef4444" 5
              (pre.foldl (spawnerCleanupStep o sp.zone)
                (enemies, particles, ([] : List String))).2.1,
            (pre.foldl (spawnerCleanupStep o sp.zone)
              (enemies, particles, ([] : List String))).2.2)).2.2 :=
        fun h => (List.not_mem_nil a) (hpre'.2.mp (hpost'.2.mp h))
      rcases hI with hI | hI
      · rw [hI]; exact fun h => hm (List.mem_reverse.mp h)
      · rw [hI]
        intro h
        rcases List.mem_append.mp h with h | h
        · exact hm (List.mem_reverse.mp h)
        · exact hfresh (List.mem_singleton.mp h).symm
    · have hfd : (post.foldl (spawnerCleanupStep o sp.zone)
          (killById (pre.foldl (spawnerCleanupStep o sp.zone)
              (enemies, particles, ([] : List String))).1 a,
            spawnParticles o
              { x := enemy.position.x + enemy.width / 2
                y := enemy.position.y + enemy.height / 2 } 10 "#ef4444" 5
              (pre.foldl (spawnerCleanupStep o sp.zone)
                (enemies, particles, ([] : List String))).2.1,
            (pre.foldl (spawnerCleanupStep o sp.zone)
              (enemies, particles, ([] : List String))).2.2)).1.find?
          (fun e => e.id = a) =
          some { enemy with isDead := true, health := 0 } :=
        hpost'.1.trans (killById_find_self _ a enemy (hpre'.1.trans hfind))
      rcases hE with hE | ⟨ne, hE⟩
      · rw [hE]; exact hfd
      · rw [hE]; exact find?_append_some hfd

/-- The Scenario-5 arena spawner (sandbox level), owning one walker. -/
def scenarioSpawner : Spawner :=
  { id := "arena_spawner"
    zone := { x := 1600, y := -500, width := 1200, height := 1500 }
    maxEnemies := 10, spawnInterval := 120, spawnTimer := 5
    activeEnemyIds := ["w1"]
    enemyTemplate := {} }

/-- A live enemy owned by the scenario spawner, center at (2220, 930):
inside the horizontal bounds and above the bottom bound y = 1000. -/
def scenarioEnemy : Enemy :=
  { witnessWalker with id := "w1", position := { x := 2200, y := 900 } }

/-- Witness for C8: the Scenario-5 spawner keeps a live enemy drifting low
in the zone (center y = 930 ≤ 1000) and would kill it past the horizontal
bound. -/
theorem spawner_zone_rule_witness :
    (spawnerInBounds scenarioSpawner.zone
        (scenarioEnemy.position.x + scenarioEnemy.width / 2)
        (scenarioEnemy.position.y + scenarioEnemy.height / 2) = true →
      "w1" ∈ ((updateOneSpawner extZero 0 ([scenarioEnemy], [])
        scenarioSpawner).2).activeEnemyIds ∧
      ((updateOneSpawner extZero 0 ([scenarioEnemy], [])
        scenarioSpawner).1.1.find? (fun e => e.id = "w1")) =
        some scenarioEnemy) ∧
    (spawnerInBounds scenarioSpawner.zone
        (scenarioEnemy.position.x + scenarioEnemy.width / 2)
        (scenarioEnemy.position.y + scenarioEnemy.height / 2) = false →
      "w1" ∉ ((updateOneSpawner extZero 0 ([scenarioEnemy], [])
        scenarioSpawner).2).activeEnemyIds ∧
      ((updateOneSpawner extZero 0 ([scenarioEnemy], [])
        scenarioSpawner).1.1.find? (fun e => e.id = "w1")) =
        some { scenarioEnemy with isDead := true, health := 0 }) :=
  spawner_zone_rule extZero 0 [scenarioEnemy] [] scenarioSpawner "w1"
    scenarioEnemy [] [] rfl (by simp) (by simp) rfl rfl (by decide)


/-! ## Dash bookkeeping lemmas (C3, C4) -/

lemma tickTimers_dashCount (p : PhysicsProfile) (i : InputState)
    (pl : PlayerState) :
    (tickTimers p i pl).dashCount =
      if pl.dashCooldownTimer > 0 ∧ pl.dashCooldownTimer - 1 = 0 ∧
          (pl.dashCount : ℚ) ≥ p.maxDashes then 0
      else if pl.dashChainTimer > 0 ∧ pl.dashChainTimer - 1 = 0 ∧
          (pl.dashCount : ℚ) < p.maxDashes then 0
      else pl.dashCount := by
  simp only [tickTimers]
  simp
  split_ifs <;> simp_all

lemma tickTimers_dashTimer (p : PhysicsProfile) (i : InputState)
    (pl : PlayerState) :
    (tickTimers p i pl).dashTimer =
      if pl.dashTimer > 0 then pl.dashTimer - 1 else pl.dashTimer := by
  simp [tickTimers]

lemma tickTimers_dashCooldownTimer (p : PhysicsProfile) (i : InputState)
    (pl : PlayerState) :
    (tickTimers p i pl).dashCooldownTimer =
      if pl.dashCooldownTimer > 0 then pl.dashCooldownTimer - 1
      else pl.dashCooldownTimer := by
  simp [tickTimers]

@[simp] lemma dashPhase_position (p : PhysicsProfile) (i : InputState)
    (o : Ext) (s : GameState) :
    (dashPhase p i o s).player.position = s.player.position := by
  simp [dashPhase]

@[simp] lemma dashPhase_hitStopTimer (p : PhysicsProfile) (i : InputState)
    (o : Ext) (s : GameState) :
    (dashPhase p i o s).hitStopTimer = s.hitStopTimer := by
  simp [dashPhase]

@[simp] lemma dashPhase_enemies (p : PhysicsProfile) (i : InputState)
    (o : Ext) (s : GameState) :
    (dashPhase p i o s).enemies = s.enemies := by
  simp [dashPhase]

@[simp] lemma dashPhase_platforms (p : PhysicsProfile) (i : InputState)
    (o : Ext) (s : GameState) :
    (dashPhase p i o s).platforms = s.platforms := by
  simp [dashPhase]

@[simp] lemma dashPhase_spawners (p : PhysicsProfile) (i : InputState)
    (o : Ext) (s : GameState) :
    (dashPhase p i o s).spawners = s.spawners := by
  simp [dashPhase]

/-- While already dashing (or on no fresh press) the dash section only
refreshes the press edge sample. -/
lemma dashPhase_blocked (p : PhysicsProfile) (i : InputState) (o : Ext)
    (s : GameState) (h : s.player.isDashing = true) :
    dashPhase p i o s =
      { s with player := { s.player with lastDashInput := i.dash } } := by
  simp [dashPhase, h]

/-- A fresh dash press with zero cooldown and a spare charge starts a dash:
count up one, cooldown 120 at full count else 15, timers to
`dashDurationFrames`, chain timer 60, flat dash velocity. -/
lemma dashPhase_press (p : PhysicsProfile) (i : InputState) (o : Ext)
    (s : GameState) (hd : i.dash = true) (hl : s.player.lastDashInput = false)
    (hnd : s.player.isDashing = false) (hc : s.player.dashCooldownTimer = 0)
    (hcount : (s.player.dashCount : ℚ) < p.maxDashes) :
    (dashPhase p i o s).player.dashCount = s.player.dashCount + 1 ∧
    (dashPhase p i o s).player.dashCooldownTimer =
      (if ((s.player.dashCount + 1 : ℕ) : ℚ) ≥ p.maxDashes then 120 else 15) ∧
    (dashPhase p i o s).player.isDashing = true ∧
    (dashPhase p i o s).player.dashTimer = p.dashDurationFrames ∧
    (dashPhase p i o s).player.invincibilityTimer = p.dashDurationFrames ∧
    (dashPhase p i o s).player.dashChainTimer = 60 ∧
    (dashPhase p i o s).player.velocity.y = 0 := by
  simp [dashPhase, hd, hl, hnd, hc, hcount]

lemma dashPhase_dashCount_cases (p : PhysicsProfile) (i : InputState)
    (o : Ext) (s : GameState) :
    (dashPhase p i o s).player.dashCount = s.player.dashCount ∨
    ((dashPhase p i o s).player.dashCount = s.player.dashCount + 1 ∧
      (s.player.dashCount : ℚ) < p.maxDashes) := by
  simp only [dashPhase]
  split_ifs
  all_goals try (left; simp; done)
  all_goals (right; constructor)
  all_goals first
    | assumption
    | simp

/-- With no attack press the combat section only records the released edge
and clears `isAttacking` once the swing timer is spent. -/
lemma combatPhase_noAttack (p : PhysicsProfile) (i : InputState) (o : Ext)
    (s : GameState) (h : i.attack = false) :
    combatPhase p i o s =
      if s.player.attackTimer ≤ 0 then
        { s with player := { s.player with
            lastAttackInput := false
            isAttacking := false } }
      else { s with player := { s.player with lastAttackInput := false } } := by
  simp only [combatPhase, h, Bool.false_eq_true, false_and, if_false]

lemma combatPhase_isDashing_false (p : PhysicsProfile) (i : InputState)
    (o : Ext) (s : GameState) (h : s.player.isDashing = false) :
    (combatPhase p i o s).player.isDashing = false := by
  simp [combatPhase, dashAttackStart, airLauncherStart, standardComboStart,
    attackHitDetection, h]

lemma movePlayerStep_nil (sv : Vec2) (st : Vec2 × Vec2 × Bool) :
    movePlayerStep [] sv st =
      ({ x := st.1.x + sv.x, y := st.1.y + sv.y }, st.2.1, st.2.2) := rfl

/-- With no platforms and zero vertical velocity, the swept move leaves
height, velocity and groundedness (false) alone. -/
lemma movePlayer_nil (o : Ext) (b : Bool) (pl : PlayerState)
    (hvy : pl.velocity.y = 0) :
    (movePlayer o [] b pl).position.y = pl.position.y ∧
    (movePlayer o [] b pl).velocity = pl.velocity ∧
    (movePlayer o [] b pl).isGrounded = false := by
  have key : ∀ (l : List ℕ) (sv : Vec2) (st : Vec2 × Vec2 × Bool), sv.y = 0 →
      ((l.foldl (fun st _ => movePlayerStep [] sv st) st).1.y = st.1.y ∧
       (l.foldl (fun st _ => movePlayerStep [] sv st) st).2 = st.2) := by
    intro l
    induction l with
    | nil => exact fun sv st _ => ⟨rfl, rfl⟩
    | cons a tl ih =>
      intro sv st hy
      rw [List.foldl_cons]
      obtain ⟨h1, h2⟩ := ih sv (movePlayerStep [] sv st) hy
      rw [movePlayerStep_nil] at h1 h2
      refine ⟨h1.trans ?_, h2⟩
      simp [hy]
  simp only [movePlayer]
  set n := (⌈o.sqrt (pl.velocity.x ^ 2 + pl.velocity.y ^ 2) / 10⌉ : ℤ).toNat with hn
  set sv : Vec2 := { x := pl.velocity.x / (n : ℚ), y := pl.velocity.y / (n : ℚ) } with hsv
  have hy : sv.y = 0 := by rw [hsv]; simp [hvy]
  obtain ⟨h1, h2⟩ := key (List.range n) sv (pl.position, pl.velocity, false) hy
  exact ⟨h1, congrArg Prod.fst h2, congrArg Prod.snd h2⟩

lemma dashMovement_inl_eq (o : Ext) (s : GameState)
    (hd : s.player.isDashing = true) (ht : ¬s.player.dashTimer ≤ 0) :
    ∃ gh, dashMovement o s =
      Sum.inl { s with player := movePlayer o s.platforms true s.player
                       ghosts := gh } := by
  unfold dashMovement
  rw [if_pos hd, if_neg ht]
  exact ⟨_, rfl⟩

lemma dashMovement_inr_eq (o : Ext) (s : GameState)
    (hd : s.player.isDashing = true) (ht : s.player.dashTimer ≤ 0) :
    dashMovement o s = Sum.inr { s with player := { s.player with
      isDashing := false
      velocity := { s.player.velocity with
        x := s.player.velocity.x * 0.6 } } } := by
  unfold dashMovement
  rw [if_pos hd, if_pos ht]

@[simp] lemma deathCheck_dashCount (o : Ext) (s : GameState) :
    (deathCheck o s).player.dashCount = s.player.dashCount := by
  simp [deathCheck]

lemma updatePhysics_dashCount_eq (kp : ℚ) (profile : PhysicsProfile)
    (input : InputState) (o : Ext) (s : GameState)
    (hstop : ¬s.hitStopTimer > 0)
    (halive : ¬(s.player.health ≤ 0 ∨ s.player.position.y > kp)) :
    (updatePhysics kp profile input o s).player.dashCount =
      (dashPhase profile input o (combatPhase profile input o
        { s with player := tickTimers profile input s.player })).player.dashCount := by
  rw [updatePhysics_normal kp profile input o s hstop halive]
  cases hdm : dashMovement o (dashPhase profile input o (combatPhase profile input o
      { s with player := tickTimers profile input s.player })) with
  | inl t =>
    obtain ⟨pos, vel, g, gh, rfl⟩ := dashMovement_inl_frame o _ t hdm
    rfl
  | inr t =>
    obtain ⟨dsh, vel, rfl⟩ := dashMovement_inr_frame o _ t hdm
    rw [afterDash_dashCount]

lemma updatePhysics_dashCooldownTimer_eq (kp : ℚ) (profile : PhysicsProfile)
    (input : InputState) (o : Ext) (s : GameState)
    (hstop : ¬s.hitStopTimer > 0)
    (halive : ¬(s.player.health ≤ 0 ∨ s.player.position.y > kp)) :
    (updatePhysics kp profile input o s).player.dashCooldownTimer =
      (dashPhase profile input o (combatPhase profile input o
        { s with player := tickTimers profile input s.player })).player.dashCooldownTimer := by
  rw [updatePhysics_normal kp profile input o s hstop halive]
  cases hdm : dashMovement o (dashPhase profile input o (combatPhase profile input o
      { s with player := tickTimers profile input s.player })) with
  | inl t =>
    obtain ⟨pos, vel, g, gh, rfl⟩ := dashMovement_inl_frame o _ t hdm
    rfl
  | inr t =>
    obtain ⟨dsh, vel, rfl⟩ := dashMovement_inr_frame o _ t hdm
    rw [afterDash_dashCooldownTimer]


/-! ## C3 — dash charge bookkeeping -/

lemma updatePhysics_dashCount_le (kp : ℚ) (profile : PhysicsProfile)
    (input : InputState) (o : Ext) (s : GameState) (m : ℕ)
    (hm : profile.maxDashes = (m : ℚ)) (h : s.player.dashCount ≤ m) :
    (updatePhysics kp profile input o s).player.dashCount ≤ m := by
  by_cases hstop : s.hitStopTimer > 0
  · unfold updatePhysics
    rw [if_pos hstop]
    exact h
  · by_cases hdead : s.player.health ≤ 0 ∨ s.player.position.y > kp
    · unfold updatePhysics
      rw [if_neg hstop, if_pos hdead, deathCheck_dashCount]
      exact h
    · rw [updatePhysics_dashCount_eq kp profile input o s hstop hdead]
      rcases dashPhase_dashCount_cases profile input o (combatPhase profile
          input o { s with player := tickTimers profile input s.player })
        with hc | ⟨hc, hlt⟩
      · rw [hc, combatPhase_dashCount]
        show (tickTimers profile input s.player).dashCount ≤ m
        rw [tickTimers_dashCount]
        split_ifs
        · exact Nat.zero_le m
        · exact Nat.zero_le m
        · exact h
      · rw [hc, combatPhase_dashCount]
        rw [combatPhase_dashCount, hm] at hlt
        have hlt2 : ({ s with player := tickTimers profile input s.player } : GameState).player.dashCount < m := by
          exact_mod_cast hlt
        omega

/-- C3: under a fixed profile with `maxDashes = m`, (i) every reachable
state keeps `dashCount ≤ m`; (ii) the dash press that reaches full count
sets the long 120-frame cooldown (≥ the 15-frame between-charge cooldown);
(iii) a tick zeroes a nonzero `dashCount` only when the long cooldown hits
zero at full count or the chain timer hits zero below full count. -/
theorem dash_resources (kp : ℚ) (profile : PhysicsProfile)
    (level : LevelData) (m : ℕ) (hm : profile.maxDashes = (m : ℚ)) :
    (∀ s, Reachable kp profile level s → s.player.dashCount ≤ m) ∧
    (∀ (input : InputState) (o : Ext) (s : GameState),
      ¬s.hitStopTimer > 0 →
      ¬(s.player.health ≤ 0 ∨ s.player.position.y > kp) →
      input.dash = true → s.player.lastDashInput = false →
      s.player.isDashing = false →
      (tickTimers profile input s.player).dashCooldownTimer = 0 →
      ((tickTimers profile input s.player).dashCount : ℚ) < profile.maxDashes →
      (((tickTimers profile input s.player).dashCount + 1 : ℕ) : ℚ) ≥
        profile.maxDashes →
      (updatePhysics kp profile input o s).player.dashCooldownTimer = 120 ∧
        (15 : ℚ) ≤ 120) ∧
    (∀ (input : InputState) (o : Ext) (s : GameState),
      (updatePhysics kp profile input o s).player.dashCount = 0 →
      s.player.dashCount = 0 ∨
      (s.player.dashCooldownTimer = 1 ∧
        (s.player.dashCount : ℚ) ≥ profile.maxDashes) ∨
      (s.player.dashChainTimer = 1 ∧
        (s.player.dashCount : ℚ) < profile.maxDashes)) := by
  refine ⟨?_, ?_, ?_⟩
  · intro s hreach
    induction hreach with
    | refl => exact Nat.zero_le m
    | tail hab hstep ih =>
      cases hstep with
      | tick input o => exact updatePhysics_dashCount_le kp profile input o _ m hm ih
      | respawn ht => exact ih
  · intro input o s hstop halive hd hl hnd hcool hcount hge
    rw [updatePhysics_dashCooldownTimer_eq kp profile input o s hstop halive]
    have hlX : (combatPhase profile input o { s with
        player := tickTimers profile input s.player }).player.lastDashInput = false := by
      rw [combatPhase_lastDashInput]
      show (tickTimers profile input s.player).lastDashInput = false
      rw [tickTimers_lastDashInput]
      exact hl
    have hndX : (combatPhase profile input o { s with
        player := tickTimers profile input s.player }).player.isDashing = false := by
      refine combatPhase_isDashing_false profile input o _ ?_
      show (tickTimers profile input s.player).isDashing = false
      rw [tickTimers_isDashing]
      exact hnd
    have hcX : (combatPhase profile input o { s with
        player := tickTimers profile input s.player }).player.dashCooldownTimer = 0 := by
      rw [combatPhase_dashCooldownTimer]
      exact hcool
    have hcntX : ((combatPhase profile input o { s with
        player := tickTimers profile input s.player }).player.dashCount : ℚ) <
        profile.maxDashes := by
      rw [combatPhase_dashCount]
      exact hcount
    obtain ⟨-, h2, -, -, -, -, -⟩ := dashPhase_press profile input o
      (combatPhase profile input o { s with
        player := tickTimers profile input s.player }) hd hlX hndX hcX hcntX
    rw [h2]
    have hgeX : (((combatPhase profile input o { s with
        player := tickTimers profile input s.player }).player.dashCount + 1 : ℕ) : ℚ) ≥
        profile.maxDashes := by
      rw [combatPhase_dashCount]
      exact hge
    rw [if_pos hgeX]
    exact ⟨rfl, by norm_num⟩
  · intro input o s h0
    by_cases hstop : s.hitStopTimer > 0
    · left
      have he : (updatePhysics kp profile input o s).player.dashCount =
          s.player.dashCount := by
        unfold updatePhysics
        rw [if_pos hstop]
      rw [he] at h0
      exact h0
    · by_cases hdead : s.player.health ≤ 0 ∨ s.player.position.y > kp
      · left
        have he : (updatePhysics kp profile input o s).player.dashCount =
            s.player.dashCount := by
          unfold updatePhysics
          rw [if_neg hstop, if_pos hdead, deathCheck_dashCount]
        rw [he] at h0
        exact h0
      · rw [updatePhysics_dashCount_eq kp profile input o s hstop hdead] at h0
        rcases dashPhase_dashCount_cases profile input o (combatPhase profile
            input o { s with player := tickTimers profile input s.player })
          with hc | ⟨hc, -⟩
        · rw [hc, combatPhase_dashCount] at h0
          have h1 : (tickTimers profile input s.player).dashCount = 0 := h0
          rw [tickTimers_dashCount] at h1
          split_ifs at h1 with hA hB
          · right; left
            exact ⟨by linarith [hA.2.1], hA.2.2⟩
          · right; right
            exact ⟨by linarith [hB.2.1], hB.2.2⟩
          · left; exact h1
        · rw [hc] at h0
          exact absurd h0 (Nat.succ_ne_zero _)

/-- Witness for C3 at the default profile (`maxDashes = 3`) and the demo
level: the initial state respects the bound. -/
theorem dash_resources_witness :
    DEFAULT_PHYSICS_PROFILE.maxDashes = ((3 : ℕ) : ℚ) ∧
    (initialState demoLevel).player.dashCount ≤ 3 :=
  ⟨by norm_num [DEFAULT_PHYSICS_PROFILE],
   (dash_resources 1000 DEFAULT_PHYSICS_PROFILE demoLevel 3
       (by norm_num [DEFAULT_PHYSICS_PROFILE])).1 (initialState demoLevel)
     Relation.ReflTransGen.refl⟩


/-! ## C4 — dash press scenario -/

lemma combatPhase_noAttack_state (p : PhysicsProfile) (i : InputState)
    (o : Ext) (s : GameState) (h : i.attack = false) :
    (combatPhase p i o s).hitStopTimer = s.hitStopTimer ∧
    (combatPhase p i o s).platforms = s.platforms ∧
    (combatPhase p i o s).player.velocity = s.player.velocity ∧
    (combatPhase p i o s).player.isDashing = s.player.isDashing := by
  rw [combatPhase_noAttack p i o s h]
  split_ifs <;> exact ⟨rfl, rfl, rfl, rfl⟩

/-- The press tick of Scenario 2: a fresh dash press from rest starts the
dash and early-returns; every scenario-relevant register after the tick. -/
lemma dash_press_tick (kp : ℚ) (profile : PhysicsProfile) (i0 : InputState)
    (o0 : Ext) (s : GameState)
    (hstop : ¬s.hitStopTimer > 0)
    (halive : ¬(s.player.health ≤ 0 ∨ s.player.position.y > kp))
    (hd : i0.dash = true) (hatk0 : i0.attack = false)
    (hl : s.player.lastDashInput = false) (hnd : s.player.isDashing = false)
    (hcool : s.player.dashCooldownTimer = 0) (hcount : s.player.dashCount = 0)
    (hmax : profile.maxDashes = 3) (hplat : s.platforms = [])
    (hDpos : 0 < profile.dashDurationFrames) :
    (updatePhysics kp profile i0 o0 s).player.dashCount = 1 ∧
    (updatePhysics kp profile i0 o0 s).player.dashCooldownTimer = 15 ∧
    (updatePhysics kp profile i0 o0 s).player.invincibilityTimer =
      profile.dashDurationFrames ∧
    (updatePhysics kp profile i0 o0 s).player.isDashing = true ∧
    (updatePhysics kp profile i0 o0 s).player.dashTimer =
      profile.dashDurationFrames ∧
    (updatePhysics kp profile i0 o0 s).player.velocity.y = 0 ∧
    (updatePhysics kp profile i0 o0 s).player.health = s.player.health ∧
    (updatePhysics kp profile i0 o0 s).player.position.y =
      s.player.position.y ∧
    (updatePhysics kp profile i0 o0 s).hitStopTimer = s.hitStopTimer ∧
    (updatePhysics kp profile i0 o0 s).platforms = [] := by
  obtain ⟨hch, hcp, hcv, hcd⟩ := combatPhase_noAttack_state profile i0 o0
    { s with player := tickTimers profile i0 s.player } hatk0
  have hXlast : (combatPhase profile i0 o0 { s with
      player := tickTimers profile i0 s.player }).player.lastDashInput = false := by
    rw [combatPhase_lastDashInput]
    show (tickTimers profile i0 s.player).lastDashInput = false
    rw [tickTimers_lastDashInput]; exact hl
  have hXnd : (combatPhase profile i0 o0 { s with
      player := tickTimers profile i0 s.player }).player.isDashing = false := by
    rw [hcd]
    show (tickTimers profile i0 s.player).isDashing = false
    rw [tickTimers_isDashing]; exact hnd
  have hXcool : (combatPhase profile i0 o0 { s with
      player := tickTimers profile i0 s.player }).player.dashCooldownTimer = 0 := by
    rw [combatPhase_dashCooldownTimer]
    show (tickTimers profile i0 s.player).dashCooldownTimer = 0
    rw [tickTimers_dashCooldownTimer, hcool]
    norm_num
  have hXcnt0 : (combatPhase profile i0 o0 { s with
      player := tickTimers profile i0 s.player }).player.dashCount = 0 := by
    rw [combatPhase_dashCount]
    show (tickTimers profile i0 s.player).dashCount = 0
    rw [tickTimers_dashCount]
    split_ifs <;> first | rfl | exact hcount
  have hXcnt : ((combatPhase profile i0 o0 { s with
      player := tickTimers profile i0 s.player }).player.dashCount : ℚ) <
      profile.maxDashes := by
    rw [hXcnt0, hmax]; norm_num
  obtain ⟨p1, p2, p3, p4, p5, p6, p7⟩ := dashPhase_press profile i0 o0
    (combatPhase profile i0 o0 { s with
      player := tickTimers profile i0 s.player }) hd hXlast hXnd hXcool hXcnt
  have hZt : ¬(dashPhase profile i0 o0 (combatPhase profile i0 o0 { s with
      player := tickTimers profile i0 s.player })).player.dashTimer ≤ 0 := by
    rw [p4]; exact not_le.mpr hDpos
  obtain ⟨gh, hdm⟩ := dashMovement_inl_eq o0 _ p3 hZt
  have hZplat : (dashPhase profile i0 o0 (combatPhase profile i0 o0 { s with
      player := tickTimers profile i0 s.player })).platforms = [] := by
    rw [dashPhase_platforms, hcp]
    exact hplat
  have hs1 : updatePhysics kp profile i0 o0 s =
      { dashPhase profile i0 o0 (combatPhase profile i0 o0 { s with
          player := tickTimers profile i0 s.player }) with
        player := movePlayer o0 (dashPhase profile i0 o0
          (combatPhase profile i0 o0 { s with
            player := tickTimers profile i0 s.player })).platforms true
          (dashPhase profile i0 o0 (combatPhase profile i0 o0 { s with
            player := tickTimers profile i0 s.player })).player
        ghosts := gh } := by
    rw [updatePhysics_normal kp profile i0 o0 s hstop halive]
    cases hdm2 : dashMovement o0 (dashPhase profile i0 o0 (combatPhase profile
        i0 o0 { s with player := tickTimers profile i0 s.player })) with
    | inl u => exact (Sum.inl.injEq _ _).mp (hdm2.symm.trans hdm)
    | inr u => exact absurd (hdm2.symm.trans hdm) (by simp)
  obtain ⟨m1, m2, m3⟩ := movePlayer_nil o0 true (dashPhase profile i0 o0
    (combatPhase profile i0 o0 { s with
      player := tickTimers profile i0 s.player })).player p7
  rw [hs1]
  refine ⟨?_, ?_, ?_, ?_, ?_, ?_, ?_, ?_, ?_, ?_⟩
  · show (movePlayer o0 _ true _).dashCount = 1
    rw [movePlayer_dashCount, p1, hXcnt0]
  · show (movePlayer o0 _ true _).dashCooldownTimer = 15
    rw [movePlayer_dashCooldownTimer, p2, hXcnt0, if_neg]
    rw [hmax]
    norm_num
  · show (movePlayer o0 _ true _).invincibilityTimer = _
    rw [movePlayer_invincibilityTimer, p5]
  · show (movePlayer o0 _ true _).isDashing = true
    rw [movePlayer_isDashing, p3]
  · show (movePlayer o0 _ true _).dashTimer = _
    rw [movePlayer_dashTimer, p4]
  · show (movePlayer o0 _ true _).velocity.y = 0
    rw [hZplat, m2]; exact p7
  · show (movePlayer o0 _ true _).health = s.player.health
    rw [movePlayer_health, dashPhase_health, combatPhase_health]
    show (tickTimers profile i0 s.player).health = s.player.health
    rw [tickTimers_health]
  · show (movePlayer o0 _ true _).position.y = s.player.position.y
    rw [hZplat, m1, dashPhase_position]
    show (combatPhase profile i0 o0 _).player.position.y = s.player.position.y
    rw [combatPhase_position]
    show (tickTimers profile i0 s.player).position.y = s.player.position.y
    rw [tickTimers_position]
  · show (dashPhase profile i0 o0 _).hitStopTimer = s.hitStopTimer
    rw [dashPhase_hitStopTimer, hch]
  · show (dashPhase profile i0 o0 _).platforms = []
    exact hZplat

/-- A mid-dash tick whose decremented dash timer is still positive: the
dash movement early-returns, everything scenario-relevant is carried. -/
lemma dash_early_tick (kp : ℚ) (profile : PhysicsProfile) (i : InputState)
    (o : Ext) (t : GameState)
    (hatk : i.attack = false)
    (hdash : t.player.isDashing = true)
    (htimer : 0 < t.player.dashTimer)
    (hleft : 0 < t.player.dashTimer - 1)
    (hvy : t.player.velocity.y = 0)
    (hstop : ¬t.hitStopTimer > 0)
    (halive : ¬(t.player.health ≤ 0 ∨ t.player.position.y > kp))
    (hplat : t.platforms = []) :
    (updatePhysics kp profile i o t).player.isDashing = true ∧
    (updatePhysics kp profile i o t).player.dashTimer =
      t.player.dashTimer - 1 ∧
    (updatePhysics kp profile i o t).player.velocity.y = 0 ∧
    (updatePhysics kp profile i o t).player.health = t.player.health ∧
    (updatePhysics kp profile i o t).player.position.y =
      t.player.position.y ∧
    (updatePhysics kp profile i o t).hitStopTimer = t.hitStopTimer ∧
    (updatePhysics kp profile i o t).platforms = [] := by
  obtain ⟨hch, hcp, hcv, hcd⟩ := combatPhase_noAttack_state profile i o
    { t with player := tickTimers profile i t.player } hatk
  have hXd : (combatPhase profile i o { t with
      player := tickTimers profile i t.player }).player.isDashing = true := by
    rw [hcd]
    show (tickTimers profile i t.player).isDashing = true
    rw [tickTimers_isDashing]; exact hdash
  have hblocked := dashPhase_blocked profile i o
    (combatPhase profile i o { t with
      player := tickTimers profile i t.player }) hXd
  have hXt : (combatPhase profile i o { t with
      player := tickTimers profile i t.player }).player.dashTimer =
      t.player.dashTimer - 1 := by
    rw [combatPhase_dashTimer]
    show (tickTimers profile i t.player).dashTimer = t.player.dashTimer - 1
    rw [tickTimers_dashTimer, if_pos htimer]
  have hZd : (dashPhase profile i o (combatPhase profile i o { t with
      player := tickTimers profile i t.player })).player.isDashing = true := by
    rw [hblocked]; exact hXd
  have hZt : ¬(dashPhase profile i o (combatPhase profile i o { t with
      player := tickTimers profile i t.player })).player.dashTimer ≤ 0 := by
    rw [hblocked]
    show ¬(combatPhase profile i o _).player.dashTimer ≤ 0
    rw [hXt]
    exact not_le.mpr hleft
  obtain ⟨gh, hdm⟩ := dashMovement_inl_eq o _ hZd hZt
  have hZplat : (dashPhase profile i o (combatPhase profile i o { t with
      player := tickTimers profile i t.player })).platforms = [] := by
    rw [dashPhase_platforms, hcp]
    exact hplat
  have hZvy : (dashPhase profile i o (combatPhase profile i o { t with
      player := tickTimers profile i t.player })).player.velocity.y = 0 := by
    rw [hblocked]
    show (combatPhase profile i o _).player.velocity.y = 0
    rw [hcv]
    show (tickTimers profile i t.player).velocity.y = 0
    rw [tickTimers_velocity]
    exact hvy
  have hs1 : updatePhysics kp profile i o t =
      { dashPhase profile i o (combatPhase profile i o { t with
          player := tickTimers profile i t.player }) with
        player := movePlayer o (dashPhase profile i o
          (combatPhase profile i o { t with
            player := tickTimers profile i t.player })).platforms true
          (dashPhase profile i o (combatPhase profile i o { t with
            player := tickTimers profile i t.player })).player
        ghosts := gh } := by
    rw [updatePhysics_normal kp profile i o t hstop halive]
    cases hdm2 : dashMovement o (dashPhase profile i o (combatPhase profile
        i o { t with player := tickTimers profile i t.player })) with
    | inl u => exact (Sum.inl.injEq _ _).mp (hdm2.symm.trans hdm)
    | inr u => exact absurd (hdm2.symm.trans hdm) (by simp)
  obtain ⟨m1, m2, m3⟩ := movePlayer_nil o true (dashPhase profile i o
    (combatPhase profile i o { t with
      player := tickTimers profile i t.player })).player hZvy
  rw [hs1]
  refine ⟨?_, ?_, ?_, ?_, ?_, ?_, ?_⟩
  · show (movePlayer o _ true _).isDashing = true
    rw [movePlayer_isDashing, hZd]
  · show (movePlayer o _ true _).dashTimer = t.player.dashTimer - 1
    rw [movePlayer_dashTimer, hblocked]
    exact hXt
  · show (movePlayer o _ true _).velocity.y = 0
    rw [hZplat, m2]; exact hZvy
  · show (movePlayer o _ true _).health = t.player.health
    rw [movePlayer_health, dashPhase_health, combatPhase_health]
    show (tickTimers profile i t.player).health = t.player.health
    rw [tickTimers_health]
  · show (movePlayer o _ true _).position.y = t.player.position.y
    rw [hZplat, m1, dashPhase_position]
    show (combatPhase profile i o _).player.position.y = t.player.position.y
    rw [combatPhase_position]
    show (tickTimers profile i t.player).position.y = t.player.position.y
    rw [tickTimers_position]
  · show (dashPhase profile i o _).hitStopTimer = t.hitStopTimer
    rw [dashPhase_hitStopTimer, hch]
  · show (dashPhase profile i o _).platforms = []
    exact hZplat

/-- The tick that spends the last dash frame: the dash ends. -/
lemma dash_last_tick (kp : ℚ) (profile : PhysicsProfile) (i : InputState)
    (o : Ext) (t : GameState)
    (hatk : i.attack = false)
    (hdash : t.player.isDashing = true)
    (htimer : 0 < t.player.dashTimer)
    (hdone : t.player.dashTimer - 1 ≤ 0)
    (hstop : ¬t.hitStopTimer > 0)
    (halive : ¬(t.player.health ≤ 0 ∨ t.player.position.y > kp)) :
    (updatePhysics kp profile i o t).player.isDashing = false := by
  obtain ⟨hch, hcp, hcv, hcd⟩ := combatPhase_noAttack_state profile i o
    { t with player := tickTimers profile i t.player } hatk
  have hXd : (combatPhase profile i o { t with
      player := tickTimers profile i t.player }).player.isDashing = true := by
    rw [hcd]
    show (tickTimers profile i t.player).isDashing = true
    rw [tickTimers_isDashing]; exact hdash
  have hblocked := dashPhase_blocked profile i o
    (combatPhase profile i o { t with
      player := tickTimers profile i t.player }) hXd
  have hXt : (combatPhase profile i o { t with
      player := tickTimers profile i t.player }).player.dashTimer =
      t.player.dashTimer - 1 := by
    rw [combatPhase_dashTimer]
    show (tickTimers profile i t.player).dashTimer = t.player.dashTimer - 1
    rw [tickTimers_dashTimer, if_pos htimer]
  have hZd : (dashPhase profile i o (combatPhase profile i o { t with
      player := tickTimers profile i t.player })).player.isDashing = true := by
    rw [hblocked]; exact hXd
  have hZt : (dashPhase profile i o (combatPhase profile i o { t with
      player := tickTimers profile i t.player })).player.dashTimer ≤ 0 := by
    rw [hblocked]
    show (combatPhase profile i o _).player.dashTimer ≤ 0
    rw [hXt]
    exact hdone
  have hdm := dashMovement_inr_eq o _ hZd hZt
  rw [updatePhysics_normal kp profile i o t hstop halive, hdm]
  rw [afterDash_isDashing]

/-- Iterated fixed ticks with per-tick input and environment samples. -/
def tickSeq (kp : ℚ) (profile : PhysicsProfile) (inputs : ℕ → InputState)
    (os : ℕ → Ext) (s : GameState) : ℕ → GameState
  | 0 => s
  | j + 1 => updatePhysics kp profile (inputs j) (os j)
      (tickSeq kp profile inputs os s j)

/-- C4 (Scenario 2): from rest (`dashCooldownTimer = 0`, `dashCount = 0`,
`maxDashes = 3`, not dashing), a fresh dash press makes that tick set
`dashCount = 1`, `dashCooldownTimer = 15` (the short between-charge value)
and `invincibilityTimer = dashDurationFrames`; with attack released on the
following ticks the player then stays `isDashing` for exactly
`dashDurationFrames` ticks. -/
theorem dash_scenario (kp : ℚ) (profile : PhysicsProfile) (i0 : InputState)
    (o0 : Ext) (inputs : ℕ → InputState) (os : ℕ → Ext) (s : GameState)
    (D : ℕ) (hD : profile.dashDurationFrames = (D : ℚ)) (hD1 : 1 ≤ D)
    (hstop : ¬s.hitStopTimer > 0)
    (halive : ¬(s.player.health ≤ 0 ∨ s.player.position.y > kp))
    (hd : i0.dash = true) (hatk0 : i0.attack = false)
    (hl : s.player.lastDashInput = false) (hnd : s.player.isDashing = false)
    (hcool : s.player.dashCooldownTimer = 0) (hcount : s.player.dashCount = 0)
    (hmax : profile.maxDashes = 3) (hplat : s.platforms = [])
    (hattacks : ∀ j, (inputs j).attack = false) :
    (updatePhysics kp profile i0 o0 s).player.dashCount = 1 ∧
    (updatePhysics kp profile i0 o0 s).player.dashCooldownTimer = 15 ∧
    (updatePhysics kp profile i0 o0 s).player.invincibilityTimer =
      profile.dashDurationFrames ∧
    (∀ k, k ≤ D - 1 →
      (tickSeq kp profile inputs os
        (updatePhysics kp profile i0 o0 s) k).player.isDashing = true) ∧
    (tickSeq kp profile inputs os
      (updatePhysics kp profile i0 o0 s) D).player.isDashing = false := by
  have hDq : (0 : ℚ) < (D : ℚ) := by exact_mod_cast Nat.lt_of_lt_of_le Nat.zero_lt_one hD1
  have hDpos : 0 < profile.dashDurationFrames := by rw [hD]; exact hDq
  obtain ⟨q1, q2, q3, q4, q5, q6, q7, q8, q9, q10⟩ :=
    dash_press_tick kp profile i0 o0 s hstop halive hd hatk0 hl hnd hcool
      hcount hmax hplat hDpos
  have hal : ¬(s.player.health ≤ 0 ∨ s.player.position.y > kp) := halive
  push_neg at hal
  have inv : ∀ k, k ≤ D - 1 →
      (tickSeq kp profile inputs os (updatePhysics kp profile i0 o0 s)
        k).player.isDashing = true ∧
      (tickSeq kp profile inputs os (updatePhysics kp profile i0 o0 s)
        k).player.dashTimer = (D : ℚ) - (k : ℕ) ∧
      (tickSeq kp profile inputs os (updatePhysics kp profile i0 o0 s)
        k).player.velocity.y = 0 ∧
      (tickSeq kp profile inputs os (updatePhysics kp profile i0 o0 s)
        k).player.health = s.player.health ∧
      (tickSeq kp profile inputs os (updatePhysics kp profile i0 o0 s)
        k).player.position.y = s.player.position.y ∧
      (tickSeq kp profile inputs os (updatePhysics kp profile i0 o0 s)
        k).hitStopTimer = s.hitStopTimer ∧
      (tickSeq kp profile inputs os (updatePhysics kp profile i0 o0 s)
        k).platforms = [] := by
    intro k
    induction k with
    | zero =>
      intro _
      refine ⟨q4, ?_, q6, q7, q8, q9, q10⟩
      show (updatePhysics kp profile i0 o0 s).player.dashTimer = _
      rw [q5, hD]
      norm_num
    | succ k ih =>
      intro hk
      obtain ⟨j1, j2, j3, j4, j5, j6, j7⟩ := ih (by omega)
      have hkD : ((k : ℚ) + 1) < (D : ℚ) := by
        have : k + 1 < D := by omega
        exact_mod_cast this
      have htm : 0 < (tickSeq kp profile inputs os
          (updatePhysics kp profile i0 o0 s) k).player.dashTimer := by
        rw [j2]
        have : (k : ℚ) < (D : ℚ) := by linarith
        linarith
      have hlf : 0 < (tickSeq kp profile inputs os
          (updatePhysics kp profile i0 o0 s) k).player.dashTimer - 1 := by
        rw [j2]
        linarith
      have hst : ¬(tickSeq kp profile inputs os
          (updatePhysics kp profile i0 o0 s) k).hitStopTimer > 0 := by
        rw [j6]; exact hstop
      have halk : ¬((tickSeq kp profile inputs os
          (updatePhysics kp profile i0 o0 s) k).player.health ≤ 0 ∨
          (tickSeq kp profile inputs os
            (updatePhysics kp profile i0 o0 s) k).player.position.y > kp) := by
        rw [j4, j5]
        push_neg
        exact hal
      obtain ⟨e1, e2, e3, e4, e5, e6, e7⟩ := dash_early_tick kp profile
        (inputs k) (os k) _ (hattacks k) j1 htm hlf j3 hst halk j7
      refine ⟨e1, ?_, e3, ?_, ?_, ?_, e7⟩
      · show (updatePhysics kp profile (inputs k) (os k) _).player.dashTimer = _
        rw [e2, j2]
        push_cast
        ring
      · show (updatePhysics kp profile (inputs k) (os k) _).player.health = _
        rw [e4, j4]
      · show (updatePhysics kp profile (inputs k) (os k) _).player.position.y = _
        rw [e5, j5]
      · show (updatePhysics kp profile (inputs k) (os k) _).hitStopTimer = _
        rw [e6, j6]
  refine ⟨q1, q2, q3, fun k hk => (inv k hk).1, ?_⟩
  obtain ⟨j1, j2, j3, j4, j5, j6, j7⟩ := inv (D - 1) le_rfl
  have hDD : D - 1 + 1 = D := Nat.succ_pred_eq_of_pos hD1
  have hcast : ((D - 1 : ℕ) : ℚ) = (D : ℚ) - 1 := by
    have := Nat.cast_sub hD1 (R := ℚ)
    simpa using this
  have htm : 0 < (tickSeq kp profile inputs os
      (updatePhysics kp profile i0 o0 s) (D - 1)).player.dashTimer := by
    rw [j2, hcast]
    norm_num
  have hdone : (tickSeq kp profile inputs os
      (updatePhysics kp profile i0 o0 s) (D - 1)).player.dashTimer - 1 ≤ 0 := by
    rw [j2, hcast]
    ring_nf
    norm_num
  have hst : ¬(tickSeq kp profile inputs os
      (updatePhysics kp profile i0 o0 s) (D - 1)).hitStopTimer > 0 := by
    rw [j6]; exact hstop
  have halk : ¬((tickSeq kp profile inputs os
      (updatePhysics kp profile i0 o0 s) (D - 1)).player.health ≤ 0 ∨
      (tickSeq kp profile inputs os
        (updatePhysics kp profile i0 o0 s) (D - 1)).player.position.y > kp) := by
    rw [j4, j5]
    push_neg
    exact hal
  have hfin := dash_last_tick kp profile (inputs (D - 1)) (os (D - 1)) _
    (hattacks (D - 1)) j1 htm hdone hst halk
  rw [← hDD]
  exact hfin

/-- Witness for C4: the concrete demo state, default profile
(`dashDurationFrames = 8`, `maxDashes = 3`), constant no-op follow-up
input. -/
theorem dash_scenario_witness :
    (updatePhysics 1000 DEFAULT_PHYSICS_PROFILE
      { inputNone with dash := true } extZero demoState).player.dashCount = 1 ∧
    (updatePhysics 1000 DEFAULT_PHYSICS_PROFILE
      { inputNone with dash := true } extZero
        demoState).player.dashCooldownTimer = 15 ∧
    (updatePhysics 1000 DEFAULT_PHYSICS_PROFILE
      { inputNone with dash := true } extZero
        demoState).player.invincibilityTimer =
      DEFAULT_PHYSICS_PROFILE.dashDurationFrames ∧
    (∀ k, k ≤ 8 - 1 →
      (tickSeq 1000 DEFAULT_PHYSICS_PROFILE (fun _ => inputNone)
        (fun _ => extZero)
        (updatePhysics 1000 DEFAULT_PHYSICS_PROFILE
          { inputNone with dash := true } extZero demoState)
        k).player.isDashing = true) ∧
    (tickSeq 1000 DEFAULT_PHYSICS_PROFILE (fun _ => inputNone)
      (fun _ => extZero)
      (updatePhysics 1000 DEFAULT_PHYSICS_PROFILE
        { inputNone with dash := true } extZero demoState)
      8).player.isDashing = false :=
  dash_scenario 1000 DEFAULT_PHYSICS_PROFILE
    { inputNone with dash := true } extZero (fun _ => inputNone)
    (fun _ => extZero) demoState 8
    (by norm_num [DEFAULT_PHYSICS_PROFILE]) (by norm_num)
    (by norm_num [demoState, initialState])
    (by norm_num [demoState, initialState, demoLevel, PLAYER_MAX_HEALTH])
    rfl rfl rfl rfl rfl rfl
    (by norm_num [DEFAULT_PHYSICS_PROFILE]) rfl (fun _ => rfl)


/-! ## C2 — health bounds and death entry -/

@[simp] lemma deathCheck_health (o : Ext) (s : GameState) :
    (deathCheck o s).player.health = s.player.health := by
  simp [deathCheck]

@[simp] lemma deathCheck_maxHealth (o : Ext) (s : GameState) :
    (deathCheck o s).player.maxHealth = s.player.maxHealth := by
  simp [deathCheck]

lemma deathCheck_dead_noop (o : Ext) (s : GameState)
    (h : s.player.isDead = true) : deathCheck o s = s := by
  simp [deathCheck, h]

lemma phases_health_eq (profile : PhysicsProfile) (input : InputState)
    (o : Ext) (s : GameState) :
    (dashPhase profile input o (combatPhase profile input o { s with
      player := tickTimers profile input s.player })).player.health =
      s.player.health := by
  rw [dashPhase_health, combatPhase_health]
  show (tickTimers profile input s.player).health = s.player.health
  rw [tickTimers_health]

lemma phases_maxHealth_eq (profile : PhysicsProfile) (input : InputState)
    (o : Ext) (s : GameState) :
    (dashPhase profile input o (combatPhase profile input o { s with
      player := tickTimers profile input s.player })).player.maxHealth =
      s.player.maxHealth := by
  rw [dashPhase_maxHealth, combatPhase_maxHealth]
  show (tickTimers profile input s.player).maxHealth = s.player.maxHealth
  rw [tickTimers_maxHealth]

/-- A fixed tick never increases the player's health. -/
lemma updatePhysics_health_le (kp : ℚ) (profile : PhysicsProfile)
    (input : InputState) (o : Ext) (s : GameState) :
    (updatePhysics kp profile input o s).player.health ≤ s.player.health := by
  by_cases hstop : s.hitStopTimer > 0
  · unfold updatePhysics
    rw [if_pos hstop]
  · by_cases hdead : s.player.health ≤ 0 ∨ s.player.position.y > kp
    · unfold updatePhysics
      rw [if_neg hstop, if_pos hdead, deathCheck_health]
    · rw [updatePhysics_normal kp profile input o s hstop hdead]
      cases hdm : dashMovement o (dashPhase profile input o (combatPhase
          profile input o { s with
            player := tickTimers profile input s.player })) with
      | inl t =>
        obtain ⟨pos, vel, g, gh, rfl⟩ := dashMovement_inl_frame o _ t hdm
        show (dashPhase profile input o (combatPhase profile input o { s with
          player := tickTimers profile input s.player })).player.health ≤
          s.player.health
        exact le_of_eq (phases_health_eq profile input o s)
      | inr t =>
        obtain ⟨dsh, vel, rfl⟩ := dashMovement_inr_frame o _ t hdm
        refine le_trans (afterDash_health_le profile input o _) ?_
        show (dashPhase profile input o (combatPhase profile input o { s with
          player := tickTimers profile input s.player })).player.health ≤
          s.player.health
        exact le_of_eq (phases_health_eq profile input o s)

/-- A fixed tick never changes the player's max health. -/
lemma updatePhysics_maxHealth (kp : ℚ) (profile : PhysicsProfile)
    (input : InputState) (o : Ext) (s : GameState) :
    (updatePhysics kp profile input o s).player.maxHealth =
      s.player.maxHealth := by
  by_cases hstop : s.hitStopTimer > 0
  · unfold updatePhysics
    rw [if_pos hstop]
  · by_cases hdead : s.player.health ≤ 0 ∨ s.player.position.y > kp
    · unfold updatePhysics
      rw [if_neg hstop, if_pos hdead, deathCheck_maxHealth]
    · rw [updatePhysics_normal kp profile input o s hstop hdead]
      cases hdm : dashMovement o (dashPhase profile input o (combatPhase
          profile input o { s with
            player := tickTimers profile input s.player })) with
      | inl t =>
        obtain ⟨pos, vel, g, gh, rfl⟩ := dashMovement_inl_frame o _ t hdm
        show (dashPhase profile input o (combatPhase profile input o { s with
          player := tickTimers profile input s.player })).player.maxHealth =
          s.player.maxHealth
        exact phases_maxHealth_eq profile input o s
      | inr t =>
        obtain ⟨dsh, vel, rfl⟩ := dashMovement_inr_frame o _ t hdm
        rw [afterDash_maxHealth]
        show (dashPhase profile input o (combatPhase profile input o { s with
          player := tickTimers profile input s.player })).player.maxHealth =
          s.player.maxHealth
        exact phases_maxHealth_eq profile input o s

/-- The C2 counterexample victim: 10 health, vulnerable, in front of a
walker's active swing. -/
def cexAi : AiCtx :=
  { player := { demoState.player with
      health := 10
      position := { x := 70, y := 500 } }
    screenShake := 0
    particles := []
    damageNumbers := []
    activeVfx := [] }

/-- The swinging walker for the C2 counterexample (facing left, melee
window active). -/
def cexMeleeWalker : Enemy :=
  { id := "cw", type := .WALKER
    position := { x := 100, y := 500 }, velocity := { x := 0, y := 0 }
    width := 40, height := 60, health := 60, maxHealth := 60, isDead := false
    color := "#dc2626", hitTimer := 0, state := .ATTACK, facingRight := false
    patrolOriginX := 100, patrolRange := 0, detectionRange := 600
    attackRange := 60, attackCooldownTimer := 0, chargeTimer := 0
    attackDurationTimer := 10, laserData := none }

/-- C2 counterexample: the walker's melee path calls `damagePlayer(15)`
with no lower clamp — the surviving health is −5, strictly below the
claimed `[0, maxHealth]` range (and the HUD prints this raw value). -/
theorem health_clamp_cex :
    cexAi.player.health = 10 ∧
    cexAi.player.invincibilityTimer = 0 ∧
    cexAi.player.isDead = false ∧
    (walkerMelee extZero 0 cexAi cexMeleeWalker).player.health = -5 ∧
    (walkerMelee extZero 0 cexAi cexMeleeWalker).player.health < 0 := by
  refine ⟨rfl, rfl, rfl, ?_, ?_⟩ <;>
    norm_num [walkerMelee, damagePlayer, checkRectOverlap, cexAi,
      cexMeleeWalker, demoState, initialState, demoLevel, PLAYER_WIDTH,
      PLAYER_HEIGHT]

/-- C2 (amended): health never exceeds `maxHealth` along any reachable
play (ticks only ever lower it, `maxHealth` is constant, the respawn
restores it exactly); while dead with nonpositive health and no hit-stop a
tick is a no-op, so death is not re-entered before the respawn, which
clears `isDead` and restores full health.  The lower bound 0 of the claim
is false: `damagePlayer` subtracts with no clamp (see the
counterexample). -/
theorem health_invariants (kp : ℚ) (profile : PhysicsProfile)
    (level : LevelData) :
    (∀ s, Reachable kp profile level s →
      s.player.health ≤ s.player.maxHealth) ∧
    (∀ (s : GameState) (input : InputState) (o : Ext),
      s.player.isDead = true → ¬s.hitStopTimer > 0 → s.player.health ≤ 0 →
      updatePhysics kp profile input o s = s) ∧
    (∀ s : GameState, (respawnPlayer s).player.health = s.player.maxHealth ∧
      (respawnPlayer s).player.isDead = false) := by
  refine ⟨?_, ?_, ?_⟩
  · intro s h
    induction h with
    | refl => exact le_rfl
    | tail hab hstep ih =>
      cases hstep with
      | tick input o =>
        exact le_trans (updatePhysics_health_le kp profile input o _)
          (le_trans ih (le_of_eq
            (updatePhysics_maxHealth kp profile input o _).symm))
      | respawn ht => exact le_rfl
  · intro s input o hdead hstop hh
    unfold updatePhysics
    rw [if_neg hstop, if_pos (Or.inl hh)]
    exact deathCheck_dead_noop o s hdead
  · intro s
    exact ⟨rfl, rfl⟩


/-! ## C5 — hit-stop freeze -/

/-- C5: a tick that begins with `hitStopTimer > 0` decrements that timer by
exactly one and leaves every other field of `GameState` (player, enemies,
spawners, companion, camera, particles, timers) unchanged. -/
theorem hitStop_freezes_tick (kp : ℚ) (profile : PhysicsProfile)
    (input : InputState) (o : Ext) (s : GameState)
    (h : s.hitStopTimer > 0) :
    updatePhysics kp profile input o s = { s with hitStopTimer := s.hitStopTimer - 1 } := by
  unfold updatePhysics
  rw [if_pos h]

/-- Witness for C5 at a concrete frozen state. -/
theorem hitStop_freezes_tick_witness :
    updatePhysics 1000 DEFAULT_PHYSICS_PROFILE inputNone extZero
      { demoState with hitStopTimer := 3 }
      = { { demoState with hitStopTimer := 3 } with hitStopTimer := 3 - 1 } :=
  hitStop_freezes_tick 1000 DEFAULT_PHYSICS_PROFILE inputNone extZero
    { demoState with hitStopTimer := 3 } (by norm_num)

/-! ## C10 — `movePlayer` at zero velocity -/

/-- C10: at zero velocity the sub-step count is `ceil(0/10) = 0` (in the
source the per-step velocity is then the division `0/0`, i.e. `NaN`), the
sub-step loop body never executes, the position (and velocity) are left
exactly unchanged — no `NaN` is ever written — and `isGrounded` is still
reset to `false`.  The only fact needed about the environment is
`Math.sqrt(0) = 0`. -/
theorem movePlayer_zero_velocity (o : Ext) (platforms : List Platform)
    (b : Bool) (player : PlayerState)
    (hv : player.velocity = { x := 0, y := 0 })
    (hs : o.sqrt 0 = 0) :
    ((⌈o.sqrt (player.velocity.x ^ 2 + player.velocity.y ^ 2) / 10⌉ : ℤ).toNat = 0)
      ∧ movePlayer o platforms b player = { player with isGrounded := false } := by
  have h0 : player.velocity.x ^ 2 + player.velocity.y ^ 2 = 0 := by
    rw [hv]; norm_num
  constructor
  · rw [h0, hs]; norm_num
  · unfold movePlayer
    rw [h0, hs]
    norm_num

/-- Witness for C10: a concrete stationary player. -/
theorem movePlayer_zero_velocity_witness :
    movePlayer extZero [] false demoState.player
      = { demoState.player with isGrounded := false } :=
  (movePlayer_zero_velocity extZero [] false demoState.player rfl rfl).2

end Game
